import Mathlib

/-!
# EventManager: approval workflow and event visibility

A shallow embedding of the request handlers of `src/backend/server.js`.
The relational store is a record of row lists, one list per table; every SQL
statement a handler issues is written out as the list computation it denotes
(selection = `filter`, `JOIN` = nested iteration, `UPDATE` = `map`,
`SELECT DISTINCT` = `dedup`).  SQL comparisons are three-valued, and a `WHERE`
or `ON` clause keeps a row only when the condition is TRUE.

A handler that reads takes the store and returns the response; a handler that
writes returns the response together with the store after the request.  Ids
are natural numbers; a nullable column is an `Option`.  A handler takes the
outcome of its calls to the store as an argument (`Faults`), and its `catch`
branches answer from it.  The approval routes, `joinRSO` and the three scope
queries come in two layers: the path where the store executes each statement
(`approveRSO`, ...), and the route with its `catch` around it
(`approveRSORoute`, ...).  `serve` is one request served, for every route of
the server, and `run` a sequence of requests.
-/

namespace EventManager

/-! ## SQL truth values and joins -/

/-- SQL truth value: TRUE, FALSE, or NULL (unknown). -/
inductive SqlBool where
  | tt
  | ff
  | null
deriving DecidableEq

/-- SQL `AND` on three-valued truth values. -/
def SqlBool.and : SqlBool → SqlBool → SqlBool
  | .ff, _ => .ff
  | _, .ff => .ff
  | .tt, .tt => .tt
  | _, _ => .null

/-- SQL `OR` on three-valued truth values. -/
def SqlBool.or : SqlBool → SqlBool → SqlBool
  | .tt, _ => .tt
  | _, .tt => .tt
  | .ff, .ff => .ff
  | _, _ => .null

/-- A `WHERE` / `ON` condition keeps a row only when it evaluates to TRUE. -/
def SqlBool.holds : SqlBool → Bool
  | .tt => true
  | _ => false

/-- SQL `=`: NULL when either side is NULL (`none`). -/
def sqlEq {α : Type} [DecidableEq α] : Option α → Option α → SqlBool
  | some a, some b => if a = b then .tt else .ff
  | _, _ => .null

/-- SQL `x IN (v1, ..., vn)` for a list of non-NULL values. -/
def sqlIn {α : Type} [DecidableEq α] : Option α → List α → SqlBool
  | some a, vs => if a ∈ vs then .tt else .ff
  | none, _ => .null

/-- Inner `JOIN ... ON`: every pair of a left and a right row satisfying the condition. -/
def innerJoin {α β : Type} (l : List α) (r : List β) (cond : α → β → SqlBool) : List (α × β) :=
  l.flatMap fun a => (r.filter fun b => (cond a b).holds).map fun b => (a, b)

/-- `LEFT JOIN ... ON`: as the inner join, but a left row with no partner is kept once,
paired with NULL (`none`). -/
def leftJoin {α β : Type} (l : List α) (r : List β) (cond : α → β → SqlBool) :
    List (α × Option β) :=
  l.flatMap fun a =>
    match r.filter fun b => (cond a b).holds with
    | [] => [(a, none)]
    | b :: bs => (b :: bs).map fun b' => (a, some b')

/-! ## Tables

The columns are those named by the SQL statements of `server.js`. -/

/-- Row of `Users`. -/
structure User where
  user_id : Nat
  email : String := ""
  password_hash : String := ""
  role : String := "student"
deriving DecidableEq

/-- Row of `Universities`. -/
structure University where
  university_id : Nat
  name : String := ""
  location : String := ""
  description : String := ""
  num_students : Nat := 0
  website : String := ""
  user_id : Nat
  status : String := "pending"
deriving DecidableEq

/-- Row of `Students`. -/
structure Student where
  student_id : Nat
  first_name : String := ""
  last_name : String := ""
  university_id : Nat
  user_id : Nat
  status : String := "pending"
deriving DecidableEq

/-- Row of `RSOs`. -/
structure RSO where
  rso_id : Nat
  name : String := ""
  university_id : Nat
  rso_admin : Nat
  status : String := "pending"
deriving DecidableEq

/-- Row of `RSO_Memberships`. -/
structure RSOMembership where
  membership_id : Nat
  user_id : Nat
  rso_id : Nat
  status : String := "pending"
deriving DecidableEq

/-- Row of `Events`; `university_id`, `rso_id`, `rso_admin` and `created_by` may be NULL. -/
structure Event where
  event_id : Nat
  name : String := ""
  description : String := ""
  category : String := "other"
  date_time : String := ""
  building_id : Option Nat := none
  contact_phone : String := ""
  contact_email : String := ""
  visibility : String
  university_id : Option Nat := none
  rso_id : Option Nat := none
  rso_admin : Option Nat := none
  created_by : Option Nat := none
deriving DecidableEq

/-- Row of `EventComments`. -/
structure EventComment where
  comment_id : Nat
  event_id : Nat
  user_id : Nat
  comment : String
deriving DecidableEq

/-- Row of `EventRatings`. -/
structure EventRating where
  event_id : Nat
  user_id : Nat
  rating : Nat
deriving DecidableEq

/-- Row of `Buildings`; the coordinates are kept as the decimal text of the request. -/
structure Building where
  building_id : Nat
  name : String
  latitude : String
  longitude : String
  university_id : Nat
deriving DecidableEq

/-- The database reached through `pool`: one row list per table. -/
structure Store where
  Users : List User := []
  Universities : List University := []
  Students : List Student := []
  RSOs : List RSO := []
  RSO_Memberships : List RSOMembership := []
  Events : List Event := []
  EventComments : List EventComment := []
  EventRatings : List EventRating := []
  Buildings : List Building := []
deriving DecidableEq

/-! ## Requests and responses -/

/-- The verified payload of a token, as signed by `/api/auth/login`. -/
structure Claims where
  user_id : Nat
  role : String
deriving DecidableEq

/-- What `authenticateToken` finds in the `Authorization` header: no token, a token that
`jwt.verify` rejects, or a token that verifies to some claims. -/
inductive Credential where
  | absent
  | rejected
  | verified (user : Claims)
deriving DecidableEq

/-- JSON body of a response: `message` and `error` are the one-field bodies of those
names, `data` is a message with the array `data`, `membership` a message with
`membership_id`, `inserted` a body with one numeric field such as `user_id`,
`insertedMessage` the same with a message, `updated` the body of the event update, `errors` the array of the
request validator (the names of the rejected fields), `count` a message with `count`,
`list` a bare array of events, `rating` the body with the one field `rating`, which is
`null` when it is `none`, `text` a plain text, `login` the token with the `user` object,
`user` one row of `Users`, `users`, `universities`, `rsos` and `students` bare arrays of
rows, `comments` a message with the array `comments`, and `average` the body of
`getAverage`: `event_id` and `average_rating`, the latter given by the ratings whose
average, rounded by the store to two decimals, it is (`null` when there are none). -/
inductive Body where
  | message (text : String)
  | error (text : String)
  | data (message : String) (rows : List Event)
  | membership (message : String) (membership_id : Nat)
  | inserted (key : String) (value : Nat)
  | insertedMessage (key : String) (value : Nat) (message : String)
  | updated (updated : Bool)
  | errors (fields : List String)
  | count (message : String) (count : Nat)
  | list (rows : List Event)
  | rating (rating : Option Nat)
  | text (text : String)
  | login (token : String) (user : Claims)
  | user (row : User)
  | users (rows : List User)
  | universities (rows : List University)
  | rsos (rows : List RSO)
  | students (rows : List Student)
  | comments (message : String) (comments : List EventComment)
  | average (event_id : Nat) (ratings : List Nat)
deriving DecidableEq

/-- HTTP response: status code and JSON body. -/
structure Response where
  status : Nat
  body : Body
deriving DecidableEq

/-- The event rows carried by a response (`data`), if it carries any. -/
def Response.rows (res : Response) : List Event :=
  match res.body with
  | .data _ rows => rows
  | .list rows => rows
  | _ => []

/-- Middleware `authenticateToken`: 401 without a token, 403 when verification fails,
otherwise the handler runs with `req.user` set to the verified claims. -/
def authenticateToken (c : Credential) : Except Response Claims :=
  match c with
  | .absent => .error ⟨401, .error "Access denied"⟩
  | .rejected => .error ⟨403, .error "Invalid token"⟩
  | .verified user => .ok user

/-- JavaScript `!x` for a numeric id taken from the body: true when the field is
missing (`none`) or is `0`. -/
def falsy : Option Nat → Bool
  | none => true
  | some n => n == 0

/-- `UPDATE t SET ... WHERE cond`: the table after the statement, and `affectedRows`. -/
def sqlUpdate {α : Type} (t : List α) (cond : α → SqlBool) (set : α → α) : List α × Nat :=
  (t.map fun r => if (cond r).holds then set r else r,
   (t.filter fun r => (cond r).holds).length)

/-! ## University routes -/

/-- `PUT /api/universities/approveRSO/:rso_id`.  The route has no middleware: the
credential of the request is not looked at. -/
def approveRSO (st : Store) (_c : Credential) (rso_id : Nat) : Response × Store :=
  let result := sqlUpdate st.RSOs
    (fun r => (sqlEq (some r.rso_id) (some rso_id)).and (sqlEq (some r.status) (some "pending")))
    (fun r => { r with status := "active" })
  let st' := { st with RSOs := result.1 }
  if result.2 = 0 then
    (⟨404, .error "RSO not found or already approved"⟩, st')
  else
    (⟨200, .message "RSO approved successfully"⟩, st')

/-- `PUT /api/universities/approveStudent/:student_id`.  The route has no middleware:
the credential of the request is not looked at. -/
def approveStudent (st : Store) (_c : Credential) (student_id : Nat) : Response × Store :=
  let result := sqlUpdate st.Students
    (fun s => (sqlEq (some s.student_id) (some student_id)).and
      (sqlEq (some s.status) (some "pending")))
    (fun s => { s with status := "active" })
  let st' := { st with Students := result.1 }
  if result.2 = 0 then
    (⟨404, .error "Student not found or already approved"⟩, st')
  else
    (⟨200, .message "Student approved successfully"⟩, st')

/-! ## Student routes -/

/-- Modelled from the spec: the declaration of the table `RSO_Memberships` is not in the
repository.  From the data model: `(user_id, rso_id)` is a unique pair and a new row
starts with status `pending`; the row id is an auto-increment key, taken here as one more
than the largest id present.  The statement is that of `joinRSO`,
`INSERT INTO RSO_Memberships (user_id, rso_id) VALUES (?, ?)
 ON DUPLICATE KEY UPDATE status = 'active'`; the result is the table after the statement
and `insertId` (on the duplicate path the id of the row that was hit). -/
def insertMembership (t : List RSOMembership) (user_id rso_id : Nat) :
    List RSOMembership × Nat :=
  match t.filter fun m => m.user_id == user_id && m.rso_id == rso_id with
  | [] =>
    let id := (t.map fun m => m.membership_id).foldr max 0 + 1
    (t ++ [{ membership_id := id, user_id := user_id, rso_id := rso_id, status := "pending" }],
     id)
  | m0 :: _ =>
    (t.map fun m =>
      if m.user_id == user_id && m.rso_id == rso_id then { m with status := "active" } else m,
     m0.membership_id)

/-- `POST /api/students/joinRSO`, with `user_id` and `rso_id` read from the body.  The
route has no middleware.  The statement never raises `ER_DUP_ENTRY` for the pair, as the
duplicate is taken by `ON DUPLICATE KEY UPDATE`. -/
def joinRSO (st : Store) (_c : Credential) (user_id rso_id : Option Nat) : Response × Store :=
  if falsy user_id || falsy rso_id then
    (⟨400, .error "User ID and RSO ID are required"⟩, st)
  else
    match user_id, rso_id with
    | some u, some r =>
      let result := insertMembership st.RSO_Memberships u r
      (⟨201, .membership "Request to join RSO submitted" result.2⟩,
       { st with RSO_Memberships := result.1 })
    | _, _ => (⟨400, .error "User ID and RSO ID are required"⟩, st)

/-! ## Event routes -/

/-- `GET /api/events/getUniLevelEvents/:user_id`: the events joined to a university whose
`user_id` is the one in the path. -/
def getUniLevelEvents (st : Store) (c : Credential) (user_id : Nat) : Response :=
  match authenticateToken c with
  | .error res => res
  | .ok _ =>
    let rows :=
      ((innerJoin st.Events st.Universities fun e u =>
          sqlEq e.university_id (some u.university_id)).filter fun eu =>
        (sqlEq (some eu.2.user_id) (some user_id)).holds).map fun eu => eu.1
    ⟨201, .data "University events retrieved successfully." rows⟩

/-- `GET /api/events/getRSOLevelEvents/:user_id`: first the active RSOs whose `rso_admin`
is the `user_id` of the path, then the events of those RSOs. -/
def getRSOLevelEvents (st : Store) (c : Credential) (user_id : Nat) : Response :=
  match authenticateToken c with
  | .error res => res
  | .ok _ =>
    let rsoRows := st.RSOs.filter fun r =>
      ((sqlEq (some r.rso_admin) (some user_id)).and
        (sqlEq (some r.status) (some "active"))).holds
    if rsoRows.length = 0 then
      ⟨404, .message "No RSOs found for this admin."⟩
    else
      let rsoIds := rsoRows.map fun row => row.rso_id
      let eventRows := (st.Events.filter fun e => (sqlIn e.rso_id rsoIds).holds).dedup
      ⟨202, .data "RSO admin events retrieved successfully." eventRows⟩

/-- `GET /api/events/getStudentLevelEvents/:user_id`: the active memberships of the
`user_id` of the path, then the events joined to their university and to the Student
row of that user there; the clause on `rso` events is added to the query only when the
user has an active membership. -/
def getStudentLevelEvents (st : Store) (c : Credential) (user_id : Nat) : Response :=
  match authenticateToken c with
  | .error res => res
  | .ok _ =>
    let memberships := st.RSO_Memberships.filter fun m =>
      ((sqlEq (some m.user_id) (some user_id)).and
        (sqlEq (some m.status) (some "active"))).holds
    let rsoIds := memberships.map fun m => m.rso_id
    let joined :=
      leftJoin
        (leftJoin st.Events st.Universities fun e u =>
          sqlEq e.university_id (some u.university_id))
        st.Students
        fun eu s =>
          (sqlEq (some s.user_id) (some user_id)).and
            (sqlEq (some s.university_id) (eu.2.map fun u => u.university_id))
    let base := fun (row : (Event × Option University) × Option Student) =>
      (sqlEq (some row.1.1.visibility) (some "public")).or
        ((sqlEq (some row.1.1.visibility) (some "private")).and
          (sqlEq (row.2.map fun s => s.status) (some "active")))
    let query := fun (row : (Event × Option University) × Option Student) =>
      if rsoIds.length > 0 then
        (base row).or
          ((sqlEq (some row.1.1.visibility) (some "rso")).and (sqlIn row.1.1.rso_id rsoIds))
      else base row
    let rows := ((joined.filter fun row => (query row).holds).map fun row => row.1.1).dedup
    ⟨203, .data "Student events retrieved successfully." rows⟩

/-! ## Store failures and transactions -/

/-- Error raised by a call to the store: `error.code` and `error.message`. -/
structure StoreError where
  code : String := ""
  message : String
deriving DecidableEq

/-- Outcome of the calls a handler makes to the store, numbered in program order from 0:
`fail n` is the error raised by call `n`, or `none` when the call executes.  A constraint
the store enforces and the model does not (a missing bind value, a foreign key, a syntax
error in a statement) is an error of the call.  In `login` the calls to `bcrypt.compare`
and `jwt.sign`, whose errors reach the same `catch`, are numbered with them. -/
abbrev Faults := Nat → Option StoreError

/-- Every call to the store executes. -/
def noFault : Faults := fun _ => none

/-- A connection with an open transaction: the store as committed, which is what remains
after a rollback, and the store as seen by the statements run on the connection. -/
structure Transaction where
  committed : Store
  working : Store

/-- Method `connection.beginTransaction()`. -/
def beginTransaction (st : Store) : Transaction :=
  { committed := st, working := st }

/-- Method `connection.commit()`: the work of the transaction becomes the store. -/
def Transaction.commit (t : Transaction) : Store := t.working

/-- Method `connection.rollback()`: the work of the transaction is dropped. -/
def Transaction.rollback (t : Transaction) : Store := t.committed

/-- Auto-increment key of a new row: one more than the largest id present. -/
def nextId (ids : List Nat) : Nat := ids.foldr max 0 + 1

/-! ## User routes -/

/-- Modelled from the spec: the table declarations, and with them the foreign keys, are
not in the repository.  From the data model: deleting a User deletes its dependents and
leaves no orphan Student, RSO or Membership row.  The statement is
`DELETE FROM Users WHERE user_id = ?`: it removes the matching User rows, the Student
rows of those users, the RSOs they administer, and the memberships of those users or in
those RSOs. -/
def deleteFromUsers (st : Store) (user_id : Option Nat) : Store :=
  let hit := fun (id : Nat) => (sqlEq (some id) user_id).holds
  let gone := (st.RSOs.filter fun r => hit r.rso_admin).map fun r => r.rso_id
  { st with
    Users := st.Users.filter fun u => !hit u.user_id
    Students := st.Students.filter fun s => !hit s.user_id
    RSOs := st.RSOs.filter fun r => !hit r.rso_admin
    RSO_Memberships := st.RSO_Memberships.filter fun m =>
      !hit m.user_id && !gone.contains m.rso_id }

/-- `DELETE /api/users/deleteUser/:user_id`.  The route has no middleware.  The segment
of the path is `some n` when it is the number `n`, and `none` when it is a text that is
no number (for instance `undefined`), which compares equal to no `user_id`.  A path
segment is never empty, so the check `!user_id` does not fire.  Call 0 is the `SELECT`,
call 1 the `DELETE`. -/
def deleteUser (st : Store) (_c : Credential) (user_id : Option Nat) (fail : Faults) :
    Response × Store :=
  match fail 0 with
  | some err => (⟨500, .error err.message⟩, st)
  | none =>
    let rows := st.Users.filter fun u => (sqlEq (some u.user_id) user_id).holds
    if rows.length = 0 then
      (⟨404, .error "User not found"⟩, st)
    else
      match fail 1 with
      | some err => (⟨500, .error err.message⟩, st)
      | none =>
        (⟨200, .message "User and associated data deleted successfully"⟩,
         deleteFromUsers st user_id)

/-- Dashboard `denyStudent(student)` of `UniDashboard.js`, once confirmed: the request
`DELETE /api/users/deleteUser/${student.user_id}`, sent without a token. -/
def denyStudent (st : Store) (student : Student) (fail : Faults) : Response × Store :=
  deleteUser st .absent (some student.user_id) fail

/-- Dashboard `denyRSO(rso)` of `UniDashboard.js`, once confirmed: the request
`DELETE /api/users/deleteUser/${rso.user_id}`, sent without a token.  The object `rso`
is a row of `RSOs` as returned by `getPendingRSOList`; the columns the server writes and
reads in that table are `name`, `university_id`, `rso_admin`, `rso_id` and `status`, the
owner being `rso_admin`, so `rso.user_id` is no user id and the segment of the path is
the text `undefined`. -/
def denyRSO (st : Store) (_rso : RSO) (fail : Faults) : Response × Store :=
  deleteUser st .absent none fail

/-! ## RSO routes -/

/-- Modelled from the spec: the declaration of the table `RSOs` is not in the repository.
From the data model: an RSO row is created with status `pending`; `rso_id` is an
auto-increment key.  The statement is
`INSERT INTO RSOs (name, university_id, rso_admin) VALUES (?, ?, ?)`; the result is the
table after the statement and `insertId`. -/
def insertRSO (t : List RSO) (name : String) (university_id rso_admin : Nat) :
    List RSO × Nat :=
  let id := nextId (t.map fun r => r.rso_id)
  (t ++ [{ rso_id := id, name := name, university_id := university_id,
           rso_admin := rso_admin, status := "pending" }], id)

/-- `POST /api/rsos/createRSO`, with `name`, `university_id` and `rso_admin` read from
the body.  The calls to the store are: 0 `pool.getConnection()`, 1
`connection.beginTransaction()`, 2 the `INSERT`, 3 the `UPDATE` of the role, 4
`connection.commit()`.  An error of call 2, 3 or 4 is caught by the inner handler, which
rolls back and throws again; the outer handler answers 500 with the message. -/
def createRSO (st : Store) (c : Credential) (name : String) (university_id rso_admin : Nat)
    (fail : Faults) : Response × Store :=
  match authenticateToken c with
  | .error res => (res, st)
  | .ok _ =>
    match fail 0 with
    | some err => (⟨500, .error err.message⟩, st)
    | none =>
      match fail 1 with
      | some err => (⟨500, .error err.message⟩, st)
      | none =>
        let connection := beginTransaction st
        match fail 2 with
        | some err => (⟨500, .error err.message⟩, connection.rollback)
        | none =>
          let rsoResult := insertRSO connection.working.RSOs name university_id rso_admin
          let connection :=
            { connection with working := { connection.working with RSOs := rsoResult.1 } }
          match fail 3 with
          | some err => (⟨500, .error err.message⟩, connection.rollback)
          | none =>
            let connection :=
              { connection with working :=
                { connection.working with Users :=
                  (sqlUpdate connection.working.Users
                    (fun u => sqlEq (some u.user_id) (some rso_admin))
                    (fun u => { u with role := "rso_admin" })).1 } }
            match fail 4 with
            | some err => (⟨500, .error err.message⟩, connection.rollback)
            | none =>
              (⟨201, .insertedMessage "rso_id" rsoResult.2
                  "RSO created and user promoted to RSO admin."⟩,
               connection.commit)

/-! ## Library functions -/

/-- Functions of `express-validator`, `bcrypt` and `jsonwebtoken` that the handlers call,
taken as given: the validator `isEmail`, the sanitizer `normalizeEmail`,
`bcrypt.hash(., 10)`, `bcrypt.compare` of a password with a hash, and `jwt.sign` of the
claims with the secret of the server, valid for two hours. -/
structure Library where
  isEmail : String → Bool
  normalizeEmail : String → String
  hash : String → String
  compare : String → String → Bool
  sign : Claims → String

/-- The white space of JavaScript, which the class `\s` of a regular expression matches:
tab, line feed, vertical tab, form feed, carriage return, space, no-break space, U+1680,
U+2000 to U+200A, the line and paragraph separators, U+202F, U+205F, U+3000 and the byte
order mark. -/
def jsWhitespace (ch : Char) : Bool :=
  decide (ch.toNat ∈ [0x09, 0x0A, 0x0B, 0x0C, 0x0D, 0x20, 0xA0, 0x1680, 0x2028, 0x2029,
    0x202F, 0x205F, 0x3000, 0xFEFF]) ||
  (decide (0x2000 ≤ ch.toNat) && decide (ch.toNat ≤ 0x200A))

/-- Sanitizer `trim()`: the text without its leading and trailing white space. -/
def jsTrim (s : String) : String :=
  String.mk ((s.data.dropWhile jsWhitespace).reverse.dropWhile jsWhitespace).reverse

/-- Validator `isLength({ min })`: the length it compares with `min` counts the
characters of the text, the variation selectors U+FE0E and U+FE0F left out. -/
def isLength (min : Nat) (s : String) : Bool :=
  decide (min ≤ (s.data.filter fun ch => !(ch.toNat == 0xFE0E || ch.toNat == 0xFE0F)).length)

/-! ## User routes, continued -/

/-- `POST /api/users/register` behind the validators of `validateUser`; `email`,
`password` and `role` are read from the body, a missing field being the empty text.  The
body of the 400 lists the rejected fields.  Call 0 is the `INSERT`; the store decides
whether the email is a duplicate (`ER_DUP_ENTRY`). -/
def register (lib : Library) (st : Store) (_c : Credential) (email password role : String)
    (fail : Faults) : Response × Store :=
  let errors :=
    (if lib.isEmail email then [] else ["email"]) ++
    (if isLength 6 password then [] else ["password"]) ++
    (if role ∈ ["admin", "university", "rso", "student"] then [] else ["role"])
  if !errors.isEmpty then
    (⟨400, .errors errors⟩, st)
  else
    let email := lib.normalizeEmail email
    let hashedPassword := lib.hash password
    match fail 0 with
    | some err =>
      if err.code = "ER_DUP_ENTRY" then
        (⟨400, .error "Email already exists"⟩, st)
      else
        (⟨500, .error err.message⟩, st)
    | none =>
      let id := nextId (st.Users.map fun u => u.user_id)
      (⟨201, .inserted "user_id" id⟩,
       { st with Users := st.Users ++
          [{ user_id := id, email := email, password_hash := hashedPassword, role := role }] })

/-- `PUT /api/users/updateUser`, with `user_id`, `email` and `password` read from the
body (an absent password being the empty text).  The route has no middleware and no
validator.  Call 0 is the `SELECT`, call 1 the `UPDATE`, which leaves `role` alone. -/
def updateUser (lib : Library) (st : Store) (_c : Credential) (user_id : Nat)
    (email password : String) (fail : Faults) : Response × Store :=
  match fail 0 with
  | some err => (⟨500, .error err.message⟩, st)
  | none =>
    match st.Users.filter fun u => (sqlEq (some u.user_id) (some user_id)).holds with
    | [] => (⟨404, .error "User not found"⟩, st)
    | u0 :: _ =>
      let hashedPassword := if password ≠ "" then lib.hash password else u0.password_hash
      match fail 1 with
      | some err => (⟨500, .error err.message⟩, st)
      | none =>
        (⟨200, .message "User information updated successfully"⟩,
         { st with Users :=
            (sqlUpdate st.Users (fun u => sqlEq (some u.user_id) (some user_id))
              (fun u => { u with email := email, password_hash := hashedPassword })).1 })

/-! ## University and student routes, continued -/

/-- `POST /api/universities/createUniversity`.  The route has no middleware; the body is
written as it comes, and a `status` in the body is not read.  The default of the column
`status` is not in the repository; the model writes `pending`.  Call 0 is the
`INSERT`. -/
def createUniversity (st : Store) (_c : Credential) (name location description : String)
    (num_students : Nat) (website : String) (user_id : Nat) (fail : Faults) :
    Response × Store :=
  match fail 0 with
  | some err => (⟨500, .error err.message⟩, st)
  | none =>
    let id := nextId (st.Universities.map fun u => u.university_id)
    (⟨201, .inserted "university_id" id⟩,
     { st with Universities := st.Universities ++
        [{ university_id := id, name := name, location := location,
           description := description, num_students := num_students, website := website,
           user_id := user_id, status := "pending" }] })

/-- Modelled from the spec: the declaration of the table `Students` is not in the
repository.  From the data model: a Student row is created with status `pending`;
`student_id` is an auto-increment key.  The statement is
`INSERT INTO Students (first_name, last_name, university_id, user_id) VALUES (?, ?, ?, ?)`;
the result is the table after the statement and `insertId`. -/
def insertStudent (t : List Student) (first_name last_name : String)
    (university_id user_id : Nat) : List Student × Nat :=
  let id := nextId (t.map fun s => s.student_id)
  (t ++ [{ student_id := id, first_name := first_name, last_name := last_name,
           university_id := university_id, user_id := user_id, status := "pending" }], id)

/-- `POST /api/students/createStudent`, the four fields read from the body (an absent
name being the empty text).  The route has no middleware.  Call 0 is the `INSERT`. -/
def createStudent (st : Store) (_c : Credential) (first_name last_name : String)
    (university_id user_id : Option Nat) (fail : Faults) : Response × Store :=
  if first_name = "" then
    (⟨400, .error "Missing first_name"⟩, st)
  else if last_name = "" then
    (⟨401, .error "Missing last_name"⟩, st)
  else if falsy user_id then
    (⟨402, .error "Missing user_id"⟩, st)
  else if falsy university_id then
    (⟨403, .error "Missing university_id"⟩, st)
  else
    match university_id, user_id with
    | some uni, some u =>
      match fail 0 with
      | some err => (⟨500, .error err.message⟩, st)
      | none =>
        let result := insertStudent st.Students first_name last_name uni u
        (⟨201, .inserted "student_id" result.2⟩, { st with Students := result.1 })
    | _, _ => (⟨403, .error "Missing university_id"⟩, st)

/-! ## Event routes, continued -/

/-- `GET /api/events/getEventList` behind `authenticateToken`, with the optional
`university_id` and `rso_id` read from the body; the query starts from `WHERE 1=1` and a
filter is added to it when its value is truthy.  The token is not consulted beyond its verification, and the body of the
response is the bare array of rows.  Call 0 is the `SELECT`. -/
def getEventList (st : Store) (c : Credential) (university_id rso_id : Option Nat)
    (fail : Faults) : Response :=
  match authenticateToken c with
  | .error res => res
  | .ok _ =>
    match fail 0 with
    | some err => ⟨500, .error err.message⟩
    | none =>
      let query : Event → SqlBool := fun _ => .tt
      let query : Event → SqlBool :=
        if falsy university_id then query
        else fun e => (query e).and (sqlEq e.university_id university_id)
      let query : Event → SqlBool :=
        if falsy rso_id then query
        else fun e => (query e).and (sqlEq e.rso_id rso_id)
      let rows := st.Events.filter fun e => (query e).holds
      ⟨200, .list rows⟩

/-- Body of `createEvent`.  An absent text field is the empty text; `none` in a numeric
field is the JSON `null`. -/
structure EventBody where
  name : String := ""
  description : String := ""
  category : String := ""
  date_time : String := ""
  building_id : Option Nat := none
  contact_phone : String := ""
  contact_email : String := ""
  visibility : String := ""
  university_id : Option Nat := none
  rso_id : Option Nat := none
  rso_admin : Option Nat := none
deriving DecidableEq

/-- `POST /api/events/createEvent` behind `authenticateToken` and the validators of
`validateEvent`, which trim `name` and `description`.  The body of the 400 lists the
rejected fields.  Call 0 is the `INSERT`; it names eleven columns, and `created_by` is
not one of them, so the new row has no `created_by`. -/
def createEvent (st : Store) (c : Credential) (body : EventBody) (fail : Faults) :
    Response × Store :=
  match authenticateToken c with
  | .error res => (res, st)
  | .ok _ =>
    let name := jsTrim body.name
    let description := jsTrim body.description
    let errors :=
      (if name ≠ "" then [] else ["name"]) ++
      (if description ≠ "" then [] else ["description"]) ++
      (if body.category ∈ ["social", "fundraising", "tech talk", "other"] then []
        else ["category"]) ++
      (if body.visibility ∈ ["public", "private", "rso"] then [] else ["visibility"])
    if !errors.isEmpty then
      (⟨400, .errors errors⟩, st)
    else
      match fail 0 with
      | some err => (⟨500, .error err.message⟩, st)
      | none =>
        let id := nextId (st.Events.map fun e => e.event_id)
        (⟨201, .inserted "event_id" id⟩,
         { st with Events := st.Events ++
            [{ event_id := id, name := name, description := description,
               category := body.category, date_time := body.date_time,
               building_id := body.building_id, contact_phone := body.contact_phone,
               contact_email := body.contact_email, visibility := body.visibility,
               university_id := body.university_id, rso_id := body.rso_id,
               rso_admin := body.rso_admin, created_by := none }] })

/-- Message of the `TypeError` raised by `event[0].created_by` when `event` is empty. -/
def typeErrorMessage : String := "Cannot read properties of undefined (reading 'created_by')"

/-- `PUT /api/events/:event_id` behind `authenticateToken`.  The body `updates` is the
assignment list of `UPDATE Events SET ?`, taken as the function it applies to a row.
Call 0 is the `SELECT`, call 1 the `UPDATE`.  The check compares `created_by` of the
first selected row with `req.user.user_id` by `!==`; a row without `created_by` differs
from every user id. -/
def updateEvent (st : Store) (c : Credential) (event_id : Nat) (updates : Event → Event)
    (fail : Faults) : Response × Store :=
  match authenticateToken c with
  | .error res => (res, st)
  | .ok user =>
    match fail 0 with
    | some err => (⟨500, .error err.message⟩, st)
    | none =>
      match st.Events.filter fun e => (sqlEq (some e.event_id) (some event_id)).holds with
      | [] => (⟨500, .error typeErrorMessage⟩, st)
      | e0 :: _ =>
        if e0.created_by ≠ some user.user_id ∧ user.role ≠ "admin" then
          (⟨403, .error "Unauthorized to update this event"⟩, st)
        else
          match fail 1 with
          | some err => (⟨500, .error err.message⟩, st)
          | none =>
            let result := sqlUpdate st.Events
              (fun e => sqlEq (some e.event_id) (some event_id)) updates
            (⟨200, .updated (decide (result.2 > 0))⟩, { st with Events := result.1 })

/-! ## Comment routes -/

/-- `POST /api/comments/addComment` behind `authenticateToken`, with `event_id`,
`comment` and `user_id` read from the body.  Call 0 is the `INSERT`. -/
def addComment (st : Store) (c : Credential) (event_id : Option Nat) (comment : String)
    (user_id : Nat) (fail : Faults) : Response × Store :=
  match authenticateToken c with
  | .error res => (res, st)
  | .ok _ =>
    match event_id with
    | none => (⟨400, .error "Event ID and comment are required."⟩, st)
    | some ev =>
      if ev = 0 ∨ comment = "" then
        (⟨400, .error "Event ID and comment are required."⟩, st)
      else
        match fail 0 with
        | some err => (⟨500, .error err.message⟩, st)
        | none =>
          let id := nextId (st.EventComments.map fun k => k.comment_id)
          (⟨201, .insertedMessage "comment_id" id "Comment added successfully."⟩,
           { st with EventComments := st.EventComments ++
              [{ comment_id := id, event_id := ev, user_id := user_id,
                 comment := comment }] })

/-- `PUT /api/comments/updateComment` behind `authenticateToken`, with `comment_id`,
`comment` and `user_id` read from the body (`none` when `user_id` is absent or is no
number; it then differs from every stored id).  The owner check compares the `user_id`
of the first selected row with the `user_id` of the body.  Call 0 is the `SELECT`, call
1 the `UPDATE`. -/
def updateComment (st : Store) (c : Credential) (comment_id : Nat) (comment : String)
    (user_id : Option Nat) (fail : Faults) : Response × Store :=
  match authenticateToken c with
  | .error res => (res, st)
  | .ok _ =>
    if comment = "" then
      (⟨400, .error "Comment cannot be empty."⟩, st)
    else
      match fail 0 with
      | some err => (⟨500, .error err.message⟩, st)
      | none =>
        match st.EventComments.filter fun k =>
            (sqlEq (some k.comment_id) (some comment_id)).holds with
        | [] => (⟨404, .error "Comment not found."⟩, st)
        | k0 :: _ =>
          if some k0.user_id ≠ user_id then
            (⟨403, .error "You can only edit your own comments."⟩, st)
          else
            match fail 1 with
            | some err => (⟨500, .error err.message⟩, st)
            | none =>
              (⟨200, .message "Comment updated successfully."⟩,
               { st with EventComments :=
                  (sqlUpdate st.EventComments
                    (fun k => sqlEq (some k.comment_id) (some comment_id))
                    (fun k => { k with comment := comment })).1 })

/-- `DELETE /api/comments/deleteComment` behind `authenticateToken`, with `comment_id`
and `user_id` read from the body.  Call 0 is the `SELECT`, call 1 the `DELETE`. -/
def deleteComment (st : Store) (c : Credential) (comment_id : Nat) (user_id : Option Nat)
    (fail : Faults) : Response × Store :=
  match authenticateToken c with
  | .error res => (res, st)
  | .ok _ =>
    match fail 0 with
    | some err => (⟨500, .error err.message⟩, st)
    | none =>
      match st.EventComments.filter fun k =>
          (sqlEq (some k.comment_id) (some comment_id)).holds with
      | [] => (⟨404, .error "Comment not found."⟩, st)
      | k0 :: _ =>
        if some k0.user_id ≠ user_id then
          (⟨403, .error "You can only delete your own comments."⟩, st)
        else
          match fail 1 with
          | some err => (⟨500, .error err.message⟩, st)
          | none =>
            (⟨200, .message "Comment deleted successfully."⟩,
             { st with EventComments := st.EventComments.filter fun k =>
                !(sqlEq (some k.comment_id) (some comment_id)).holds })

/-! ## Rating and building routes -/

/-- Modelled from the spec: the declaration of the table `EventRatings` is not in the
repository.  From the data model: `(event_id, user_id)` is a unique pair.  The statement
is the `INSERT ... ON DUPLICATE KEY UPDATE rating = VALUES(rating)` of
`addOrUpdateRating`; the column `created_at` is left out of the model. -/
def insertRating (t : List EventRating) (event_id user_id rating : Nat) : List EventRating :=
  if t.any fun r => r.event_id == event_id && r.user_id == user_id then
    t.map fun r =>
      if r.event_id == event_id && r.user_id == user_id then { r with rating := rating }
      else r
  else
    t ++ [{ event_id := event_id, user_id := user_id, rating := rating }]

/-- `POST /api/ratings/addOrUpdateRating` behind `authenticateToken`, with `event_id`,
`user_id` and `rating` read from the body; the rating is a whole number, of either sign,
or is missing (`none`).  Call 0 is the `INSERT`. -/
def addOrUpdateRating (st : Store) (c : Credential) (event_id user_id : Option Nat)
    (rating : Option Int) (fail : Faults) : Response × Store :=
  match authenticateToken c with
  | .error res => (res, st)
  | .ok _ =>
    match event_id, user_id, rating with
    | some ev, some u, some r =>
      if ev = 0 ∨ u = 0 ∨ r = 0 ∨ r < 1 ∨ r > 5 then
        (⟨400, .error
          "Invalid input. Event ID, User ID, and valid rating (1-5) are required."⟩, st)
      else
        match fail 0 with
        | some err => (⟨500, .error err.message⟩, st)
        | none =>
          (⟨200, .message "Rating submitted successfully."⟩,
           { st with EventRatings := insertRating st.EventRatings ev u r.toNat })
    | _, _, _ =>
      (⟨400, .error
        "Invalid input. Event ID, User ID, and valid rating (1-5) are required."⟩, st)

/-- `GET /api/ratings/getUserRating/:event_id/:user_id`.  The route has no middleware.
The body carries the rating of the first selected row, or `null` when there is none.
Call 0 is the `SELECT`. -/
def getUserRating (st : Store) (_c : Credential) (event_id user_id : Nat) (fail : Faults) :
    Response :=
  match fail 0 with
  | some err => ⟨500, .error err.message⟩
  | none =>
    let rows := st.EventRatings.filter fun r =>
      ((sqlEq (some r.event_id) (some event_id)).and
        (sqlEq (some r.user_id) (some user_id))).holds
    ⟨200, .rating (rows.head?.map fun r => r.rating)⟩

/-- Element of the array `buildings` in the body of `addBuildings`. -/
structure BuildingBody where
  name : String
  lat : String
  lng : String
deriving DecidableEq

/-- `POST /api/buildings/addBuildings`; `buildings` is `none` when the field is no
array.  The route has no middleware.  Call 0 is `pool.getConnection()`, call 1 the
`INSERT` of all the rows. -/
def addBuildings (st : Store) (_c : Credential) (buildings : Option (List BuildingBody))
    (university_id : Option Nat) (fail : Faults) : Response × Store :=
  match buildings, university_id with
  | some bs, some uni =>
    if bs.length = 0 ∨ uni = 0 then
      (⟨400, .error "Invalid request. Provide buildings array and university_id."⟩, st)
    else
      match fail 0 with
      | some err => (⟨500, .error err.message⟩, st)
      | none =>
        match fail 1 with
        | some err => (⟨500, .error err.message⟩, st)
        | none =>
          let first := nextId (st.Buildings.map fun b => b.building_id)
          (⟨201, .count "Buildings inserted successfully!" bs.length⟩,
           { st with Buildings := st.Buildings ++
              (bs.enum.map fun ib =>
                { building_id := first + ib.1, name := ib.2.name, latitude := ib.2.lat,
                  longitude := ib.2.lng, university_id := uni }) })
  | _, _ =>
    (⟨400, .error "Invalid request. Provide buildings array and university_id."⟩, st)

/-! ## The approval routes, `joinRSO` and the scope queries with their `catch`

The handlers `approveRSO`, `approveStudent`, `joinRSO` and the three scope queries above
are the path on which the store executes the statements.  The routes below add the other
path: the error of a call to the store, which the `catch` of the handler answers. -/

/-- Route `PUT /api/universities/approveRSO/:rso_id`: call 0 is the `UPDATE`. -/
def approveRSORoute (st : Store) (c : Credential) (rso_id : Nat) (fail : Faults) :
    Response × Store :=
  match fail 0 with
  | some err => (⟨500, .error err.message⟩, st)
  | none => approveRSO st c rso_id

/-- Route `PUT /api/universities/approveStudent/:student_id`: call 0 is the `UPDATE`. -/
def approveStudentRoute (st : Store) (c : Credential) (student_id : Nat) (fail : Faults) :
    Response × Store :=
  match fail 0 with
  | some err => (⟨500, .error err.message⟩, st)
  | none => approveStudent st c student_id

/-- Route `POST /api/students/joinRSO`: the ids are checked first; call 0 is the
`INSERT`, and its `catch` answers `ER_DUP_ENTRY` with a 400 of its own. -/
def joinRSORoute (st : Store) (c : Credential) (user_id rso_id : Option Nat) (fail : Faults) :
    Response × Store :=
  if falsy user_id || falsy rso_id then
    joinRSO st c user_id rso_id
  else
    match fail 0 with
    | some err =>
      if err.code = "ER_DUP_ENTRY" then
        (⟨400, .error "User already requested to join this RSO"⟩, st)
      else
        (⟨500, .error err.message⟩, st)
    | none => joinRSO st c user_id rso_id

/-- Route `GET /api/events/getUniLevelEvents/:user_id`: call 0 is the `SELECT`. -/
def getUniLevelEventsRoute (st : Store) (c : Credential) (user_id : Nat) (fail : Faults) :
    Response :=
  match authenticateToken c with
  | .error res => res
  | .ok _ =>
    match fail 0 with
    | some err => ⟨500, .error err.message⟩
    | none => getUniLevelEvents st c user_id

/-- Route `GET /api/events/getRSOLevelEvents/:user_id`: call 0 is the `SELECT` of the
RSOs, call 1 the `SELECT` of the events, made only when the first one returned rows. -/
def getRSOLevelEventsRoute (st : Store) (c : Credential) (user_id : Nat) (fail : Faults) :
    Response :=
  match authenticateToken c with
  | .error res => res
  | .ok _ =>
    match fail 0 with
    | some err => ⟨500, .error err.message⟩
    | none =>
      let rsoRows := st.RSOs.filter fun r =>
        ((sqlEq (some r.rso_admin) (some user_id)).and
          (sqlEq (some r.status) (some "active"))).holds
      if rsoRows.length = 0 then
        getRSOLevelEvents st c user_id
      else
        match fail 1 with
        | some err => ⟨500, .error err.message⟩
        | none => getRSOLevelEvents st c user_id

/-- Route `GET /api/events/getStudentLevelEvents/:user_id`: call 0 is the `SELECT` of the
memberships, call 1 the `SELECT` of the events. -/
def getStudentLevelEventsRoute (st : Store) (c : Credential) (user_id : Nat) (fail : Faults) :
    Response :=
  match authenticateToken c with
  | .error res => res
  | .ok _ =>
    match fail 0 with
    | some err => ⟨500, .error err.message⟩
    | none =>
      match fail 1 with
      | some err => ⟨500, .error err.message⟩
      | none => getStudentLevelEvents st c user_id

/-! ## The routes that only read

A number in the path or in the query string arrives as a text, which is truthy also when
it reads `0`; `none` stands for a parameter that is absent.  Texts are compared as they
are written. -/

/-- Route `GET /`: the welcome text. -/
def welcome : Response := ⟨200, .text "Welcome to the Event Planner API!"⟩

/-- `POST /api/auth/login`, with `email` and `password` read from the body.  Call 0 is
the `SELECT`, call 1 `bcrypt.compare`, call 2 `jwt.sign`. -/
def login (lib : Library) (st : Store) (_c : Credential) (email password : String)
    (fail : Faults) : Response :=
  match fail 0 with
  | some err => ⟨500, .error err.message⟩
  | none =>
    match st.Users.filter fun u => (sqlEq (some u.email) (some email)).holds with
    | [] => ⟨401, .error "Invalid credentials"⟩
    | user :: _ =>
      match fail 1 with
      | some err => ⟨500, .error err.message⟩
      | none =>
        if !lib.compare password user.password_hash then
          ⟨401, .error "Invalid credentials"⟩
        else
          match fail 2 with
          | some err => ⟨500, .error err.message⟩
          | none =>
            ⟨200, .login (lib.sign { user_id := user.user_id, role := user.role })
              { user_id := user.user_id, role := user.role }⟩

/-- `GET /api/users/getUserId/:email`.  Call 0 is the `SELECT`. -/
def getUserId (st : Store) (_c : Credential) (email : String) (fail : Faults) : Response :=
  match fail 0 with
  | some err => ⟨500, .error err.message⟩
  | none =>
    match st.Users.filter fun u => (sqlEq (some u.email) (some email)).holds with
    | [] => ⟨404, .error "User not found"⟩
    | u :: _ => ⟨200, .inserted "user_id" u.user_id⟩

/-- `GET /api/users/getUser/:user_id`.  Call 0 is the `SELECT`. -/
def getUser (st : Store) (_c : Credential) (user_id : Option Nat) (fail : Faults) : Response :=
  match fail 0 with
  | some err => ⟨500, .error err.message⟩
  | none =>
    match st.Users.filter fun u => (sqlEq (some u.user_id) user_id).holds with
    | [] => ⟨404, .error "User not found"⟩
    | u :: _ => ⟨200, .user u⟩

/-- `GET /api/users/getUserList`.  Call 0 is the `SELECT`. -/
def getUserList (st : Store) (_c : Credential) (fail : Faults) : Response :=
  match fail 0 with
  | some err => ⟨500, .error err.message⟩
  | none => ⟨200, .users st.Users⟩

/-- `GET /api/universities/getActiveUniversityList` (`status = "active"`) and
`getPendingUniversityList` (`status = "pending"`).  Call 0 is the `SELECT`. -/
def getUniversityList (status : String) (st : Store) (_c : Credential) (fail : Faults) :
    Response :=
  match fail 0 with
  | some err => ⟨500, .error err.message⟩
  | none =>
    ⟨200, .universities (st.Universities.filter fun u =>
      (sqlEq (some u.status) (some status)).holds)⟩

/-- `GET /api/universities/getActiveRSOList`, `getPendingRSOList` and
`getInactiveRSOList`, for the status `active`, `pending` and `inactive`.  Call 0 is the
`SELECT`. -/
def getRSOList (status : String) (st : Store) (_c : Credential) (fail : Faults) : Response :=
  match fail 0 with
  | some err => ⟨500, .error err.message⟩
  | none => ⟨200, .rsos (st.RSOs.filter fun r => (sqlEq (some r.status) (some status)).holds)⟩

/-- `GET /api/universities/getActiveStudentList` and `getPendingStudentList`.  Call 0 is
the `SELECT`. -/
def getStudentList (status : String) (st : Store) (_c : Credential) (fail : Faults) :
    Response :=
  match fail 0 with
  | some err => ⟨500, .error err.message⟩
  | none =>
    ⟨200, .students (st.Students.filter fun s =>
      (sqlEq (some s.status) (some status)).holds)⟩

/-- `GET /api/students/getStudentStatus`, with `user_id` read from the query string.
Call 0 is the `SELECT`. -/
def getStudentStatus (st : Store) (_c : Credential) (user_id : Option Nat) (fail : Faults) :
    Response :=
  match user_id with
  | none => ⟨400, .error "Missing user_id parameter"⟩
  | some uid =>
    match fail 0 with
    | some err => ⟨500, .error err.message⟩
    | none =>
      match st.Students.filter fun s => (sqlEq (some s.user_id) (some uid)).holds with
      | [] => ⟨404, .error "Student not found"⟩
      | s :: _ =>
        if s.status = "active" then ⟨200, .message "Student is active"⟩
        else if s.status = "pending" then ⟨400, .error "Student status is pending"⟩
        else ⟨500, .error "Unexpected status value"⟩

/-- `GET /api/students/getUniId/:user_id`.  Call 0 is the `SELECT`. -/
def getUniId (st : Store) (_c : Credential) (user_id : Option Nat) (fail : Faults) :
    Response :=
  match fail 0 with
  | some err => ⟨500, .error err.message⟩
  | none =>
    match st.Students.filter fun s => (sqlEq (some s.user_id) user_id).holds with
    | [] => ⟨404, .error "User not found"⟩
    | s :: _ => ⟨200, .inserted "university_id" s.university_id⟩

/-- `GET /api/rsos/getRSOStatus`, with `rso_id` read from the query string.  Call 0 is
the `SELECT`. -/
def getRSOStatus (st : Store) (_c : Credential) (rso_id : Option Nat) (fail : Faults) :
    Response :=
  match rso_id with
  | none => ⟨400, .error "Missing rso_id parameter"⟩
  | some rid =>
    match fail 0 with
    | some err => ⟨500, .error err.message⟩
    | none =>
      match st.RSOs.filter fun r => (sqlEq (some r.rso_id) (some rid)).holds with
      | [] => ⟨404, .error "RSO not found"⟩
      | r :: _ =>
        if r.status = "active" then ⟨200, .message "RSO is active"⟩
        else if r.status = "pending" then ⟨400, .error "RSO status is pending"⟩
        else ⟨500, .error "Unexpected status value"⟩

/-- `GET /api/rsos/getRSOId/:user_id`.  Call 0 is the `SELECT`. -/
def getRSOId (st : Store) (_c : Credential) (user_id : Option Nat) (fail : Faults) :
    Response :=
  match fail 0 with
  | some err => ⟨500, .error err.message⟩
  | none =>
    match st.RSOs.filter fun r => (sqlEq (some r.rso_admin) user_id).holds with
    | [] => ⟨404, .error "User not found"⟩
    | r :: _ => ⟨200, .inserted "rso_id" r.rso_id⟩

/-- `GET /api/comments/getCommentList/:event_id` behind `authenticateToken`.  Call 0 is
the `SELECT`. -/
def getCommentList (st : Store) (c : Credential) (event_id : Option Nat) (fail : Faults) :
    Response :=
  match authenticateToken c with
  | .error res => res
  | .ok _ =>
    match fail 0 with
    | some err => ⟨500, .error err.message⟩
    | none =>
      ⟨200, .comments "Comments retrieved successfully"
        (st.EventComments.filter fun k => (sqlEq (some k.event_id) event_id).holds)⟩

/-- `GET /api/ratings/getAverage/:event_id`.  The route has no middleware.  Call 0 is the
`SELECT` of the rounded average, which the store computes over the ratings of the
event. -/
def getAverage (st : Store) (_c : Credential) (event_id : Nat) (fail : Faults) : Response :=
  match fail 0 with
  | some err => ⟨500, .error err.message⟩
  | none =>
    ⟨200, .average event_id
      ((st.EventRatings.filter fun r =>
        (sqlEq (some r.event_id) (some event_id)).holds).map fun r => r.rating)⟩

/-! ## The server as a transition system -/

/-- The requests of the server, one constructor for each route of `server.js`. -/
inductive Request where
  | welcome
  | login (email password : String)
  | register (email password role : String)
  | getUserId (email : String)
  | getUser (user_id : Option Nat)
  | getUserList
  | updateUser (user_id : Nat) (email password : String)
  | deleteUser (user_id : Option Nat)
  | createUniversity (name location description : String) (num_students : Nat)
      (website : String) (user_id : Nat)
  | getActiveUniversityList
  | getPendingUniversityList
  | getActiveRSOList
  | getPendingRSOList
  | getInactiveRSOList
  | approveRSO (rso_id : Nat)
  | getActiveStudentList
  | getPendingStudentList
  | approveStudent (student_id : Nat)
  | createStudent (first_name last_name : String) (university_id user_id : Option Nat)
  | getStudentStatus (user_id : Option Nat)
  | joinRSO (user_id rso_id : Option Nat)
  | getUniId (user_id : Option Nat)
  | createRSO (name : String) (university_id rso_admin : Nat)
  | getRSOStatus (rso_id : Option Nat)
  | getRSOId (user_id : Option Nat)
  | createEvent (body : EventBody)
  | getEventList (university_id rso_id : Option Nat)
  | getUniLevelEvents (user_id : Nat)
  | getRSOLevelEvents (user_id : Nat)
  | getStudentLevelEvents (user_id : Nat)
  | updateEvent (event_id : Nat) (updates : Event → Event)
  | addComment (event_id : Option Nat) (comment : String) (user_id : Nat)
  | updateComment (comment_id : Nat) (comment : String) (user_id : Option Nat)
  | deleteComment (comment_id : Nat) (user_id : Option Nat)
  | getCommentList (event_id : Option Nat)
  | addOrUpdateRating (event_id user_id : Option Nat) (rating : Option Int)
  | getAverage (event_id : Nat)
  | getUserRating (event_id user_id : Nat)
  | addBuildings (buildings : Option (List BuildingBody)) (university_id : Option Nat)

/-- One request served: the response and the store after it.  `c` is the credential of
the request and `fail` the outcome of its calls to the store. -/
def serve (lib : Library) (st : Store) (c : Credential) (fail : Faults) :
    Request → Response × Store
  | .welcome => (welcome, st)
  | .login email password => (login lib st c email password fail, st)
  | .register email password role => register lib st c email password role fail
  | .getUserId email => (getUserId st c email fail, st)
  | .getUser user_id => (getUser st c user_id fail, st)
  | .getUserList => (getUserList st c fail, st)
  | .updateUser user_id email password => updateUser lib st c user_id email password fail
  | .deleteUser user_id => deleteUser st c user_id fail
  | .createUniversity name location description num_students website user_id =>
    createUniversity st c name location description num_students website user_id fail
  | .getActiveUniversityList => (getUniversityList "active" st c fail, st)
  | .getPendingUniversityList => (getUniversityList "pending" st c fail, st)
  | .getActiveRSOList => (getRSOList "active" st c fail, st)
  | .getPendingRSOList => (getRSOList "pending" st c fail, st)
  | .getInactiveRSOList => (getRSOList "inactive" st c fail, st)
  | .approveRSO rso_id => approveRSORoute st c rso_id fail
  | .getActiveStudentList => (getStudentList "active" st c fail, st)
  | .getPendingStudentList => (getStudentList "pending" st c fail, st)
  | .approveStudent student_id => approveStudentRoute st c student_id fail
  | .createStudent first_name last_name university_id user_id =>
    createStudent st c first_name last_name university_id user_id fail
  | .getStudentStatus user_id => (getStudentStatus st c user_id fail, st)
  | .joinRSO user_id rso_id => joinRSORoute st c user_id rso_id fail
  | .getUniId user_id => (getUniId st c user_id fail, st)
  | .createRSO name university_id rso_admin =>
    createRSO st c name university_id rso_admin fail
  | .getRSOStatus rso_id => (getRSOStatus st c rso_id fail, st)
  | .getRSOId user_id => (getRSOId st c user_id fail, st)
  | .createEvent body => createEvent st c body fail
  | .getEventList university_id rso_id => (getEventList st c university_id rso_id fail, st)
  | .getUniLevelEvents user_id => (getUniLevelEventsRoute st c user_id fail, st)
  | .getRSOLevelEvents user_id => (getRSOLevelEventsRoute st c user_id fail, st)
  | .getStudentLevelEvents user_id => (getStudentLevelEventsRoute st c user_id fail, st)
  | .updateEvent event_id updates => updateEvent st c event_id updates fail
  | .addComment event_id comment user_id => addComment st c event_id comment user_id fail
  | .updateComment comment_id comment user_id =>
    updateComment st c comment_id comment user_id fail
  | .deleteComment comment_id user_id => deleteComment st c comment_id user_id fail
  | .getCommentList event_id => (getCommentList st c event_id fail, st)
  | .addOrUpdateRating event_id user_id rating =>
    addOrUpdateRating st c event_id user_id rating fail
  | .getAverage event_id => (getAverage st c event_id fail, st)
  | .getUserRating event_id user_id => (getUserRating st c event_id user_id fail, st)
  | .addBuildings buildings university_id => addBuildings st c buildings university_id fail

/-- A run of the server: the requests are served one after the other. -/
def run (lib : Library) (st : Store) : List (Credential × Faults × Request) → Store
  | [] => st
  | (c, fail, req) :: rest => run lib (serve lib st c fail req).2 rest

/-! ## Status tables between two stores -/

/-- Every row of `post` is a row of `pre`, or is active, or has a key that no row of
`pre` has. -/
def KeepsActive {α : Type} (key : α → Nat) (status : α → String) (pre post : List α) : Prop :=
  ∀ y ∈ post, y ∈ pre ∨ status y = "active" ∨ key y ∉ pre.map key

/-- The three status tables are each kept active from `st` to `st'`. -/
def StatusKept (st st' : Store) : Prop :=
  KeepsActive (fun s : Student => s.student_id) (fun s => s.status) st.Students st'.Students ∧
  KeepsActive (fun r : RSO => r.rso_id) (fun r => r.status) st.RSOs st'.RSOs ∧
  KeepsActive (fun m : RSOMembership => m.membership_id) (fun m => m.status)
    st.RSO_Memberships st'.RSO_Memberships

/-! ## Two approve requests in flight

An approve handler makes one call to the store, the conditional `UPDATE`, and then
answers from `affectedRows`.  The store executes a statement as a unit, so two requests
in flight interleave at the level of these two steps. -/

/-- The statement of `approveRSO` alone: the store after it, and `affectedRows`. -/
def approveRSOStatement (rso_id : Nat) (st : Store) : Store × Nat :=
  let result := sqlUpdate st.RSOs
    (fun r => (sqlEq (some r.rso_id) (some rso_id)).and (sqlEq (some r.status) (some "pending")))
    (fun r => { r with status := "active" })
  ({ st with RSOs := result.1 }, result.2)

/-- The answer of `approveRSO` to a given `affectedRows`. -/
def approveRSOResponse (affectedRows : Nat) : Response :=
  if affectedRows = 0 then ⟨404, .error "RSO not found or already approved"⟩
  else ⟨200, .message "RSO approved successfully"⟩

/-- The statement of `approveStudent` alone: the store after it, and `affectedRows`. -/
def approveStudentStatement (student_id : Nat) (st : Store) : Store × Nat :=
  let result := sqlUpdate st.Students
    (fun s => (sqlEq (some s.student_id) (some student_id)).and
      (sqlEq (some s.status) (some "pending")))
    (fun s => { s with status := "active" })
  ({ st with Students := result.1 }, result.2)

/-- The answer of `approveStudent` to a given `affectedRows`. -/
def approveStudentResponse (affectedRows : Nat) : Response :=
  if affectedRows = 0 then ⟨404, .error "Student not found or already approved"⟩
  else ⟨200, .message "Student approved successfully"⟩

/-- A request in flight: `affectedRows` once its statement has run, and the response
once it has been sent. -/
structure InFlight where
  affectedRows : Option Nat := none
  response : Option Response := none
deriving DecidableEq

/-- One step of a request in flight: it runs its statement if it has not yet, else it
sends its response if it has not yet, else it has finished and nothing happens. -/
def InFlight.step (statement : Store → Store × Nat) (respond : Nat → Response) (st : Store)
    (p : InFlight) : Store × InFlight :=
  match p.affectedRows with
  | none => ((statement st).1, { p with affectedRows := some (statement st).2 })
  | some n =>
    match p.response with
    | none => (st, { p with response := some (respond n) })
    | some _ => (st, p)

/-- Two requests in flight under a schedule: at `true` the first one takes a step, at
`false` the second one. -/
def interleave (statement : Store → Store × Nat) (respond : Nat → Response) :
    Store → InFlight → InFlight → List Bool → Store × InFlight × InFlight
  | st, p, q, [] => (st, p, q)
  | st, p, q, true :: rest =>
    interleave statement respond (p.step statement respond st).1
      (p.step statement respond st).2 q rest
  | st, p, q, false :: rest =>
    interleave statement respond (q.step statement respond st).1 p
      (q.step statement respond st).2 rest

/-- A request in flight whose statement has affected `n` rows and whose response, if
sent, is the one for `n`. -/
def InFlight.Ran (respond : Nat → Response) (n : Nat) (p : InFlight) : Prop :=
  p.affectedRows = some n ∧ (p.response = none ∨ p.response = some (respond n))

/-- The states two requests in flight can be in, for a statement that takes `st0` to
`st1` affecting `n1` rows and leaves `st1` as it is, affecting none: nothing has run; or
the store is `st1`, one request has run its statement on `st0`, and the other has not
run its statement yet or has run it on `st1`. -/
def RaceInv (respond : Nat → Response) (st0 st1 : Store) (n1 : Nat) (st : Store)
    (p q : InFlight) : Prop :=
  (st = st0 ∧ p = {} ∧ q = {}) ∨
  (st = st1 ∧ p.Ran respond n1 ∧ (q = {} ∨ q.Ran respond 0)) ∨
  (st = st1 ∧ q.Ran respond n1 ∧ (p = {} ∨ p.Ran respond 0))

/-! ## The ratings table -/

/-- The invariant of `EventRatings`: at most one row for a pair `(event_id, user_id)`,
and every rating between 1 and 5. -/
def RatingsValid (t : List EventRating) : Prop :=
  (t.map fun r => (r.event_id, r.user_id)).Nodup ∧ ∀ r ∈ t, 1 ≤ r.rating ∧ r.rating ≤ 5

/-- The invariant of `EventRatings` carries over from `st` to `st'`. -/
def RatingsKept (st st' : Store) : Prop :=
  RatingsValid st.EventRatings → RatingsValid st'.EventRatings

/-! ## Errors of the store in the responses -/

/-- The `errorHandler` that `server.js` registers after the routes: the answer to an
error that leaves a handler.  Every handler has its own `catch`, so no error of the store
reaches it. -/
def errorHandler : Response := ⟨500, .error "Something went wrong!"⟩

/-- Two outcomes of the calls to the store that differ at most in the text of the errors:
call by call, both execute, or both raise an error with the same `code`. -/
def SameFailures (f g : Faults) : Prop :=
  ∀ n, (f n).map (fun e => e.code) = (g n).map (fun e => e.code)

/-- The results `x` and `y` of one request on `st` under the outcomes `f` and `g`: they
are equal, or a call has raised an error under both outcomes, the store is left as it
was, and each response is the 500 that carries the message of its error. -/
def CaughtAlike (st : Store) (f g : Faults) (x y : Response × Store) : Prop :=
  x = y ∨
  ∃ n e e', f n = some e ∧ g n = some e' ∧
    x = (⟨500, .error e.message⟩, st) ∧ y = (⟨500, .error e'.message⟩, st)

/-- The answer of the `catch` of the handler of a request to the error of a call:
`register` and `joinRSO` answer the code `ER_DUP_ENTRY` with a 400 of their own, and
every handler answers every other error with 500 and `error.message`. -/
def catchResponse : Request → StoreError → Response
  | .register _ _ _, err =>
    if err.code = "ER_DUP_ENTRY" then ⟨400, .error "Email already exists"⟩
    else ⟨500, .error err.message⟩
  | .joinRSO _ _, err =>
    if err.code = "ER_DUP_ENTRY" then
      ⟨400, .error "User already requested to join this RSO"⟩
    else ⟨500, .error err.message⟩
  | _, err => ⟨500, .error err.message⟩

/-- Number of calls that the handler of a request makes when each of them executes (the
calls numbered by `Faults`): the `await`s of the handler that its guards let it reach.
A request that is answered by the middleware or by a check of its input before the first
call makes none. -/
def calls (lib : Library) (st : Store) (c : Credential) : Request → Nat
  | .welcome => 0
  | .login email password =>
    match st.Users.filter fun u => (sqlEq (some u.email) (some email)).holds with
    | [] => 1
    | user :: _ => if !lib.compare password user.password_hash then 2 else 3
  | .register email password role =>
    let errors :=
      (if lib.isEmail email then [] else ["email"]) ++
      (if isLength 6 password then [] else ["password"]) ++
      (if role ∈ ["admin", "university", "rso", "student"] then [] else ["role"])
    if !errors.isEmpty then 0 else 1
  | .getUserId _ => 1
  | .getUser _ => 1
  | .getUserList => 1
  | .updateUser user_id _ _ =>
    match st.Users.filter fun u => (sqlEq (some u.user_id) (some user_id)).holds with
    | [] => 1
    | _ :: _ => 2
  | .deleteUser user_id =>
    if (st.Users.filter fun u => (sqlEq (some u.user_id) user_id).holds).length = 0 then 1
    else 2
  | .createUniversity _ _ _ _ _ _ => 1
  | .getActiveUniversityList => 1
  | .getPendingUniversityList => 1
  | .getActiveRSOList => 1
  | .getPendingRSOList => 1
  | .getInactiveRSOList => 1
  | .approveRSO _ => 1
  | .getActiveStudentList => 1
  | .getPendingStudentList => 1
  | .approveStudent _ => 1
  | .createStudent first_name last_name university_id user_id =>
    if first_name = "" then 0
    else if last_name = "" then 0
    else if falsy user_id then 0
    else if falsy university_id then 0
    else 1
  | .getStudentStatus user_id =>
    match user_id with
    | none => 0
    | some _ => 1
  | .joinRSO user_id rso_id => if falsy user_id || falsy rso_id then 0 else 1
  | .getUniId _ => 1
  | .createRSO _ _ _ =>
    match authenticateToken c with
    | .error _ => 0
    | .ok _ => 5
  | .getRSOStatus rso_id =>
    match rso_id with
    | none => 0
    | some _ => 1
  | .getRSOId _ => 1
  | .createEvent body =>
    match authenticateToken c with
    | .error _ => 0
    | .ok _ =>
      let errors :=
        (if jsTrim body.name ≠ "" then [] else ["name"]) ++
        (if jsTrim body.description ≠ "" then [] else ["description"]) ++
        (if body.category ∈ ["social", "fundraising", "tech talk", "other"] then []
          else ["category"]) ++
        (if body.visibility ∈ ["public", "private", "rso"] then [] else ["visibility"])
      if !errors.isEmpty then 0 else 1
  | .getEventList _ _ =>
    match authenticateToken c with
    | .error _ => 0
    | .ok _ => 1
  | .getUniLevelEvents _ =>
    match authenticateToken c with
    | .error _ => 0
    | .ok _ => 1
  | .getRSOLevelEvents user_id =>
    match authenticateToken c with
    | .error _ => 0
    | .ok _ =>
      if (st.RSOs.filter fun r =>
          ((sqlEq (some r.rso_admin) (some user_id)).and
            (sqlEq (some r.status) (some "active"))).holds).length = 0 then 1
      else 2
  | .getStudentLevelEvents _ =>
    match authenticateToken c with
    | .error _ => 0
    | .ok _ => 2
  | .updateEvent event_id _ =>
    match authenticateToken c with
    | .error _ => 0
    | .ok user =>
      match st.Events.filter fun e => (sqlEq (some e.event_id) (some event_id)).holds with
      | [] => 1
      | e0 :: _ => if e0.created_by ≠ some user.user_id ∧ user.role ≠ "admin" then 1 else 2
  | .addComment event_id comment _ =>
    match authenticateToken c with
    | .error _ => 0
    | .ok _ =>
      match event_id with
      | none => 0
      | some ev => if ev = 0 ∨ comment = "" then 0 else 1
  | .updateComment comment_id comment user_id =>
    match authenticateToken c with
    | .error _ => 0
    | .ok _ =>
      if comment = "" then 0
      else
        match st.EventComments.filter fun k =>
            (sqlEq (some k.comment_id) (some comment_id)).holds with
        | [] => 1
        | k0 :: _ => if some k0.user_id ≠ user_id then 1 else 2
  | .deleteComment comment_id user_id =>
    match authenticateToken c with
    | .error _ => 0
    | .ok _ =>
      match st.EventComments.filter fun k =>
          (sqlEq (some k.comment_id) (some comment_id)).holds with
      | [] => 1
      | k0 :: _ => if some k0.user_id ≠ user_id then 1 else 2
  | .getCommentList _ =>
    match authenticateToken c with
    | .error _ => 0
    | .ok _ => 1
  | .addOrUpdateRating event_id user_id rating =>
    match authenticateToken c with
    | .error _ => 0
    | .ok _ =>
      match event_id, user_id, rating with
      | some ev, some u, some r => if ev = 0 ∨ u = 0 ∨ r = 0 ∨ r < 1 ∨ r > 5 then 0 else 1
      | _, _, _ => 0
  | .getAverage _ => 1
  | .getUserRating _ _ => 1
  | .addBuildings buildings university_id =>
    match buildings, university_id with
    | some bs, some uni => if bs.length = 0 ∨ uni = 0 then 0 else 2
    | _, _ => 0

/-- The handler of a request catches the errors of its calls.  Under the outcome `f`:
when call `n` is one the handler makes, raises `err`, and every call before it executes,
the answer is the one of the `catch` and the store is left as it was; and when every call
the handler makes executes, the result is the one under `noFault`. -/
def CatchesFailures (lib : Library) (st : Store) (c : Credential) (req : Request)
    (f : Faults) : Prop :=
  (∀ n err, n < calls lib st c req → f n = some err → (∀ k, k < n → f k = none) →
    serve lib st c f req = (catchResponse req err, st)) ∧
  ((∀ n, n < calls lib st c req → f n = none) →
    serve lib st c f req = serve lib st c noFault req)

/-! ## A sample store

University 1 is owned by user 10 and university 2 by user 20.  User 100 is a pending
student of university 1 with a pending membership in RSO 1; user 101 is an active student
there, administers the active RSO 1 and the pending RSO 2, and is an active member of
RSO 1. -/

/-- Sample store used to evaluate the handlers on concrete requests. -/
def demoStore : Store :=
  { Universities := [{ university_id := 1, user_id := 10 }, { university_id := 2, user_id := 20 }],
    Students :=
      [{ student_id := 1, university_id := 1, user_id := 100, status := "pending" },
       { student_id := 2, university_id := 1, user_id := 101, status := "active" }],
    RSOs :=
      [{ rso_id := 1, university_id := 1, rso_admin := 101, status := "active" },
       { rso_id := 2, university_id := 1, rso_admin := 101, status := "pending" }],
    RSO_Memberships :=
      [{ membership_id := 1, user_id := 100, rso_id := 1, status := "pending" },
       { membership_id := 2, user_id := 101, rso_id := 1, status := "active" }],
    Events :=
      [{ event_id := 1, visibility := "public", university_id := some 1 },
       { event_id := 2, visibility := "private", university_id := some 1 },
       { event_id := 3, visibility := "rso", university_id := some 1, rso_id := some 1 },
       { event_id := 4, visibility := "rso", university_id := some 1, rso_id := some 2 },
       { event_id := 5, visibility := "public" },
       { event_id := 6, visibility := "private", university_id := some 2 }] }

/-- The public event 1 of university 1 in `demoStore`. -/
def demoPublicEvent : Event := { event_id := 1, visibility := "public", university_id := some 1 }

/-- The private event 2 of university 1 in `demoStore`. -/
def demoPrivateEvent : Event :=
  { event_id := 2, visibility := "private", university_id := some 1 }

/-- The event 3 of RSO 1 in `demoStore`. -/
def demoRsoEvent : Event :=
  { event_id := 3, visibility := "rso", university_id := some 1, rso_id := some 1 }

/-- A verified token of user 100, a student. -/
def demoToken : Credential := .verified { user_id := 100, role := "student" }

/-- The store `demoStore` in which user 100 has a second Student row at university 1, both
rows active, so that the join of the student-scope query matches two Student rows for
every event of that university; user 100 is also an active member of RSO 1. -/
def demoTwinStore : Store :=
  { demoStore with
    Students :=
      [{ student_id := 1, university_id := 1, user_id := 100, status := "active" },
       { student_id := 3, university_id := 1, user_id := 100, status := "active" }],
    RSO_Memberships :=
      [{ membership_id := 1, user_id := 100, rso_id := 1, status := "active" }] }

/-- The store reached from `demoStore` when user 10, the owner of university 1, who has
no Student row, sends `joinRSO` for RSO 1 twice. -/
def demoGuestStore : Store :=
  (joinRSO (joinRSO demoStore .absent (some 10) (some 1)).2 .absent (some 10) (some 1)).2

/-- The store `demoStore` with its users: 10 and 20 own the universities, 100 and 102 are
students, 101 is an RSO admin; user 100 wrote comment 1 and user 101 comment 2, both on
event 1. -/
def demoCampus : Store :=
  { demoStore with
    Users :=
      [{ user_id := 10, email := "u1@example.org", role := "university" },
       { user_id := 20, email := "u2@example.org", role := "university" },
       { user_id := 100, email := "s100@example.org", role := "student" },
       { user_id := 101, email := "s101@example.org", role := "rso_admin" },
       { user_id := 102, email := "s102@example.org", role := "student" }],
    EventComments :=
      [{ comment_id := 1, event_id := 1, user_id := 100, comment := "first" },
       { comment_id := 2, event_id := 1, user_id := 101, comment := "second" }] }

/-- The pending RSO 2 of `demoStore`, administered by user 101. -/
def demoPendingRSO : RSO :=
  { rso_id := 2, university_id := 1, rso_admin := 101, status := "pending" }

/-- Body of a `createEvent` request of user 101 for a public event of RSO 1. -/
def demoEventBody : EventBody :=
  { name := "Chess night", description := "Open games", category := "social",
    date_time := "2025-04-01 18:00:00", visibility := "public", university_id := some 1,
    rso_id := some 1, rso_admin := some 101 }

/-- A verified token of user 101, an RSO admin. -/
def demoAdminToken : Credential := .verified { user_id := 101, role := "rso_admin" }

/-- A library for the sample requests: every email is accepted and kept as it is, the
hash of a password is the password, and the token of a user is its role. -/
def demoLibrary : Library :=
  { isEmail := fun _ => true, normalizeEmail := fun s => s, hash := fun s => s,
    compare := fun password hash => password == hash, sign := fun user => user.role }

/-- Call 0 to the store is refused, with the text that `mysql2` gives for a store on the
same host. -/
def demoRefusedLocal : Faults := fun n =>
  if n = 0 then
    some { code := "ECONNREFUSED", message := "connect ECONNREFUSED 127.0.0.1:3306" }
  else none

/-- Call 0 to the store is refused, with the text for a store on another host. -/
def demoRefusedRemote : Faults := fun n =>
  if n = 0 then
    some { code := "ECONNREFUSED", message := "connect ECONNREFUSED 10.0.0.5:3306" }
  else none

/-- Call 1 to the store raises a deadlock; every other call executes. -/
def demoDeadlock : Faults := fun n =>
  if n = 1 then
    some { code := "ER_LOCK_DEADLOCK",
           message := "Deadlock found when trying to get lock; try restarting transaction" }
  else none

/-- Call 0 to the store raises `ER_DUP_ENTRY`. -/
def demoDuplicate : Faults := fun n =>
  if n = 0 then
    some { code := "ER_DUP_ENTRY", message := "Duplicate entry for key 'Users.email'" }
  else none

/-- Only call 7 raises, a call that no handler makes. -/
def demoLateFailure : Faults := fun n =>
  if n = 7 then some { code := "ECONNRESET", message := "read ECONNRESET" } else none

/-- Call 0 to the store raises an error whose text is the message of `errorHandler`. -/
def demoWentWrong : Faults := fun n =>
  if n = 0 then some { code := "", message := "Something went wrong!" } else none

/-! ## Lemmas on the SQL layer -/

@[simp] theorem SqlBool.holds_and (a b : SqlBool) :
    (a.and b).holds = true ↔ a.holds = true ∧ b.holds = true := by
  cases a <;> cases b <;> simp [SqlBool.and, SqlBool.holds]

@[simp] theorem SqlBool.holds_or (a b : SqlBool) :
    (a.or b).holds = true ↔ a.holds = true ∨ b.holds = true := by
  cases a <;> cases b <;> simp [SqlBool.or, SqlBool.holds]

theorem holds_sqlEq {α : Type} [DecidableEq α] (x y : Option α) :
    (sqlEq x y).holds = true ↔ ∃ a, x = some a ∧ y = some a := by
  cases x <;> cases y <;> simp [sqlEq, SqlBool.holds]
  rename_i a b
  by_cases h : a = b
  · simp [h]
  · simp [h, Ne.symm h]

@[simp] theorem holds_sqlEq_some {α : Type} [DecidableEq α] (a b : α) :
    (sqlEq (some a) (some b)).holds = true ↔ a = b := by
  by_cases h : a = b <;> simp [sqlEq, SqlBool.holds, h]

@[simp] theorem holds_sqlIn {α : Type} [DecidableEq α] (x : Option α) (vs : List α) :
    (sqlIn x vs).holds = true ↔ ∃ a, x = some a ∧ a ∈ vs := by
  cases x <;> simp [sqlIn, SqlBool.holds]
  split <;> simp_all

theorem mem_innerJoin {α β : Type} (l : List α) (r : List β) (cond : α → β → SqlBool)
    (a : α) (b : β) :
    (a, b) ∈ innerJoin l r cond ↔ a ∈ l ∧ b ∈ r ∧ (cond a b).holds = true := by
  simp only [innerJoin, List.mem_flatMap, List.mem_map, List.mem_filter, Prod.mk.injEq]
  constructor
  · rintro ⟨a', ha, b', ⟨hb, hc⟩, rfl, rfl⟩
    exact ⟨ha, hb, hc⟩
  · rintro ⟨ha, hb, hc⟩
    exact ⟨a, ha, b, ⟨hb, hc⟩, rfl, rfl⟩

theorem mem_leftJoin {α β : Type} (l : List α) (r : List β) (cond : α → β → SqlBool)
    (a : α) (ob : Option β) :
    (a, ob) ∈ leftJoin l r cond ↔
      a ∈ l ∧ ((ob = none ∧ ∀ b ∈ r, (cond a b).holds ≠ true) ∨
        ∃ b, ob = some b ∧ b ∈ r ∧ (cond a b).holds = true) := by
  simp only [leftJoin, List.mem_flatMap]
  constructor
  · rintro ⟨a', ha, h⟩
    split at h
    · rename_i hnil
      simp only [List.mem_singleton, Prod.mk.injEq] at h
      obtain ⟨rfl, rfl⟩ := h
      refine ⟨ha, Or.inl ⟨rfl, ?_⟩⟩
      intro b hb hc
      have : b ∈ r.filter fun b => (cond a b).holds := List.mem_filter.mpr ⟨hb, hc⟩
      rw [hnil] at this
      simp at this
    · rename_i b0 bs hcons
      rw [← hcons] at h
      simp only [List.mem_map, List.mem_filter, Prod.mk.injEq] at h
      obtain ⟨b, ⟨hb, hc⟩, rfl, rfl⟩ := h
      exact ⟨ha, Or.inr ⟨b, rfl, hb, hc⟩⟩
  · rintro ⟨ha, h⟩
    refine ⟨a, ha, ?_⟩
    rcases h with ⟨rfl, hno⟩ | ⟨b, rfl, hb, hc⟩
    · have hnil : (r.filter fun b => (cond a b).holds) = [] := by
        rw [List.filter_eq_nil_iff]
        intro b hb
        exact hno b hb
      rw [hnil]
      simp
    · have hmem : b ∈ r.filter fun b => (cond a b).holds := List.mem_filter.mpr ⟨hb, hc⟩
      split
      · rename_i hnil
        rw [hnil] at hmem
        simp at hmem
      · rename_i b0 bs hcons
        rw [← hcons]
        exact List.mem_map.mpr ⟨b, hmem, rfl⟩

/-- Every event has a row in the first left join of the student-scope query. -/
theorem exists_leftJoin_row {α β : Type} (l : List α) (r : List β) (cond : α → β → SqlBool)
    (a : α) (ha : a ∈ l) : ∃ ob, (a, ob) ∈ leftJoin l r cond := by
  by_cases h : ∃ b ∈ r, (cond a b).holds = true
  · obtain ⟨b, hb, hc⟩ := h
    exact ⟨some b, (mem_leftJoin l r cond a (some b)).mpr ⟨ha, Or.inr ⟨b, rfl, hb, hc⟩⟩⟩
  · refine ⟨none, (mem_leftJoin l r cond a none).mpr ⟨ha, Or.inl ⟨rfl, ?_⟩⟩⟩
    intro b hb hc
    exact h ⟨b, hb, hc⟩

theorem mem_studentLevelRows (st : Store) (a : Claims) (uid : Nat) (e : Event) :
    e ∈ (getStudentLevelEvents st (.verified a) uid).rows ↔
      e ∈ st.Events ∧
        (e.visibility = "public" ∨
         (e.visibility = "private" ∧ ∃ u ∈ st.Universities, ∃ s ∈ st.Students,
            e.university_id = some u.university_id ∧ s.user_id = uid ∧
            s.university_id = u.university_id ∧ s.status = "active") ∨
         (e.visibility = "rso" ∧ ∃ m ∈ st.RSO_Memberships,
            m.user_id = uid ∧ m.status = "active" ∧ e.rso_id = some m.rso_id)) := by
  simp only [getStudentLevelEvents, authenticateToken, Response.rows, List.mem_dedup,
    List.mem_map, List.mem_filter, Prod.exists]
  constructor
  · rintro ⟨e', ou, os, ⟨hrow, hq⟩, rfl⟩
    simp only [mem_leftJoin] at hrow
    obtain ⟨⟨he, hu⟩, hs⟩ := hrow
    refine ⟨he, ?_⟩
    have hpriv : ∀ s0, os = some s0 → s0.status = "active" →
        ∃ u ∈ st.Universities, ∃ s ∈ st.Students,
          e'.university_id = some u.university_id ∧ s.user_id = uid ∧
            s.university_id = u.university_id ∧ s.status = "active" := by
      intro s0 hs0 hact
      simp only [SqlBool.holds_and, holds_sqlEq, Option.some.injEq, Option.map_eq_some',
        exists_eq_left', ne_eq, not_and, exists_eq_left] at hs hu
      rcases hs with ⟨hn, _⟩ | ⟨s1, h1, hs1, hus, u1, hou, huni⟩
      · rw [hs0] at hn
        cases hn
      · rw [hs0] at h1
        cases h1
        rcases hu with ⟨hn, _⟩ | ⟨u2, h2, hu2, x, hx, hux⟩
        · rw [hou] at hn
          cases hn
        · rw [hou] at h2
          cases h2
          exact ⟨u1, hu2, s0, hs1, by rw [hx, hux], hus.symm, huni.symm, hact⟩
    have hbase : ((sqlEq (some e'.visibility) (some "public")).or
          ((sqlEq (some e'.visibility) (some "private")).and
            (sqlEq (Option.map (fun s => s.status) os) (some "active")))).holds = true →
        e'.visibility = "public" ∨
          (e'.visibility = "private" ∧ ∃ u ∈ st.Universities, ∃ s ∈ st.Students,
            e'.university_id = some u.university_id ∧ s.user_id = uid ∧
              s.university_id = u.university_id ∧ s.status = "active") := by
      intro hb
      simp only [SqlBool.holds_and, SqlBool.holds_or, holds_sqlEq, Option.some.injEq,
        Option.map_eq_some', exists_eq_left'] at hb
      rcases hb with hpub | ⟨hpr, x, ⟨s0, hs0, hst⟩, hx⟩
      · exact Or.inl hpub.symm
      · exact Or.inr ⟨hpr.symm, hpriv s0 hs0 (by rw [hst, hx])⟩
    split at hq
    · rw [SqlBool.holds_or] at hq
      rcases hq with hb | hr
      · rcases hbase hb with h | h
        · exact Or.inl h
        · exact Or.inr (Or.inl h)
      · simp only [SqlBool.holds_and, holds_sqlEq, holds_sqlIn, Option.some.injEq,
          exists_eq_left', List.mem_map, List.mem_filter] at hr
        obtain ⟨hv, x, hx, m, ⟨hm, hmu, hma⟩, hmr⟩ := hr
        exact Or.inr (Or.inr ⟨hv.symm, m, hm, hmu.symm, hma.symm, by rw [hx, hmr]⟩)
    · rcases hbase hq with h | h
      · exact Or.inl h
      · exact Or.inr (Or.inl h)
  · rintro ⟨he, h⟩
    rcases h with hpub | ⟨hpr, u, hu, s, hs, heu, hsu, hsun, hact⟩ | ⟨hrso, m, hm, hmu, hma, hmr⟩
    · obtain ⟨ou, hou⟩ := exists_leftJoin_row st.Events st.Universities
        (fun e u => sqlEq e.university_id (some u.university_id)) e he
      obtain ⟨os, hos⟩ := exists_leftJoin_row _ st.Students
        (fun eu s => (sqlEq (some s.user_id) (some uid)).and
          (sqlEq (some s.university_id) (eu.2.map fun u => u.university_id))) (e, ou) hou
      refine ⟨e, ou, os, ⟨hos, ?_⟩, rfl⟩
      split <;> simp [hpub]
    · refine ⟨e, some u, some s, ⟨?_, ?_⟩, rfl⟩
      · rw [mem_leftJoin, mem_leftJoin]
        refine ⟨⟨he, Or.inr ⟨u, rfl, hu, ?_⟩⟩, Or.inr ⟨s, rfl, hs, ?_⟩⟩
        · simp [heu]
        · simp [hsu, hsun]
      · split <;> simp [hpr, hact]
    · obtain ⟨ou, hou⟩ := exists_leftJoin_row st.Events st.Universities
        (fun e u => sqlEq e.university_id (some u.university_id)) e he
      obtain ⟨os, hos⟩ := exists_leftJoin_row _ st.Students
        (fun eu s => (sqlEq (some s.user_id) (some uid)).and
          (sqlEq (some s.university_id) (eu.2.map fun u => u.university_id))) (e, ou) hou
      refine ⟨e, ou, os, ⟨hos, ?_⟩, rfl⟩
      have hmem : m ∈ st.RSO_Memberships.filter fun m =>
          ((sqlEq (some m.user_id) (some uid)).and
            (sqlEq (some m.status) (some "active"))).holds := by
        rw [List.mem_filter]
        exact ⟨hm, by simp [hmu, hma]⟩
      split
      · rw [SqlBool.holds_or]
        right
        simp only [SqlBool.holds_and, holds_sqlEq, holds_sqlIn, Option.some.injEq,
          exists_eq_left', List.mem_map]
        exact ⟨hrso.symm, m.rso_id, hmr, m, hmem, rfl⟩
      · rename_i hlen
        exfalso
        apply hlen
        rw [List.length_map]
        exact List.length_pos_of_mem hmem

theorem sqlUpdate_of_no_match {α : Type} (t : List α) (cond : α → SqlBool) (set : α → α)
    (h : ∀ r ∈ t, (cond r).holds ≠ true) : sqlUpdate t cond set = (t, 0) := by
  unfold sqlUpdate
  have h1 : (t.map fun r => if (cond r).holds then set r else r) = t := by
    conv_rhs => rw [← List.map_id t]
    apply List.map_congr_left
    intro r hr
    simp [h r hr]
  have h2 : (t.filter fun r => (cond r).holds) = [] := by
    rw [List.filter_eq_nil_iff]
    exact h
  rw [h1, h2]
  rfl

theorem sqlUpdate_affected_ne_zero {α : Type} (t : List α) (cond : α → SqlBool) (set : α → α)
    (r : α) (hr : r ∈ t) (hc : (cond r).holds = true) : (sqlUpdate t cond set).2 ≠ 0 := by
  unfold sqlUpdate
  have hmem : r ∈ t.filter fun r => (cond r).holds := List.mem_filter.mpr ⟨hr, hc⟩
  exact Nat.pos_iff_ne_zero.mp (List.length_pos_of_mem hmem)

/-- After an update that sets every matching row to a non-matching one, no row matches. -/
theorem sqlUpdate_no_match_after {α : Type} (t : List α) (cond : α → SqlBool) (set : α → α)
    (hset : ∀ r, (cond (set r)).holds ≠ true) :
    ∀ r ∈ (sqlUpdate t cond set).1, (cond r).holds ≠ true := by
  intro r hr
  simp only [sqlUpdate, List.mem_map] at hr
  obtain ⟨x, _, rfl⟩ := hr
  by_cases hx : (cond x).holds = true
  · rw [if_pos hx]
    exact hset x
  · rw [if_neg hx]
    exact hx

theorem approveRSO_cond_iff (r : RSO) (id : Nat) :
    ((sqlEq (some r.rso_id) (some id)).and (sqlEq (some r.status) (some "pending"))).holds
        = true ↔ r.rso_id = id ∧ r.status = "pending" := by
  simp

theorem approveStudent_cond_iff (s : Student) (id : Nat) :
    ((sqlEq (some s.student_id) (some id)).and (sqlEq (some s.status) (some "pending"))).holds
        = true ↔ s.student_id = id ∧ s.status = "pending" := by
  simp

theorem approveRSO_store (st : Store) (c : Credential) (id : Nat) :
    (approveRSO st c id).2 =
      { st with RSOs := (sqlUpdate st.RSOs
          (fun x => (sqlEq (some x.rso_id) (some id)).and
            (sqlEq (some x.status) (some "pending")))
          (fun x => { x with status := "active" })).1 } := by
  unfold approveRSO
  dsimp only
  split <;> rfl

theorem approveStudent_store (st : Store) (c : Credential) (id : Nat) :
    (approveStudent st c id).2 =
      { st with Students := (sqlUpdate st.Students
          (fun x => (sqlEq (some x.student_id) (some id)).and
            (sqlEq (some x.status) (some "pending")))
          (fun x => { x with status := "active" })).1 } := by
  unfold approveStudent
  dsimp only
  split <;> rfl

theorem approveRSO_of_no_pending (st : Store) (c : Credential) (id : Nat)
    (h : ∀ r ∈ st.RSOs, r.rso_id = id → r.status ≠ "pending") :
    approveRSO st c id = (⟨404, .error "RSO not found or already approved"⟩, st) := by
  unfold approveRSO
  rw [sqlUpdate_of_no_match]
  · rfl
  · intro r hr hc
    rw [approveRSO_cond_iff] at hc
    exact h r hr hc.1 hc.2

theorem approveStudent_of_no_pending (st : Store) (c : Credential) (id : Nat)
    (h : ∀ s ∈ st.Students, s.student_id = id → s.status ≠ "pending") :
    approveStudent st c id = (⟨404, .error "Student not found or already approved"⟩, st) := by
  unfold approveStudent
  rw [sqlUpdate_of_no_match]
  · rfl
  · intro s hs hc
    rw [approveStudent_cond_iff] at hc
    exact h s hs hc.1 hc.2

theorem approveRSO_of_pending (st : Store) (c : Credential) (r : RSO) (hr : r ∈ st.RSOs)
    (hp : r.status = "pending") :
    approveRSO st c r.rso_id =
      (⟨200, .message "RSO approved successfully"⟩,
       { st with RSOs := st.RSOs.map fun x =>
          if x.rso_id = r.rso_id ∧ x.status = "pending" then { x with status := "active" }
          else x }) := by
  have hne := sqlUpdate_affected_ne_zero st.RSOs
    (fun x => (sqlEq (some x.rso_id) (some r.rso_id)).and
      (sqlEq (some x.status) (some "pending")))
    (fun x => { x with status := "active" }) r hr ((approveRSO_cond_iff r r.rso_id).mpr ⟨rfl, hp⟩)
  unfold approveRSO
  simp only [hne, if_false]
  simp [sqlUpdate]

theorem approveStudent_of_pending (st : Store) (c : Credential) (s : Student)
    (hs : s ∈ st.Students) (hp : s.status = "pending") :
    approveStudent st c s.student_id =
      (⟨200, .message "Student approved successfully"⟩,
       { st with Students := st.Students.map fun x =>
          if x.student_id = s.student_id ∧ x.status = "pending" then
            { x with status := "active" }
          else x }) := by
  have hne := sqlUpdate_affected_ne_zero st.Students
    (fun x => (sqlEq (some x.student_id) (some s.student_id)).and
      (sqlEq (some x.status) (some "pending")))
    (fun x => { x with status := "active" }) s hs
    ((approveStudent_cond_iff s s.student_id).mpr ⟨rfl, hp⟩)
  unfold approveStudent
  simp only [hne, if_false]
  simp [sqlUpdate]

theorem mem_uniLevelRows (st : Store) (a : Claims) (uid : Nat) (e : Event) :
    e ∈ (getUniLevelEvents st (.verified a) uid).rows ↔
      e ∈ st.Events ∧
        ∃ U ∈ st.Universities, e.university_id = some U.university_id ∧ U.user_id = uid := by
  simp only [getUniLevelEvents, authenticateToken, Response.rows, List.mem_map,
    List.mem_filter, Prod.exists, mem_innerJoin, holds_sqlEq_some]
  constructor
  · rintro ⟨e', U, ⟨⟨he, hU, hc⟩, hown⟩, rfl⟩
    rw [holds_sqlEq] at hc
    obtain ⟨x, hx, hx'⟩ := hc
    exact ⟨he, U, hU, by rw [hx, hx'], hown⟩
  · rintro ⟨he, U, hU, heU, hown⟩
    refine ⟨e, U, ⟨⟨he, hU, ?_⟩, hown⟩, rfl⟩
    rw [heU]
    simp

theorem mem_rsoLevelRows (st : Store) (a : Claims) (uid : Nat) (e : Event) :
    e ∈ (getRSOLevelEvents st (.verified a) uid).rows ↔
      e ∈ st.Events ∧
        ∃ r ∈ st.RSOs, r.rso_admin = uid ∧ r.status = "active" ∧
          e.rso_id = some r.rso_id := by
  simp only [getRSOLevelEvents, authenticateToken]
  split
  · rename_i hlen
    have hnil := List.eq_nil_of_length_eq_zero hlen
    simp only [Response.rows, List.not_mem_nil, false_iff, not_and, not_exists]
    intro _ r hr hadm hact _
    have hmem : r ∈ st.RSOs.filter fun r =>
        ((sqlEq (some r.rso_admin) (some uid)).and
          (sqlEq (some r.status) (some "active"))).holds := by
      rw [List.mem_filter]
      exact ⟨hr, by simp [hadm, hact]⟩
    rw [hnil] at hmem
    simp at hmem
  · simp only [Response.rows, List.mem_dedup, List.mem_filter, holds_sqlIn, List.mem_map,
      SqlBool.holds_and, holds_sqlEq_some]
    constructor
    · rintro ⟨he, x, hx, r, ⟨hr, hadm, hact⟩, rfl⟩
      exact ⟨he, r, hr, hadm, hact, hx⟩
    · rintro ⟨he, r, hr, hadm, hact, hx⟩
      exact ⟨he, r.rso_id, hx, r, ⟨hr, hadm, hact⟩, rfl⟩

theorem innerJoin_filter_map_fst {α β : Type} (l : List α) (r : List β)
    (cond : α → β → SqlBool) (p : α × β → Bool) :
    ((innerJoin l r cond).filter p).map Prod.fst =
      l.flatMap fun a =>
        List.replicate (r.filter fun b => (cond a b).holds && p (a, b)).length a := by
  induction l with
  | nil => rfl
  | cons a l ih =>
    have ih' : (List.filter p (innerJoin l r cond)).map Prod.fst = _ := ih
    simp only [innerJoin, List.flatMap_cons, List.filter_append, List.map_append] at ih' ⊢
    rw [ih']
    congr 1
    rw [List.filter_map, List.map_map, List.filter_filter]
    rw [List.eq_replicate_iff]
    constructor
    · simp only [List.length_map]
      congr 1
      apply List.filter_congr
      intro b _
      simp [Bool.and_comm]
    · intro x hx
      simp only [List.mem_map, Function.comp] at hx
      obtain ⟨b, _, rfl⟩ := hx
      rfl

theorem length_filter_le_one_of_nodup_key {α κ : Type} (key : α → κ) (k : κ) (p : α → Bool) :
    ∀ l : List α, (l.map key).Nodup → (∀ x ∈ l, p x = true → key x = k) →
      (l.filter p).length ≤ 1 := by
  intro l
  induction l with
  | nil => intro _ _; simp
  | cons x xs ih =>
    intro hnd hp
    rw [List.map_cons, List.nodup_cons] at hnd
    have hxs : ∀ y ∈ xs, p y = true → key y = k := fun y hy => hp y (List.mem_cons_of_mem x hy)
    by_cases hx : p x = true
    · have hnil : xs.filter p = [] := by
        rw [List.filter_eq_nil_iff]
        intro y hy hpy
        apply hnd.1
        rw [List.mem_map]
        exact ⟨y, hy, by rw [hxs y hy hpy, hp x (List.mem_cons_self x xs) hx]⟩
      rw [List.filter_cons_of_pos hx, hnil]
      simp
    · rw [List.filter_cons_of_neg hx]
      exact ih hnd.2 hxs

theorem flatMap_replicate_eq_filter {α : Type} (n : α → Nat) (q : α → Bool) :
    ∀ l : List α, (∀ a ∈ l, n a = if q a then 1 else 0) →
      (l.flatMap fun a => List.replicate (n a) a) = l.filter q := by
  intro l
  induction l with
  | nil => intro _; rfl
  | cons a l ih =>
    intro h
    rw [List.flatMap_cons, ih fun x hx => h x (List.mem_cons_of_mem a hx),
      h a (List.mem_cons_self a l)]
    by_cases hq : q a = true
    · rw [List.filter_cons_of_pos hq]
      simp [hq]
    · rw [List.filter_cons_of_neg hq]
      simp [hq]

theorem uniLevelRows_of_nodup (st : Store) (a : Claims) (uid : Nat)
    (hnd : (st.Universities.map fun U => U.university_id).Nodup) :
    (getUniLevelEvents st (.verified a) uid).rows =
      st.Events.filter fun e =>
        decide (∃ U ∈ st.Universities,
          e.university_id = some U.university_id ∧ U.user_id = uid) := by
  have hrows : (getUniLevelEvents st (.verified a) uid).rows =
      ((innerJoin st.Events st.Universities fun e u =>
          sqlEq e.university_id (some u.university_id)).filter fun eu =>
        (sqlEq (some eu.2.user_id) (some uid)).holds).map Prod.fst := rfl
  rw [hrows, innerJoin_filter_map_fst]
  apply flatMap_replicate_eq_filter
  intro e _
  have hle := length_filter_le_one_of_nodup_key (fun U : University => U.university_id)
    (e.university_id.getD 0)
    (fun U => (sqlEq e.university_id (some U.university_id)).holds &&
      (sqlEq (some U.user_id) (some uid)).holds) st.Universities hnd
    (by
      intro U _ hp
      simp only [Bool.and_eq_true, holds_sqlEq_some] at hp
      rw [holds_sqlEq] at hp
      obtain ⟨⟨x, hx, hx'⟩, _⟩ := hp
      rw [hx, Option.getD_some]
      exact (Option.some.inj hx').trans rfl)
  by_cases hq : ∃ U ∈ st.Universities, e.university_id = some U.university_id ∧ U.user_id = uid
  · obtain ⟨U, hU, heU, hown⟩ := hq
    have hmem : U ∈ st.Universities.filter fun U =>
        (sqlEq e.university_id (some U.university_id)).holds &&
          (sqlEq (some U.user_id) (some uid)).holds := by
      rw [List.mem_filter]
      refine ⟨hU, ?_⟩
      rw [heU]
      simp [hown]
    have hpos := List.length_pos_of_mem hmem
    have hdec : decide (∃ U ∈ st.Universities,
        e.university_id = some U.university_id ∧ U.user_id = uid) = true :=
      decide_eq_true ⟨U, hU, heU, hown⟩
    rw [hdec]
    simp only [if_true]
    omega
  · have hnil : (st.Universities.filter fun U =>
        (sqlEq e.university_id (some U.university_id)).holds &&
          (sqlEq (some U.user_id) (some uid)).holds) = [] := by
      rw [List.filter_eq_nil_iff]
      intro U hU hp
      simp only [Bool.and_eq_true, holds_sqlEq_some] at hp
      rw [holds_sqlEq] at hp
      obtain ⟨⟨x, hx, hx'⟩, hown⟩ := hp
      exact hq ⟨U, hU, by rw [hx, hx'], hown⟩
    have hdec : decide (∃ U ∈ st.Universities,
        e.university_id = some U.university_id ∧ U.user_id = uid) = false :=
      decide_eq_false hq
    rw [hdec, hnil]
    simp

/-- With a verified token the student-scope handler answers 203 with the rows it
computed. -/
theorem getStudentLevelEvents_verified (st : Store) (a : Claims) (uid : Nat) :
    getStudentLevelEvents st (.verified a) uid =
      ⟨203, .data "Student events retrieved successfully."
        (getStudentLevelEvents st (.verified a) uid).rows⟩ := by
  simp [getStudentLevelEvents, authenticateToken, Response.rows]

/-! ## Student-scope visibility -/

/-- C1: for a private event `e` of the store whose `university_id` is that of an existing
university `U`, the student-scope query for user `u` (any verified token) answers 203
with rows that contain `e` exactly when `Students` has a row of `u` at `U` with status
`active`; when every Student row of `u` at `U` is `pending`, `e` is not returned. -/
theorem studentLevel_private_iff_active_student (st : Store) (a : Claims) (u : Nat)
    (e : Event) (U : University) (he : e ∈ st.Events) (hv : e.visibility = "private")
    (hU : U ∈ st.Universities) (heU : e.university_id = some U.university_id) :
    getStudentLevelEvents st (.verified a) u =
        ⟨203, .data "Student events retrieved successfully."
          (getStudentLevelEvents st (.verified a) u).rows⟩ ∧
      (e ∈ (getStudentLevelEvents st (.verified a) u).rows ↔
        ∃ s ∈ st.Students,
          s.user_id = u ∧ s.university_id = U.university_id ∧ s.status = "active") ∧
      ((∀ s ∈ st.Students, s.user_id = u → s.university_id = U.university_id →
          s.status = "pending") →
        e ∉ (getStudentLevelEvents st (.verified a) u).rows) := by
  have hiff : e ∈ (getStudentLevelEvents st (.verified a) u).rows ↔
      ∃ s ∈ st.Students,
        s.user_id = u ∧ s.university_id = U.university_id ∧ s.status = "active" := by
    rw [mem_studentLevelRows]
    constructor
    · rintro ⟨_, hpub | ⟨_, u', _, s, hs, heu', hsu, hsun, hact⟩ | ⟨hrso, _⟩⟩
      · rw [hv] at hpub
        exact absurd hpub (by decide)
      · refine ⟨s, hs, hsu, ?_, hact⟩
        rw [heU] at heu'
        rw [hsun]
        exact (Option.some.inj heu').symm
      · rw [hv] at hrso
        exact absurd hrso (by decide)
    · rintro ⟨s, hs, hsu, hsun, hact⟩
      exact ⟨he, Or.inr (Or.inl ⟨hv, U, hU, s, hs, heU, hsu, hsun, hact⟩)⟩
  refine ⟨getStudentLevelEvents_verified st a u, hiff, ?_⟩
  intro hpend hmem
  obtain ⟨s, hs, hsu, hsun, hact⟩ := hiff.mp hmem
  have hp := hpend s hs hsu hsun
  rw [hact] at hp
  exact absurd hp (by decide)

/-- Witness for C1 on `demoStore`: the private event of university 1 is not returned to
user 100, whose Student row there is pending, and is returned to the active student 101. -/
theorem studentLevel_private_iff_active_student_witness :
    demoPrivateEvent ∉ (getStudentLevelEvents demoStore demoToken 100).rows ∧
      demoPrivateEvent ∈ (getStudentLevelEvents demoStore demoToken 101).rows :=
  ⟨(studentLevel_private_iff_active_student demoStore ⟨100, "student"⟩ 100 demoPrivateEvent
      { university_id := 1, user_id := 10 } (by decide) (by decide) (by decide)
      (by decide)).2.2 (by decide),
   (studentLevel_private_iff_active_student demoStore ⟨100, "student"⟩ 101 demoPrivateEvent
      { university_id := 1, user_id := 10 } (by decide) (by decide) (by decide)
      (by decide)).2.1.mpr
      ⟨{ student_id := 2, university_id := 1, user_id := 101, status := "active" },
        by decide, by decide, by decide, by decide⟩⟩

/-- C2: for an event `e` of the store with visibility `rso` and `rso_id = R`, the
student-scope query for user `u` returns `e` exactly when `RSO_Memberships` has a row
`(u, R)` with status `active`; when every membership row of `u` in `R` is `pending`, `e`
is not returned. -/
theorem studentLevel_rso_iff_active_membership (st : Store) (a : Claims) (u R : Nat)
    (e : Event) (he : e ∈ st.Events) (hv : e.visibility = "rso") (hR : e.rso_id = some R) :
    getStudentLevelEvents st (.verified a) u =
        ⟨203, .data "Student events retrieved successfully."
          (getStudentLevelEvents st (.verified a) u).rows⟩ ∧
      (e ∈ (getStudentLevelEvents st (.verified a) u).rows ↔
        ∃ m ∈ st.RSO_Memberships, m.user_id = u ∧ m.rso_id = R ∧ m.status = "active") ∧
      ((∀ m ∈ st.RSO_Memberships, m.user_id = u → m.rso_id = R → m.status = "pending") →
        e ∉ (getStudentLevelEvents st (.verified a) u).rows) := by
  have hiff : e ∈ (getStudentLevelEvents st (.verified a) u).rows ↔
      ∃ m ∈ st.RSO_Memberships, m.user_id = u ∧ m.rso_id = R ∧ m.status = "active" := by
    rw [mem_studentLevelRows]
    constructor
    · rintro ⟨_, hpub | ⟨hpr, _⟩ | ⟨_, m, hm, hmu, hma, hmr⟩⟩
      · rw [hv] at hpub
        exact absurd hpub (by decide)
      · rw [hv] at hpr
        exact absurd hpr (by decide)
      · rw [hR] at hmr
        exact ⟨m, hm, hmu, (Option.some.inj hmr).symm, hma⟩
    · rintro ⟨m, hm, hmu, hmr, hma⟩
      exact ⟨he, Or.inr (Or.inr ⟨hv, m, hm, hmu, hma, by rw [hR, hmr]⟩)⟩
  refine ⟨getStudentLevelEvents_verified st a u, hiff, ?_⟩
  intro hpend hmem
  obtain ⟨m, hm, hmu, hmr, hma⟩ := hiff.mp hmem
  have hp := hpend m hm hmu hmr
  rw [hma] at hp
  exact absurd hp (by decide)

/-- Witness for C2 on `demoStore`: the event of RSO 1 is not returned to user 100, whose
membership in RSO 1 is pending, and is returned to the active member 101. -/
theorem studentLevel_rso_iff_active_membership_witness :
    demoRsoEvent ∉ (getStudentLevelEvents demoStore demoToken 100).rows ∧
      demoRsoEvent ∈ (getStudentLevelEvents demoStore demoToken 101).rows :=
  ⟨(studentLevel_rso_iff_active_membership demoStore ⟨100, "student"⟩ 100 1 demoRsoEvent
      (by decide) (by decide) (by decide)).2.2 (by decide),
   (studentLevel_rso_iff_active_membership demoStore ⟨100, "student"⟩ 101 1 demoRsoEvent
      (by decide) (by decide) (by decide)).2.1.mpr
      ⟨{ membership_id := 2, user_id := 101, rso_id := 1, status := "active" },
        by decide, by decide, by decide, by decide⟩⟩

/-- C3: whatever the store and the user `u` of the path, the student-scope query answers
203 with rows that contain every event of the store whose visibility is `public`. -/
theorem studentLevel_contains_public (st : Store) (a : Claims) (u : Nat) (e : Event)
    (he : e ∈ st.Events) (hv : e.visibility = "public") :
    getStudentLevelEvents st (.verified a) u =
        ⟨203, .data "Student events retrieved successfully."
          (getStudentLevelEvents st (.verified a) u).rows⟩ ∧
      e ∈ (getStudentLevelEvents st (.verified a) u).rows :=
  ⟨getStudentLevelEvents_verified st a u,
   (mem_studentLevelRows st a u e).mpr ⟨he, Or.inl hv⟩⟩

/-- Witness for C3 on `demoStore`: user 999, who has no Student row and no membership,
receives the public event of university 1. -/
theorem studentLevel_contains_public_witness :
    demoPublicEvent ∈ (getStudentLevelEvents demoStore demoToken 999).rows :=
  (studentLevel_contains_public demoStore ⟨100, "student"⟩ 999 demoPublicEvent
    (by decide) (by decide)).2

/-! ## Joining an RSO -/

/-- C4 (the code differs): in `demoStore` user 100 already has a pending membership row
in RSO 1; a second `joinRSO` for the same pair answers 201 and rewrites the status of
that row to `active`, so the table does not stay unchanged. -/
theorem joinRSO_duplicate_sets_active :
    joinRSO demoStore .absent (some 100) (some 1) =
        (⟨201, .membership "Request to join RSO submitted" 1⟩,
         { demoStore with RSO_Memberships :=
            [{ membership_id := 1, user_id := 100, rso_id := 1, status := "active" },
             { membership_id := 2, user_id := 101, rso_id := 1, status := "active" }] }) ∧
      (joinRSO demoStore .absent (some 100) (some 1)).2.RSO_Memberships ≠
        demoStore.RSO_Memberships := by
  decide

/-! ## Approval -/

/-- C5: when the row with the given id is in the table with status `pending` (ids being
unique in the table), `approveRSO` / `approveStudent` answers 200 with its confirmation
message, and the store after the request is the store before it with exactly that row
replaced by itself with status `active`: no other row, field or table changes. -/
theorem approve_pending_activates_one_row (st : Store) (c : Credential) :
    (∀ r ∈ st.RSOs, r.status = "pending" → (st.RSOs.map fun x => x.rso_id).Nodup →
      approveRSO st c r.rso_id =
        (⟨200, .message "RSO approved successfully"⟩,
         { st with RSOs := st.RSOs.map fun x =>
            if x = r then { r with status := "active" } else x })) ∧
    (∀ s ∈ st.Students, s.status = "pending" →
      (st.Students.map fun x => x.student_id).Nodup →
      approveStudent st c s.student_id =
        (⟨200, .message "Student approved successfully"⟩,
         { st with Students := st.Students.map fun x =>
            if x = s then { s with status := "active" } else x })) := by
  constructor
  · intro r hr hp hnd
    rw [approveRSO_of_pending st c r hr hp]
    congr 2
    apply List.map_congr_left
    intro x hx
    by_cases hxr : x = r
    · subst hxr
      simp [hp]
    · have hid : x.rso_id ≠ r.rso_id := fun h =>
        hxr (List.inj_on_of_nodup_map hnd hx hr h)
      simp [hxr, hid]
  · intro s hs hp hnd
    rw [approveStudent_of_pending st c s hs hp]
    congr 2
    apply List.map_congr_left
    intro x hx
    by_cases hxs : x = s
    · subst hxs
      simp [hp]
    · have hid : x.student_id ≠ s.student_id := fun h =>
        hxs (List.inj_on_of_nodup_map hnd hx hs h)
      simp [hxs, hid]

/-- Witness for C5 on `demoStore`: approving the pending RSO 2 and the pending student 1. -/
theorem approve_pending_activates_one_row_witness :
    approveRSO demoStore .absent 2 =
        (⟨200, .message "RSO approved successfully"⟩,
         { demoStore with RSOs :=
            [{ rso_id := 1, university_id := 1, rso_admin := 101, status := "active" },
             { rso_id := 2, university_id := 1, rso_admin := 101, status := "active" }] }) ∧
      approveStudent demoStore .absent 1 =
        (⟨200, .message "Student approved successfully"⟩,
         { demoStore with Students :=
            [{ student_id := 1, university_id := 1, user_id := 100, status := "active" },
             { student_id := 2, university_id := 1, user_id := 101, status := "active" }] }) :=
  ⟨(approve_pending_activates_one_row demoStore .absent).1
      { rso_id := 2, university_id := 1, rso_admin := 101, status := "pending" }
      (by decide) (by decide) (by decide),
   (approve_pending_activates_one_row demoStore .absent).2
      { student_id := 1, university_id := 1, user_id := 100, status := "pending" }
      (by decide) (by decide) (by decide)⟩

/-- C6: when no row with the given id has status `pending` (absent, or already active),
`approveRSO` / `approveStudent` answers 404 with its "not found or already approved"
error and the store is unchanged; a second approve of the same id, right after a first
one, is always such a 404, while the first one answers 200 when a pending row with the
id is there. -/
theorem approve_without_pending_is_404 (st : Store) (c c' : Credential) (id : Nat) :
    ((∀ r ∈ st.RSOs, r.rso_id = id → r.status ≠ "pending") →
      approveRSO st c id = (⟨404, .error "RSO not found or already approved"⟩, st)) ∧
    ((∀ s ∈ st.Students, s.student_id = id → s.status ≠ "pending") →
      approveStudent st c id =
        (⟨404, .error "Student not found or already approved"⟩, st)) ∧
    approveRSO (approveRSO st c id).2 c' id =
      (⟨404, .error "RSO not found or already approved"⟩, (approveRSO st c id).2) ∧
    approveStudent (approveStudent st c id).2 c' id =
      (⟨404, .error "Student not found or already approved"⟩, (approveStudent st c id).2) ∧
    ((∃ r ∈ st.RSOs, r.rso_id = id ∧ r.status = "pending") →
      (approveRSO st c id).1 = ⟨200, .message "RSO approved successfully"⟩) ∧
    ((∃ s ∈ st.Students, s.student_id = id ∧ s.status = "pending") →
      (approveStudent st c id).1 = ⟨200, .message "Student approved successfully"⟩) := by
  refine ⟨approveRSO_of_no_pending st c id, approveStudent_of_no_pending st c id, ?_, ?_, ?_, ?_⟩
  · apply approveRSO_of_no_pending
    intro r hr hid hp
    have hafter := sqlUpdate_no_match_after st.RSOs
      (fun x => (sqlEq (some x.rso_id) (some id)).and (sqlEq (some x.status) (some "pending")))
      (fun x => { x with status := "active" }) (by intro x; simp)
    have hr' : r ∈ (sqlUpdate st.RSOs
        (fun x => (sqlEq (some x.rso_id) (some id)).and
          (sqlEq (some x.status) (some "pending")))
        (fun x => { x with status := "active" })).1 := by
      rw [approveRSO_store] at hr
      exact hr
    exact hafter r hr' ((approveRSO_cond_iff r id).mpr ⟨hid, hp⟩)
  · apply approveStudent_of_no_pending
    intro s hs hid hp
    have hafter := sqlUpdate_no_match_after st.Students
      (fun x => (sqlEq (some x.student_id) (some id)).and
        (sqlEq (some x.status) (some "pending")))
      (fun x => { x with status := "active" }) (by intro x; simp)
    have hs' : s ∈ (sqlUpdate st.Students
        (fun x => (sqlEq (some x.student_id) (some id)).and
          (sqlEq (some x.status) (some "pending")))
        (fun x => { x with status := "active" })).1 := by
      rw [approveStudent_store] at hs
      exact hs
    exact hafter s hs' ((approveStudent_cond_iff s id).mpr ⟨hid, hp⟩)
  · rintro ⟨r, hr, rfl, hp⟩
    rw [approveRSO_of_pending st c r hr hp]
  · rintro ⟨s, hs, rfl, hp⟩
    rw [approveStudent_of_pending st c s hs hp]

/-- Witness for C6 on `demoStore`: RSO 1 is already active and student 9 does not exist,
so both approvals answer 404 and leave the store as it was; approving the pending RSO 2
answers 200. -/
theorem approve_without_pending_is_404_witness :
    approveRSO demoStore .absent 1 =
        (⟨404, .error "RSO not found or already approved"⟩, demoStore) ∧
      approveStudent demoStore .absent 9 =
        (⟨404, .error "Student not found or already approved"⟩, demoStore) ∧
      (approveRSO demoStore .absent 2).1 = ⟨200, .message "RSO approved successfully"⟩ :=
  ⟨(approve_without_pending_is_404 demoStore .absent .absent 1).1 (by decide),
   (approve_without_pending_is_404 demoStore .absent .absent 9).2.1 (by decide),
   (approve_without_pending_is_404 demoStore .absent .absent 2).2.2.2.2.1 (by decide)⟩

/-- C7 (counterexample): in `demoStore` a request without any token approves the pending
RSO 2, and a request of user 100, a student who owns no university and is no admin,
approves the pending student 1: the status of the target row goes from `pending` to
`active` in both cases. -/
theorem approve_by_unauthorized_caller_changes_status :
    ((demoStore.RSOs.filter fun r => r.rso_id = 2).map fun r => r.status) = ["pending"] ∧
      (((approveRSO demoStore .absent 2).2.RSOs.filter fun r => r.rso_id = 2).map
        fun r => r.status) = ["active"] ∧
      ((demoStore.Students.filter fun s => s.student_id = 1).map fun s => s.status)
        = ["pending"] ∧
      (((approveStudent demoStore (.verified ⟨100, "student"⟩) 1).2.Students.filter
        fun s => s.student_id = 1).map fun s => s.status) = ["active"] ∧
      (∀ U ∈ demoStore.Universities, U.user_id ≠ 100) := by
  decide

/-- C7 (amended): `approveRSO` and `approveStudent` look at no token and no role.  The
outcome of a request is the same for every caller, and whoever the caller is, a target
row with status `pending` is answered 200 and is in the table with status `active`
afterwards. -/
theorem approve_ignores_caller (st : Store) (c : Credential) :
    (∀ id, approveRSO st c id = approveRSO st .absent id) ∧
    (∀ id, approveStudent st c id = approveStudent st .absent id) ∧
    (∀ r ∈ st.RSOs, r.status = "pending" →
      (approveRSO st c r.rso_id).1 = ⟨200, .message "RSO approved successfully"⟩ ∧
        { r with status := "active" } ∈ (approveRSO st c r.rso_id).2.RSOs) ∧
    (∀ s ∈ st.Students, s.status = "pending" →
      (approveStudent st c s.student_id).1 = ⟨200, .message "Student approved successfully"⟩ ∧
        { s with status := "active" } ∈ (approveStudent st c s.student_id).2.Students) := by
  refine ⟨fun _ => rfl, fun _ => rfl, ?_, ?_⟩
  · intro r hr hp
    rw [approveRSO_of_pending st c r hr hp]
    refine ⟨rfl, ?_⟩
    simp only [List.mem_map]
    exact ⟨r, hr, by simp [hp]⟩
  · intro s hs hp
    rw [approveStudent_of_pending st c s hs hp]
    refine ⟨rfl, ?_⟩
    simp only [List.mem_map]
    exact ⟨s, hs, by simp [hp]⟩

/-- Witness for C7 (amended) on `demoStore`: a caller with a rejected token approves the
pending RSO 2. -/
theorem approve_ignores_caller_witness :
    (approveRSO demoStore .rejected 2).1 = ⟨200, .message "RSO approved successfully"⟩ ∧
      ({ rso_id := 2, university_id := 1, rso_admin := 101, status := "active" } : RSO) ∈
        (approveRSO demoStore .rejected 2).2.RSOs :=
  (approve_ignores_caller demoStore .rejected).2.2.1
    { rso_id := 2, university_id := 1, rso_admin := 101, status := "pending" }
    (by decide) (by decide)

/-! ## University and RSO-admin scope -/

/-- C8 (counterexample): with the verified token of user 100, who owns no university and
administers no RSO, a request whose path names user 10 receives the events of the
university of user 10, and a request whose path names user 101 receives the event of
the RSO administered by user 101. -/
theorem scope_queries_answer_for_path_user :
    ((getUniLevelEvents demoStore (.verified ⟨100, "student"⟩) 10).rows.map
        fun e => e.event_id) = [1, 2, 3, 4] ∧
      (∀ U ∈ demoStore.Universities, U.user_id ≠ 100) ∧
      ((getRSOLevelEvents demoStore (.verified ⟨100, "student"⟩) 101).rows.map
        fun e => e.event_id) = [3] ∧
      (∀ r ∈ demoStore.RSOs, r.rso_admin ≠ 100) := by
  decide

/-- C8 (amended): the three scope queries resolve visibility for the `user_id` of the
request path; the token only has to verify, and its claims are not consulted.  Two
requests with the same path and verified tokens of different actors get the same
response; every event of a university-scope response belongs to a university owned by
the user of the path, and every event of an rso-admin-scope response to an active RSO
administered by the user of the path. -/
theorem scope_queries_resolve_path_user (st : Store) (a b : Claims) (p : Nat) :
    getUniLevelEvents st (.verified a) p = getUniLevelEvents st (.verified b) p ∧
    getRSOLevelEvents st (.verified a) p = getRSOLevelEvents st (.verified b) p ∧
    getStudentLevelEvents st (.verified a) p = getStudentLevelEvents st (.verified b) p ∧
    (∀ e ∈ (getUniLevelEvents st (.verified a) p).rows,
      ∃ U ∈ st.Universities, U.user_id = p ∧ e.university_id = some U.university_id) ∧
    (∀ e ∈ (getRSOLevelEvents st (.verified a) p).rows,
      ∃ r ∈ st.RSOs, r.rso_admin = p ∧ r.status = "active" ∧
        e.rso_id = some r.rso_id) := by
  refine ⟨rfl, rfl, rfl, ?_, ?_⟩
  · intro e he
    obtain ⟨_, U, hU, heU, hown⟩ := (mem_uniLevelRows st a p e).mp he
    exact ⟨U, hU, hown, heU⟩
  · intro e he
    exact ((mem_rsoLevelRows st a p e).mp he).2

/-- Witness for C8 (amended) on `demoStore`: the event of RSO 1 returned for the path
user 101 under the token of user 100 belongs to an active RSO administered by 101. -/
theorem scope_queries_resolve_path_user_witness :
    ∃ r ∈ demoStore.RSOs, r.rso_admin = 101 ∧ r.status = "active" ∧
      demoRsoEvent.rso_id = some r.rso_id :=
  (scope_queries_resolve_path_user demoStore ⟨100, "student"⟩ ⟨101, "rso_admin"⟩ 101).2.2.2.2
    demoRsoEvent (by decide)

/-- C9: the university-scope query for user `u` answers with rows that contain an event
exactly when the event is in `Events` and some University row has the event's
`university_id` and `user_id = u`; no visibility or status enters the condition.  When
university ids are unique, the rows are the `Events` table filtered by that condition,
each event once. -/
theorem uniLevel_exactly_owned_university_events (st : Store) (a : Claims) (u : Nat) :
    getUniLevelEvents st (.verified a) u =
        ⟨201, .data "University events retrieved successfully."
          (getUniLevelEvents st (.verified a) u).rows⟩ ∧
      (∀ e, e ∈ (getUniLevelEvents st (.verified a) u).rows ↔
        e ∈ st.Events ∧
          ∃ U ∈ st.Universities, e.university_id = some U.university_id ∧ U.user_id = u) ∧
      ((st.Universities.map fun U => U.university_id).Nodup →
        (getUniLevelEvents st (.verified a) u).rows =
          st.Events.filter fun e =>
            decide (∃ U ∈ st.Universities,
              e.university_id = some U.university_id ∧ U.user_id = u)) := by
  exact ⟨rfl, mem_uniLevelRows st a u, uniLevelRows_of_nodup st a u⟩

/-- Witness for C9 on `demoStore`: user 10 owns university 1 and receives its four
events, whatever their visibility; the event without university and the event of
university 2 are not returned. -/
theorem uniLevel_exactly_owned_university_events_witness :
    (getUniLevelEvents demoStore demoToken 10).rows =
      demoStore.Events.filter fun e =>
        decide (∃ U ∈ demoStore.Universities,
          e.university_id = some U.university_id ∧ U.user_id = 10) :=
  (uniLevel_exactly_owned_university_events demoStore ⟨100, "student"⟩ 10).2.2 (by decide)

/-- C10: when user `u` administers at least one active RSO, the rso-admin-scope query
answers 202 with rows, free of duplicates, that contain an event exactly when the event
is in `Events` and its `rso_id` is that of an RSO row with `rso_admin = u` and status
`active`; with unique RSO ids, no event of a pending RSO is returned. -/
theorem rsoLevel_exactly_active_administered (st : Store) (a : Claims) (u : Nat)
    (hadmin : ∃ r ∈ st.RSOs, r.rso_admin = u ∧ r.status = "active") :
    getRSOLevelEvents st (.verified a) u =
        ⟨202, .data "RSO admin events retrieved successfully."
          (getRSOLevelEvents st (.verified a) u).rows⟩ ∧
      (∀ e, e ∈ (getRSOLevelEvents st (.verified a) u).rows ↔
        e ∈ st.Events ∧
          ∃ r ∈ st.RSOs, r.rso_admin = u ∧ r.status = "active" ∧
            e.rso_id = some r.rso_id) ∧
      (getRSOLevelEvents st (.verified a) u).rows.Nodup ∧
      ((st.RSOs.map fun r => r.rso_id).Nodup →
        ∀ r ∈ st.RSOs, r.status = "pending" → ∀ e, e.rso_id = some r.rso_id →
          e ∉ (getRSOLevelEvents st (.verified a) u).rows) := by
  refine ⟨?_, mem_rsoLevelRows st a u, ?_, ?_⟩
  · obtain ⟨r, hr, hadm, hact⟩ := hadmin
    have hmem : r ∈ st.RSOs.filter fun r =>
        ((sqlEq (some r.rso_admin) (some u)).and
          (sqlEq (some r.status) (some "active"))).holds := by
      rw [List.mem_filter]
      exact ⟨hr, by simp [hadm, hact]⟩
    have hlen := Nat.pos_iff_ne_zero.mp (List.length_pos_of_mem hmem)
    simp only [getRSOLevelEvents, authenticateToken, hlen, if_false, Response.rows]
  · simp only [getRSOLevelEvents, authenticateToken]
    split
    · simp [Response.rows]
    · simp only [Response.rows]
      exact List.nodup_dedup _
  · intro hnd r hr hp e her hmem
    obtain ⟨_, r', hr', _, hact, her'⟩ := (mem_rsoLevelRows st a u e).mp hmem
    rw [her] at her'
    have hrr : r = r' := List.inj_on_of_nodup_map hnd hr hr' (Option.some.inj her')
    rw [← hrr, hp] at hact
    exact absurd hact (by decide)

/-- Witness for C10 on `demoStore`: user 101 administers the active RSO 1 and the pending
RSO 2, and receives the event of RSO 1 only. -/
theorem rsoLevel_exactly_active_administered_witness :
    getRSOLevelEvents demoStore demoToken 101 =
      ⟨202, .data "RSO admin events retrieved successfully." [demoRsoEvent]⟩ :=
  (rsoLevel_exactly_active_administered demoStore ⟨100, "student"⟩ 101
    ⟨{ rso_id := 1, university_id := 1, rso_admin := 101, status := "active" },
      by decide, by decide, by decide⟩).1

/-- C11 (counterexample): in `demoStore` user 100 administers no active RSO, and the
rso-admin-scope query for user 100 answers with status 404 and a message, not with a
success status and an empty array. -/
theorem rsoLevel_without_active_rso_is_404_on_demo :
    (∀ r ∈ demoStore.RSOs, ¬(r.rso_admin = 100 ∧ r.status = "active")) ∧
      getRSOLevelEvents demoStore demoToken 100 =
        ⟨404, .message "No RSOs found for this admin."⟩ := by
  decide

/-- C11 (amended): when user `u` administers zero active RSOs, the rso-admin-scope query
answers 404 with the message "No RSOs found for this admin." and carries no array of
events; the status differs from the 401 (no token) and 403 (rejected token) of an
unauthorized request. -/
theorem rsoLevel_without_active_rso_is_404 (st : Store) (a : Claims) (u : Nat)
    (hnone : ∀ r ∈ st.RSOs, r.rso_admin = u → r.status ≠ "active") :
    getRSOLevelEvents st (.verified a) u = ⟨404, .message "No RSOs found for this admin."⟩ ∧
      getRSOLevelEvents st .absent u = ⟨401, .error "Access denied"⟩ ∧
      getRSOLevelEvents st .rejected u = ⟨403, .error "Invalid token"⟩ ∧
      (getRSOLevelEvents st (.verified a) u).status ≠
        (getRSOLevelEvents st .absent u).status ∧
      (getRSOLevelEvents st (.verified a) u).status ≠
        (getRSOLevelEvents st .rejected u).status := by
  have hnil : (st.RSOs.filter fun r =>
      ((sqlEq (some r.rso_admin) (some u)).and
        (sqlEq (some r.status) (some "active"))).holds) = [] := by
    rw [List.filter_eq_nil_iff]
    intro r hr hc
    simp only [SqlBool.holds_and, holds_sqlEq_some] at hc
    exact hnone r hr hc.1 hc.2
  have h404 : getRSOLevelEvents st (.verified a) u =
      ⟨404, .message "No RSOs found for this admin."⟩ := by
    simp only [getRSOLevelEvents, authenticateToken, hnil, List.length_nil, if_true]
  have h401 : getRSOLevelEvents st .absent u = ⟨401, .error "Access denied"⟩ := rfl
  have h403 : getRSOLevelEvents st .rejected u = ⟨403, .error "Invalid token"⟩ := rfl
  refine ⟨h404, h401, h403, ?_, ?_⟩
  · rw [h404, h401]
    decide
  · rw [h404, h403]
    decide

/-- Witness for C11 (amended) on `demoStore`, for user 100. -/
theorem rsoLevel_without_active_rso_is_404_witness :
    getRSOLevelEvents demoStore demoToken 100 =
      ⟨404, .message "No RSOs found for this admin."⟩ :=
  (rsoLevel_without_active_rso_is_404 demoStore ⟨100, "student"⟩ 100 (by decide)).1

/-- C12: the rows of the student-scope query are free of duplicates, and when event ids
are unique in `Events` no `event_id` occurs twice among them, whatever number of clauses
or joined rows an event qualifies under. -/
theorem studentLevel_rows_distinct (st : Store) (a : Claims) (u : Nat) :
    (getStudentLevelEvents st (.verified a) u).rows.Nodup ∧
      ((st.Events.map fun e => e.event_id).Nodup →
        ((getStudentLevelEvents st (.verified a) u).rows.map fun e => e.event_id).Nodup) := by
  have hnd : (getStudentLevelEvents st (.verified a) u).rows.Nodup := by
    simp only [getStudentLevelEvents, authenticateToken, Response.rows]
    exact List.nodup_dedup _
  refine ⟨hnd, fun hid => ?_⟩
  apply List.Nodup.map_on _ hnd
  intro x hx y hy hxy
  exact List.inj_on_of_nodup_map hid ((mem_studentLevelRows st a u x).mp hx).1
    ((mem_studentLevelRows st a u y).mp hy).1 hxy

/-- Witness for C12 on `demoTwinStore`, where every event of university 1 is joined to
two Student rows of user 100 and the event of RSO 1 qualifies once more through the
membership. -/
theorem studentLevel_rows_distinct_witness :
    ((getStudentLevelEvents demoTwinStore demoToken 100).rows.map
      fun e => e.event_id).Nodup :=
  (studentLevel_rows_distinct demoTwinStore ⟨100, "student"⟩ 100).2 (by decide)

/-- C13 (counterexample): in `demoGuestStore` user 10 has no Student row, yet the
student-scope query for user 10 returns the event of RSO 1, whose visibility is `rso`. -/
theorem studentLevel_guest_member_sees_rso_event :
    (∀ s ∈ demoGuestStore.Students, s.user_id ≠ 10) ∧
      demoRsoEvent ∈ (getStudentLevelEvents demoGuestStore demoToken 10).rows ∧
      demoRsoEvent.visibility = "rso" := by
  decide

/-- C13 (amended): when user `u` has no Student row, every event returned by the
student-scope query is `public` or is an `rso` event of an RSO in which `u` holds an
active membership, so no `private` event is returned; when `u` has no active membership
either, every returned event is `public`. -/
theorem studentLevel_without_student_row (st : Store) (a : Claims) (u : Nat)
    (hnone : ∀ s ∈ st.Students, s.user_id ≠ u) :
    (∀ e ∈ (getStudentLevelEvents st (.verified a) u).rows,
      e.visibility = "public" ∨
        (e.visibility = "rso" ∧ ∃ m ∈ st.RSO_Memberships,
          m.user_id = u ∧ m.status = "active" ∧ e.rso_id = some m.rso_id)) ∧
    ((∀ m ∈ st.RSO_Memberships, m.user_id = u → m.status ≠ "active") →
      ∀ e ∈ (getStudentLevelEvents st (.verified a) u).rows, e.visibility = "public") := by
  have hfirst : ∀ e ∈ (getStudentLevelEvents st (.verified a) u).rows,
      e.visibility = "public" ∨
        (e.visibility = "rso" ∧ ∃ m ∈ st.RSO_Memberships,
          m.user_id = u ∧ m.status = "active" ∧ e.rso_id = some m.rso_id) := by
    intro e he
    rcases ((mem_studentLevelRows st a u e).mp he).2 with
      hpub | ⟨_, _, _, s, hs, _, hsu, _⟩ | hrso
    · exact Or.inl hpub
    · exact absurd hsu (hnone s hs)
    · exact Or.inr hrso
  refine ⟨hfirst, fun hmem e he => ?_⟩
  rcases hfirst e he with hpub | ⟨_, m, hm, hmu, hma, _⟩
  · exact hpub
  · exact absurd hma (hmem m hm hmu)

/-- Witness for C13 (amended) on `demoStore`: user 10 has no Student row and no
membership, and every event returned to user 10 is public. -/
theorem studentLevel_without_student_row_witness :
    ((getStudentLevelEvents demoStore demoToken 10).rows.all
      fun e => decide (e.visibility = "public")) = true :=
  List.all_eq_true.mpr fun e he =>
    decide_eq_true
      ((studentLevel_without_student_row demoStore ⟨100, "student"⟩ 10 (by decide)).2
        (by decide) e he)

/-! ## Creating an RSO -/

theorem nextId_not_mem (ids : List Nat) : nextId ids ∉ ids := by
  have hle : ∀ l : List Nat, ∀ x ∈ l, x ≤ l.foldr max 0 := by
    intro l
    induction l with
    | nil => intro x hx; simp at hx
    | cons y ys ih =>
      intro x hx
      rw [List.foldr_cons]
      rcases List.mem_cons.mp hx with rfl | hx'
      · exact le_max_left _ _
      · exact le_trans (ih x hx') (le_max_right _ _)
  intro hmem
  have := hle ids _ hmem
  unfold nextId at this
  omega

theorem createRSO_of_no_fault (st : Store) (a : Claims) (name : String)
    (university_id rso_admin : Nat) (fail : Faults) (hok : ∀ n, n ≤ 4 → fail n = none) :
    createRSO st (.verified a) name university_id rso_admin fail =
      (⟨201, .insertedMessage "rso_id" (nextId (st.RSOs.map fun r => r.rso_id))
          "RSO created and user promoted to RSO admin."⟩,
       { st with
         RSOs := st.RSOs ++
           [{ rso_id := nextId (st.RSOs.map fun r => r.rso_id), name := name,
              university_id := university_id, rso_admin := rso_admin, status := "pending" }]
         Users := st.Users.map fun u =>
           if u.user_id = rso_admin then { u with role := "rso_admin" } else u }) := by
  simp [createRSO, authenticateToken, hok, beginTransaction, Transaction.commit, insertRSO,
    sqlUpdate]

/-- C15: `createRSO` is all or nothing.  For a request with a verified token, when one of
the calls to the store raises (taking the connection, opening the transaction, the
insert of the RSO, the update of the role, or the commit), the response is 500 and the
store is the store before the request, so that no RSO row stays when the update of the
role fails; when every call executes, the response is 201 and the store holds both the
new RSO row and the role update. -/
theorem createRSO_all_or_nothing (st : Store) (a : Claims) (name : String)
    (university_id rso_admin : Nat) (fail : Faults) :
    ((∃ n, n ≤ 4 ∧ fail n ≠ none) →
      (createRSO st (.verified a) name university_id rso_admin fail).1.status = 500 ∧
        (createRSO st (.verified a) name university_id rso_admin fail).2 = st) ∧
    ((∀ n, n ≤ 4 → fail n = none) →
      createRSO st (.verified a) name university_id rso_admin fail =
        (⟨201, .insertedMessage "rso_id" (nextId (st.RSOs.map fun r => r.rso_id))
            "RSO created and user promoted to RSO admin."⟩,
         { st with
           RSOs := (insertRSO st.RSOs name university_id rso_admin).1
           Users := (sqlUpdate st.Users (fun u => sqlEq (some u.user_id) (some rso_admin))
             (fun u => { u with role := "rso_admin" })).1 })) := by
  constructor
  · rintro ⟨n, hn, hfail⟩
    rcases h0 : fail 0 with _ | e0
    · rcases h1 : fail 1 with _ | e1
      · rcases h2 : fail 2 with _ | e2
        · rcases h3 : fail 3 with _ | e3
          · rcases h4 : fail 4 with _ | e4
            · exfalso
              interval_cases n <;> simp_all
            · simp [createRSO, authenticateToken, h0, h1, h2, h3, h4, beginTransaction,
                Transaction.rollback]
          · simp [createRSO, authenticateToken, h0, h1, h2, h3, beginTransaction,
              Transaction.rollback]
        · simp [createRSO, authenticateToken, h0, h1, h2, beginTransaction,
            Transaction.rollback]
      · simp [createRSO, authenticateToken, h0, h1]
    · simp [createRSO, authenticateToken, h0]
  · intro hok
    simp [createRSO, authenticateToken, hok, beginTransaction, Transaction.commit, insertRSO,
      sqlUpdate]

/-- Witness for C15 on `demoCampus`: the update of the role (call 3) raises after the
insert has run; the response is 500 and the store is unchanged. -/
theorem createRSO_all_or_nothing_witness :
    (createRSO demoCampus demoToken "Chess" 1 100
        (fun n => if n = 3 then some { message := "Lock wait timeout exceeded" }
          else none)).1.status = 500 ∧
      (createRSO demoCampus demoToken "Chess" 1 100
        (fun n => if n = 3 then some { message := "Lock wait timeout exceeded" }
          else none)).2 = demoCampus :=
  (createRSO_all_or_nothing demoCampus ⟨100, "student"⟩ "Chess" 1 100
    (fun n => if n = 3 then some { message := "Lock wait timeout exceeded" } else none)).1
    ⟨3, by decide, by decide⟩

/-- C16 (counterexample): on `demoCampus`, with the verified token of user 100 and a body
whose `rso_admin` is 102, the request succeeds; the new RSO row has `rso_admin = 102`,
the role of user 102 becomes `rso_admin`, and the role of the caller, user 100, stays
`student`. -/
theorem createRSO_admin_is_taken_from_body :
    createRSO demoCampus (.verified ⟨100, "student"⟩) "Chess" 1 102 noFault =
        (⟨201, .insertedMessage "rso_id" 3 "RSO created and user promoted to RSO admin."⟩,
         { demoCampus with
           RSOs := demoCampus.RSOs ++
             [{ rso_id := 3, name := "Chess", university_id := 1, rso_admin := 102,
                status := "pending" }]
           Users :=
             [{ user_id := 10, email := "u1@example.org", role := "university" },
              { user_id := 20, email := "u2@example.org", role := "university" },
              { user_id := 100, email := "s100@example.org", role := "student" },
              { user_id := 101, email := "s101@example.org", role := "rso_admin" },
              { user_id := 102, email := "s102@example.org", role := "rso_admin" }] }) := by
  decide

/-- C16 (amended): on a successful `createRSO` (a verified token of any actor, every call
to the store executing) the response is 201 with the new `rso_id`, which is not the id
of an RSO already there; exactly one RSO row is added, with status `pending`, whose
`rso_admin` is the `rso_admin` of the request body; the user with that `user_id` gets the
role `rso_admin`, and no other row of `Users` and no other table changes. -/
theorem createRSO_success (st : Store) (a : Claims) (name : String)
    (university_id rso_admin : Nat) (fail : Faults) (hok : ∀ n, n ≤ 4 → fail n = none) :
    createRSO st (.verified a) name university_id rso_admin fail =
        (⟨201, .insertedMessage "rso_id" (nextId (st.RSOs.map fun r => r.rso_id))
            "RSO created and user promoted to RSO admin."⟩,
         { st with
           RSOs := st.RSOs ++
             [{ rso_id := nextId (st.RSOs.map fun r => r.rso_id), name := name,
                university_id := university_id, rso_admin := rso_admin,
                status := "pending" }]
           Users := st.Users.map fun u =>
             if u.user_id = rso_admin then { u with role := "rso_admin" } else u }) ∧
      nextId (st.RSOs.map fun r => r.rso_id) ∉ st.RSOs.map fun r => r.rso_id :=
  ⟨createRSO_of_no_fault st a name university_id rso_admin fail hok, nextId_not_mem _⟩

/-- Witness for C16 (amended) on `demoCampus`: user 100 creates an RSO for itself. -/
theorem createRSO_success_witness :
    (createRSO demoCampus demoToken "Chess" 1 100 noFault).1 =
      ⟨201, .insertedMessage "rso_id" 3 "RSO created and user promoted to RSO admin."⟩ :=
  congrArg Prod.fst
    (createRSO_success demoCampus ⟨100, "student"⟩ "Chess" 1 100 noFault (fun _ _ => rfl)).1

/-! ## Deleting a user -/

theorem deleteUser_of_no_user (st : Store) (c : Credential) (user_id : Option Nat)
    (fail : Faults) (h0 : fail 0 = none) (hno : ∀ u ∈ st.Users, some u.user_id ≠ user_id) :
    deleteUser st c user_id fail = (⟨404, .error "User not found"⟩, st) := by
  have hnil : (st.Users.filter fun u => (sqlEq (some u.user_id) user_id).holds) = [] := by
    rw [List.filter_eq_nil_iff]
    intro u hu hc
    rw [holds_sqlEq] at hc
    obtain ⟨x, hx, hx'⟩ := hc
    exact hno u hu (by rw [hx, hx'])
  simp [deleteUser, h0, hnil]

theorem deleteUser_of_user (st : Store) (c : Credential) (user_id : Option Nat)
    (fail : Faults) (h0 : fail 0 = none) (h1 : fail 1 = none)
    (hex : ∃ u ∈ st.Users, some u.user_id = user_id) :
    deleteUser st c user_id fail =
      (⟨200, .message "User and associated data deleted successfully"⟩,
       deleteFromUsers st user_id) := by
  obtain ⟨u, hu, hid⟩ := hex
  have hmem : u ∈ st.Users.filter fun u => (sqlEq (some u.user_id) user_id).holds := by
    rw [List.mem_filter]
    refine ⟨hu, ?_⟩
    rw [← hid]
    simp
  have hlen := Nat.pos_iff_ne_zero.mp (List.length_pos_of_mem hmem)
  simp [deleteUser, h0, h1, hlen]

/-- After the delete with its cascade no row of `Users`, `Students`, `RSOs` or
`RSO_Memberships` refers to the deleted user, and no membership refers to an RSO that
was removed with it. -/
theorem deleteFromUsers_no_reference (st : Store) (n : Nat) :
    (∀ u ∈ (deleteFromUsers st (some n)).Users, u.user_id ≠ n) ∧
    (∀ s ∈ (deleteFromUsers st (some n)).Students, s.user_id ≠ n) ∧
    (∀ r ∈ (deleteFromUsers st (some n)).RSOs, r.rso_admin ≠ n) ∧
    (∀ m ∈ (deleteFromUsers st (some n)).RSO_Memberships,
      m.user_id ≠ n ∧ ∀ r ∈ st.RSOs, r.rso_admin = n → m.rso_id ≠ r.rso_id) := by
  refine ⟨?_, ?_, ?_, ?_⟩
  · intro u hu
    simp only [deleteFromUsers, List.mem_filter, Bool.not_eq_true', ← Bool.not_eq_true,
      holds_sqlEq_some] at hu
    exact hu.2
  · intro s hs
    simp only [deleteFromUsers, List.mem_filter, Bool.not_eq_true', ← Bool.not_eq_true,
      holds_sqlEq_some] at hs
    exact hs.2
  · intro r hr
    simp only [deleteFromUsers, List.mem_filter, Bool.not_eq_true', ← Bool.not_eq_true,
      holds_sqlEq_some] at hr
    exact hr.2
  · intro m hm
    simp only [deleteFromUsers, List.mem_filter, Bool.and_eq_true, Bool.not_eq_true',
      ← Bool.not_eq_true, holds_sqlEq_some] at hm
    refine ⟨hm.2.1, fun r hr hadm heq => hm.2.2 ?_⟩
    rw [List.contains_iff_exists_mem_beq]
    refine ⟨r.rso_id, List.mem_map.mpr ⟨r, List.mem_filter.mpr ⟨hr, ?_⟩, rfl⟩, ?_⟩
    · simp [hadm]
    · simp [heq]

/-- C17 (the code differs): on `demoCampus` the dashboard denies the pending RSO 2, whose
owner is user 101.  The request it sends names no user, the server answers 404, and the
store is unchanged: user 101 and RSO 2 are still there. -/
theorem denyRSO_removes_nothing :
    demoPendingRSO ∈ demoCampus.RSOs ∧
      denyRSO demoCampus demoPendingRSO noFault =
        (⟨404, .error "User not found"⟩, demoCampus) ∧
      (∃ u ∈ (denyRSO demoCampus demoPendingRSO noFault).2.Users, u.user_id = 101) ∧
      demoPendingRSO ∈ (denyRSO demoCampus demoPendingRSO noFault).2.RSOs := by
  decide

/-- C18: when the `user_id` of the path matches no User row, `deleteUser` answers 404
"User not found" and the store is unchanged; when it matches a User row (and the store
executes the statements), it answers 200 and no row with that `user_id` is in `Users`
afterwards. -/
theorem deleteUser_404_or_removed (st : Store) (c : Credential) (user_id : Option Nat)
    (fail : Faults) (h0 : fail 0 = none) :
    ((∀ u ∈ st.Users, some u.user_id ≠ user_id) →
      deleteUser st c user_id fail = (⟨404, .error "User not found"⟩, st)) ∧
    ((∃ u ∈ st.Users, some u.user_id = user_id) → fail 1 = none →
      (deleteUser st c user_id fail).1 =
          ⟨200, .message "User and associated data deleted successfully"⟩ ∧
        ∀ u ∈ (deleteUser st c user_id fail).2.Users, some u.user_id ≠ user_id) := by
  refine ⟨deleteUser_of_no_user st c user_id fail h0, fun hex h1 => ?_⟩
  rw [deleteUser_of_user st c user_id fail h0 h1 hex]
  refine ⟨rfl, ?_⟩
  obtain ⟨u0, _, hid⟩ := hex
  intro u hu heq
  rw [← hid] at hu heq
  exact (deleteFromUsers_no_reference st u0.user_id).1 u hu (Option.some.inj heq)

/-- Witness for C18 on `demoCampus`: deleting the absent user 7 answers 404 and changes
nothing; deleting user 102 answers 200 and user 102 is gone. -/
theorem deleteUser_404_or_removed_witness :
    deleteUser demoCampus .absent (some 7) noFault =
        (⟨404, .error "User not found"⟩, demoCampus) ∧
      (deleteUser demoCampus .absent (some 102) noFault).1 =
        ⟨200, .message "User and associated data deleted successfully"⟩ ∧
      ((deleteUser demoCampus .absent (some 102) noFault).2.Users.map
        fun u => u.user_id) = [10, 20, 100, 101] :=
  ⟨(deleteUser_404_or_removed demoCampus .absent (some 7) noFault rfl).1 (by decide),
   ((deleteUser_404_or_removed demoCampus .absent (some 102) noFault rfl).2
     ⟨{ user_id := 102, email := "s102@example.org", role := "student" }, by decide, rfl⟩
     rfl).1,
   by decide⟩

/-! ## Updating an event -/

/-- C19 (the code differs): on `demoCampus` user 101 creates an event through
`createEvent` (201, event 7) and then sends the update of that event with the same
token; the answer is 403 and the store is unchanged, for the row written by
`createEvent` has no `created_by`. -/
theorem updateEvent_rejects_its_creator :
    (createEvent demoCampus demoAdminToken demoEventBody noFault).1 =
        ⟨201, .inserted "event_id" 7⟩ ∧
      updateEvent (createEvent demoCampus demoAdminToken demoEventBody noFault).2
          demoAdminToken 7 (fun e => { e with name := "Chess evening" }) noFault =
        (⟨403, .error "Unauthorized to update this event"⟩,
         (createEvent demoCampus demoAdminToken demoEventBody noFault).2) := by
  decide

/-! ## Comments -/

theorem filter_key_eq_singleton {α : Type} (key : α → Nat) (k : α) :
    ∀ l : List α, (l.map key).Nodup → k ∈ l →
      (l.filter fun x => (sqlEq (some (key x)) (some (key k))).holds) = [k] := by
  intro l
  induction l with
  | nil => intro _ hk; simp at hk
  | cons x xs ih =>
    intro hnd hk
    rw [List.map_cons, List.nodup_cons] at hnd
    rcases List.mem_cons.mp hk with rfl | hk'
    · have hnil : (xs.filter fun x => (sqlEq (some (key x)) (some (key k))).holds) = [] := by
        rw [List.filter_eq_nil_iff]
        intro y hy hc
        rw [holds_sqlEq_some] at hc
        exact hnd.1 (List.mem_map.mpr ⟨y, hy, hc⟩)
      rw [List.filter_cons_of_pos (by simp), hnil]
    · have hne : ¬ (sqlEq (some (key x)) (some (key k))).holds = true := by
        rw [holds_sqlEq_some]
        intro h
        exact hnd.1 (List.mem_map.mpr ⟨k, hk', h.symm⟩)
      rw [List.filter_cons, if_neg hne]
      exact ih hnd.2 hk'

theorem filter_key_eq_nil {α : Type} (key : α → Nat) (id : Nat) (l : List α)
    (h : ∀ x ∈ l, key x ≠ id) :
    (l.filter fun x => (sqlEq (some (key x)) (some id)).holds) = [] := by
  rw [List.filter_eq_nil_iff]
  intro x hx hc
  rw [holds_sqlEq_some] at hc
  exact h x hx hc

/-- The guard of `updateComment` (with a non-empty text) and of `deleteComment`, for a
verified token and the `SELECT` executing, in terms of the `user_id` that the body of the
request carries: when no row has the `comment_id`, the answer is 404; when the row with
that id (ids being unique) has a `user_id` other than the one of the body, the answer is
403; in both cases the store is unchanged.  When the `user_id` of the row is the one of
the body (and the second statement executes) the answer is 200 and the table is the old
one with exactly that row given the new text, respectively with exactly that row
removed.  The claims `a` of the token play no part. -/
theorem comment_routes_guard_by_body_user (st : Store) (a : Claims) (comment_id : Nat)
    (comment : String) (user_id : Option Nat) (fail : Faults) (h0 : fail 0 = none)
    (hc : comment ≠ "") :
    ((∀ k ∈ st.EventComments, k.comment_id ≠ comment_id) →
      updateComment st (.verified a) comment_id comment user_id fail =
          (⟨404, .error "Comment not found."⟩, st) ∧
        deleteComment st (.verified a) comment_id user_id fail =
          (⟨404, .error "Comment not found."⟩, st)) ∧
    (∀ k ∈ st.EventComments, k.comment_id = comment_id →
      (st.EventComments.map fun x => x.comment_id).Nodup →
      (some k.user_id ≠ user_id →
        updateComment st (.verified a) comment_id comment user_id fail =
            (⟨403, .error "You can only edit your own comments."⟩, st) ∧
          deleteComment st (.verified a) comment_id user_id fail =
            (⟨403, .error "You can only delete your own comments."⟩, st)) ∧
      (some k.user_id = user_id → fail 1 = none →
        updateComment st (.verified a) comment_id comment user_id fail =
            (⟨200, .message "Comment updated successfully."⟩,
             { st with EventComments := st.EventComments.map fun x =>
                if x = k then { k with comment := comment } else x }) ∧
          deleteComment st (.verified a) comment_id user_id fail =
            (⟨200, .message "Comment deleted successfully."⟩,
             { st with EventComments := st.EventComments.filter fun x => x ≠ k }))) := by
  constructor
  · intro hno
    have hnil := filter_key_eq_nil (fun x : EventComment => x.comment_id) comment_id
      st.EventComments hno
    constructor
    · simp only [updateComment, authenticateToken, hc, if_false, h0, hnil]
    · simp only [deleteComment, authenticateToken, h0, hnil]
  · intro k hk hid hnd
    have hone := filter_key_eq_singleton (fun x : EventComment => x.comment_id) k
      st.EventComments hnd hk
    simp only [hid] at hone
    refine ⟨fun hne => ?_, fun heq h1 => ?_⟩
    · constructor
      · simp only [updateComment, authenticateToken, hc, if_false, h0, hone, hne, ne_eq,
          not_false_eq_true, if_true]
      · simp only [deleteComment, authenticateToken, h0, hone, hne, ne_eq,
          not_false_eq_true, if_true]
    · have hrow : ∀ x ∈ st.EventComments, (x.comment_id = comment_id ↔ x = k) := by
        intro x hx
        constructor
        · intro hx'
          exact List.inj_on_of_nodup_map hnd hx hk (hx'.trans hid.symm)
        · rintro rfl
          exact hid
      constructor
      · simp only [updateComment, authenticateToken, hc, if_false, h0, hone, heq, ne_eq,
          not_true_eq_false, h1, sqlUpdate]
        congr 2
        apply List.map_congr_left
        intro x hx
        by_cases hxk : x = k
        · subst hxk
          simp [hid]
        · have hf : (sqlEq (some x.comment_id) (some comment_id)).holds = false := by
            rw [Bool.eq_false_iff, ne_eq, holds_sqlEq_some]
            exact fun h => hxk ((hrow x hx).mp h)
          simp [hxk, hf]
      · simp only [deleteComment, authenticateToken, h0, hone, heq, ne_eq,
          not_true_eq_false, if_false, h1]
        congr 2
        apply List.filter_congr
        intro x hx
        by_cases hxk : x = k
        · subst hxk
          simp [hid]
        · have hf : (sqlEq (some x.comment_id) (some comment_id)).holds = false := by
            rw [Bool.eq_false_iff, ne_eq, holds_sqlEq_some]
            exact fun h => hxk ((hrow x hx).mp h)
          simp [hxk, hf]

/-- C20 (the code differs): the owner check of `updateComment` and `deleteComment` reads
the `user_id` of the body and never the user of the token.  For a comment `k` of the
table (ids being unique), a verified token of `a`, a non-empty text and the calls to the
store executing: when `a` owns `k` and the body carries no `user_id`, or one that is not
`a`'s, the answer is 403 and the store is unchanged; when `a` does not own `k` and the
body carries the `user_id` of `k`, the answer is 200, and `k` is given the new text,
respectively is removed. -/
theorem comment_guard_reads_body_user (st : Store) (a : Claims) (k : EventComment)
    (comment : String) (fail : Faults) (hk : k ∈ st.EventComments)
    (hnd : (st.EventComments.map fun x => x.comment_id).Nodup) (hc : comment ≠ "")
    (h0 : fail 0 = none) (h1 : fail 1 = none) :
    (k.user_id = a.user_id → ∀ user_id : Option Nat, user_id ≠ some a.user_id →
      updateComment st (.verified a) k.comment_id comment user_id fail =
          (⟨403, .error "You can only edit your own comments."⟩, st) ∧
        deleteComment st (.verified a) k.comment_id user_id fail =
          (⟨403, .error "You can only delete your own comments."⟩, st)) ∧
    (k.user_id ≠ a.user_id →
      updateComment st (.verified a) k.comment_id comment (some k.user_id) fail =
          (⟨200, .message "Comment updated successfully."⟩,
           { st with EventComments := st.EventComments.map fun x =>
              if x = k then { k with comment := comment } else x }) ∧
        deleteComment st (.verified a) k.comment_id (some k.user_id) fail =
          (⟨200, .message "Comment deleted successfully."⟩,
           { st with EventComments := st.EventComments.filter fun x => x ≠ k })) := by
  constructor
  · intro hown user_id hne
    apply ((comment_routes_guard_by_body_user st a k.comment_id comment user_id fail h0
      hc).2 k hk rfl hnd).1
    rw [hown]
    exact fun h => hne h.symm
  · intro _
    exact ((comment_routes_guard_by_body_user st a k.comment_id comment (some k.user_id)
      fail h0 hc).2 k hk rfl hnd).2 rfl h1

/-- Witness for C20 on `demoCampus`, where comment 1 belongs to user 100: with the token
of user 100 and a body without `user_id`, the owner may neither edit nor delete the
comment (403, nothing changes); with the token of user 101 and the `user_id` 100 in the
body, the comment is deleted and only comment 2 is left. -/
theorem comment_guard_reads_body_user_witness :
    updateComment demoCampus (.verified ⟨100, "student"⟩) 1 "edited" none noFault =
        (⟨403, .error "You can only edit your own comments."⟩, demoCampus) ∧
      deleteComment demoCampus (.verified ⟨100, "student"⟩) 1 none noFault =
        (⟨403, .error "You can only delete your own comments."⟩, demoCampus) ∧
      deleteComment demoCampus (.verified ⟨101, "rso_admin"⟩) 1 (some 100) noFault =
        (⟨200, .message "Comment deleted successfully."⟩,
         { demoCampus with EventComments :=
            [{ comment_id := 2, event_id := 1, user_id := 101, comment := "second" }] }) :=
  ⟨((comment_guard_reads_body_user demoCampus ⟨100, "student"⟩
      { comment_id := 1, event_id := 1, user_id := 100, comment := "first" } "edited"
      noFault (by decide) (by decide) (by decide) rfl rfl).1 rfl none (by decide)).1,
   ((comment_guard_reads_body_user demoCampus ⟨100, "student"⟩
      { comment_id := 1, event_id := 1, user_id := 100, comment := "first" } "edited"
      noFault (by decide) (by decide) (by decide) rfl rfl).1 rfl none (by decide)).2,
   ((comment_guard_reads_body_user demoCampus ⟨101, "rso_admin"⟩
      { comment_id := 1, event_id := 1, user_id := 100, comment := "first" } "edited"
      noFault (by decide) (by decide) (by decide) rfl rfl).2 (by decide)).2⟩

/-! ## Monotone status -/

theorem KeepsActive.rfl' {α : Type} (key : α → Nat) (status : α → String) (pre : List α) :
    KeepsActive key status pre pre :=
  fun _ hy => Or.inl hy

theorem KeepsActive.of_eq {α : Type} (key : α → Nat) (status : α → String)
    (pre post : List α) (h : post = pre) : KeepsActive key status pre post := by
  rw [h]
  exact fun _ hy => Or.inl hy

theorem KeepsActive.filter {α : Type} (key : α → Nat) (status : α → String) (pre : List α)
    (p : α → Bool) : KeepsActive key status pre (pre.filter p) :=
  fun _ hy => Or.inl (List.mem_filter.mp hy).1

theorem KeepsActive.append_fresh {α : Type} (key : α → Nat) (status : α → String)
    (pre : List α) (z : α) (hz : key z ∉ pre.map key) :
    KeepsActive key status pre (pre ++ [z]) := by
  intro y hy
  rcases List.mem_append.mp hy with h | h
  · exact Or.inl h
  · rw [List.mem_singleton] at h
    rw [h]
    exact Or.inr (Or.inr hz)

theorem KeepsActive.map_activate {α : Type} (key : α → Nat) (status : α → String)
    (pre : List α) (c : α → Bool) (f : α → α) (hf : ∀ x, status (f x) = "active") :
    KeepsActive key status pre (pre.map fun x => if c x then f x else x) := by
  intro y hy
  obtain ⟨x, hx, rfl⟩ := List.mem_map.mp hy
  by_cases hcx : c x = true
  · rw [if_pos hcx]
    exact Or.inr (Or.inl (hf x))
  · rw [if_neg hcx]
    exact Or.inl hx

theorem KeepsActive.monotone {α : Type} (key : α → Nat) (status : α → String)
    (pre post : List α) (hnd : (pre.map key).Nodup) (h : KeepsActive key status pre post) :
    ∀ x ∈ pre, status x = "active" → ∀ y ∈ post, key y = key x → status y = "active" := by
  intro x hx hact y hy hkey
  rcases h y hy with hmem | hact' | hfresh
  · rw [List.inj_on_of_nodup_map hnd hmem hx hkey]
    exact hact
  · exact hact'
  · exact absurd (List.mem_map.mpr ⟨x, hx, hkey.symm⟩) hfresh

theorem StatusKept.of_tables (st st' : Store) (hS : st'.Students = st.Students)
    (hR : st'.RSOs = st.RSOs) (hM : st'.RSO_Memberships = st.RSO_Memberships) :
    StatusKept st st' :=
  ⟨KeepsActive.of_eq _ _ _ _ hS, KeepsActive.of_eq _ _ _ _ hR, KeepsActive.of_eq _ _ _ _ hM⟩

theorem StatusKept.refl (st : Store) : StatusKept st st :=
  StatusKept.of_tables st st rfl rfl rfl

theorem register_statusKept (lib : Library) (st : Store) (c : Credential)
    (email password role : String) (fail : Faults) :
    StatusKept st (register lib st c email password role fail).2 := by
  unfold register
  dsimp only
  repeat' split
  all_goals exact StatusKept.refl st

theorem updateUser_statusKept (lib : Library) (st : Store) (c : Credential) (user_id : Nat)
    (email password : String) (fail : Faults) :
    StatusKept st (updateUser lib st c user_id email password fail).2 := by
  unfold updateUser
  dsimp only
  repeat' split
  all_goals exact StatusKept.refl st

theorem createUniversity_statusKept (st : Store) (c : Credential)
    (name location description : String) (num_students : Nat) (website : String)
    (user_id : Nat) (fail : Faults) :
    StatusKept st
      (createUniversity st c name location description num_students website user_id fail).2 := by
  unfold createUniversity
  dsimp only
  repeat' split
  all_goals exact StatusKept.refl st

theorem createEvent_statusKept (st : Store) (c : Credential) (body : EventBody)
    (fail : Faults) : StatusKept st (createEvent st c body fail).2 := by
  unfold createEvent
  dsimp only
  repeat' split
  all_goals exact StatusKept.refl st

theorem updateEvent_statusKept (st : Store) (c : Credential) (event_id : Nat)
    (updates : Event → Event) (fail : Faults) :
    StatusKept st (updateEvent st c event_id updates fail).2 := by
  unfold updateEvent
  dsimp only
  repeat' split
  all_goals exact StatusKept.refl st

theorem addComment_statusKept (st : Store) (c : Credential) (event_id : Option Nat)
    (comment : String) (user_id : Nat) (fail : Faults) :
    StatusKept st (addComment st c event_id comment user_id fail).2 := by
  unfold addComment
  dsimp only
  repeat' split
  all_goals exact StatusKept.refl st

theorem updateComment_statusKept (st : Store) (c : Credential) (comment_id : Nat)
    (comment : String) (user_id : Option Nat) (fail : Faults) :
    StatusKept st (updateComment st c comment_id comment user_id fail).2 := by
  unfold updateComment
  repeat' split
  all_goals exact StatusKept.refl st

theorem deleteComment_statusKept (st : Store) (c : Credential) (comment_id : Nat)
    (user_id : Option Nat) (fail : Faults) :
    StatusKept st (deleteComment st c comment_id user_id fail).2 := by
  unfold deleteComment
  repeat' split
  all_goals exact StatusKept.refl st

theorem addOrUpdateRating_statusKept (st : Store) (c : Credential)
    (event_id user_id : Option Nat) (rating : Option Int) (fail : Faults) :
    StatusKept st (addOrUpdateRating st c event_id user_id rating fail).2 := by
  unfold addOrUpdateRating
  repeat' split
  all_goals exact StatusKept.refl st

theorem addBuildings_statusKept (st : Store) (c : Credential)
    (buildings : Option (List BuildingBody)) (university_id : Option Nat) (fail : Faults) :
    StatusKept st (addBuildings st c buildings university_id fail).2 := by
  unfold addBuildings
  dsimp only
  repeat' split
  all_goals exact StatusKept.refl st

theorem approveRSO_statusKept (st : Store) (c : Credential) (rso_id : Nat) :
    StatusKept st (approveRSO st c rso_id).2 := by
  rw [approveRSO_store]
  exact ⟨KeepsActive.rfl' _ _ _,
    KeepsActive.map_activate _ _ _ _ _ (fun _ => rfl), KeepsActive.rfl' _ _ _⟩

theorem approveStudent_statusKept (st : Store) (c : Credential) (student_id : Nat) :
    StatusKept st (approveStudent st c student_id).2 := by
  rw [approveStudent_store]
  exact ⟨KeepsActive.map_activate _ _ _ _ _ (fun _ => rfl), KeepsActive.rfl' _ _ _,
    KeepsActive.rfl' _ _ _⟩

theorem deleteUser_statusKept (st : Store) (c : Credential) (user_id : Option Nat)
    (fail : Faults) : StatusKept st (deleteUser st c user_id fail).2 := by
  unfold deleteUser
  dsimp only
  repeat' split
  all_goals first
    | exact StatusKept.refl st
    | exact ⟨KeepsActive.filter _ _ _ _, KeepsActive.filter _ _ _ _,
        KeepsActive.filter _ _ _ _⟩

theorem createStudent_statusKept (st : Store) (c : Credential) (first_name last_name : String)
    (university_id user_id : Option Nat) (fail : Faults) :
    StatusKept st (createStudent st c first_name last_name university_id user_id fail).2 := by
  unfold createStudent
  dsimp only
  repeat' split
  all_goals first
    | exact StatusKept.refl st
    | exact ⟨KeepsActive.append_fresh _ _ _ _ (nextId_not_mem _), KeepsActive.rfl' _ _ _,
        KeepsActive.rfl' _ _ _⟩

theorem createRSO_statusKept (st : Store) (c : Credential) (name : String)
    (university_id rso_admin : Nat) (fail : Faults) :
    StatusKept st (createRSO st c name university_id rso_admin fail).2 := by
  unfold createRSO
  dsimp only
  repeat' split
  all_goals first
    | exact StatusKept.refl st
    | exact ⟨KeepsActive.rfl' _ _ _, KeepsActive.append_fresh _ _ _ _ (nextId_not_mem _),
        KeepsActive.rfl' _ _ _⟩

theorem insertMembership_keepsActive (t : List RSOMembership) (user_id rso_id : Nat) :
    KeepsActive (fun m : RSOMembership => m.membership_id) (fun m => m.status) t
      (insertMembership t user_id rso_id).1 := by
  unfold insertMembership
  split
  · exact KeepsActive.append_fresh _ _ _ _ (nextId_not_mem _)
  · exact KeepsActive.map_activate _ _ _ _ _ (fun _ => rfl)

theorem joinRSO_statusKept (st : Store) (c : Credential) (user_id rso_id : Option Nat) :
    StatusKept st (joinRSO st c user_id rso_id).2 := by
  unfold joinRSO
  dsimp only
  repeat' split
  all_goals first
    | exact StatusKept.refl st
    | exact ⟨KeepsActive.rfl' _ _ _, KeepsActive.rfl' _ _ _,
        insertMembership_keepsActive _ _ _⟩

theorem approveRSORoute_statusKept (st : Store) (c : Credential) (rso_id : Nat)
    (fail : Faults) : StatusKept st (approveRSORoute st c rso_id fail).2 := by
  unfold approveRSORoute
  split
  · exact StatusKept.refl st
  · exact approveRSO_statusKept st c rso_id

theorem approveStudentRoute_statusKept (st : Store) (c : Credential) (student_id : Nat)
    (fail : Faults) : StatusKept st (approveStudentRoute st c student_id fail).2 := by
  unfold approveStudentRoute
  split
  · exact StatusKept.refl st
  · exact approveStudent_statusKept st c student_id

theorem joinRSORoute_statusKept (st : Store) (c : Credential) (user_id rso_id : Option Nat)
    (fail : Faults) : StatusKept st (joinRSORoute st c user_id rso_id fail).2 := by
  unfold joinRSORoute
  repeat' split
  all_goals first
    | exact StatusKept.refl st
    | exact joinRSO_statusKept st c user_id rso_id

theorem serve_statusKept (lib : Library) (st : Store) (c : Credential) (fail : Faults)
    (req : Request) : StatusKept st (serve lib st c fail req).2 := by
  cases req with
  | register email password role => exact register_statusKept lib st c email password role fail
  | updateUser user_id email password =>
    exact updateUser_statusKept lib st c user_id email password fail
  | deleteUser user_id => exact deleteUser_statusKept st c user_id fail
  | createUniversity name location description num_students website user_id =>
    exact createUniversity_statusKept st c name location description num_students website
      user_id fail
  | approveRSO rso_id => exact approveRSORoute_statusKept st c rso_id fail
  | approveStudent student_id => exact approveStudentRoute_statusKept st c student_id fail
  | createStudent first_name last_name university_id user_id =>
    exact createStudent_statusKept st c first_name last_name university_id user_id fail
  | joinRSO user_id rso_id => exact joinRSORoute_statusKept st c user_id rso_id fail
  | createRSO name university_id rso_admin =>
    exact createRSO_statusKept st c name university_id rso_admin fail
  | createEvent body => exact createEvent_statusKept st c body fail
  | updateEvent event_id updates => exact updateEvent_statusKept st c event_id updates fail
  | addComment event_id comment user_id =>
    exact addComment_statusKept st c event_id comment user_id fail
  | updateComment comment_id comment user_id =>
    exact updateComment_statusKept st c comment_id comment user_id fail
  | deleteComment comment_id user_id => exact deleteComment_statusKept st c comment_id user_id fail
  | addOrUpdateRating event_id user_id rating =>
    exact addOrUpdateRating_statusKept st c event_id user_id rating fail
  | addBuildings buildings university_id =>
    exact addBuildings_statusKept st c buildings university_id fail
  | _ => exact StatusKept.refl st

/-- C14: no operation of the server moves a status from `active` back.  For every request
of every route, served on a store whose Student, RSO and membership ids are unique, and every Student,
RSO or membership row that is `active` before the request, every row with the same id
after the request is `active`: the row is still active, or it is gone. -/
theorem status_never_leaves_active (lib : Library) (st : Store) (c : Credential)
    (fail : Faults) (req : Request)
    (hS : (st.Students.map fun s => s.student_id).Nodup)
    (hR : (st.RSOs.map fun r => r.rso_id).Nodup)
    (hM : (st.RSO_Memberships.map fun m => m.membership_id).Nodup) :
    (∀ s ∈ st.Students, s.status = "active" →
      ∀ s' ∈ (serve lib st c fail req).2.Students,
        s'.student_id = s.student_id → s'.status = "active") ∧
    (∀ r ∈ st.RSOs, r.status = "active" →
      ∀ r' ∈ (serve lib st c fail req).2.RSOs, r'.rso_id = r.rso_id → r'.status = "active") ∧
    (∀ m ∈ st.RSO_Memberships, m.status = "active" →
      ∀ m' ∈ (serve lib st c fail req).2.RSO_Memberships,
        m'.membership_id = m.membership_id → m'.status = "active") := by
  obtain ⟨kS, kR, kM⟩ := serve_statusKept lib st c fail req
  exact ⟨KeepsActive.monotone _ _ _ _ hS kS, KeepsActive.monotone _ _ _ _ hR kR,
    KeepsActive.monotone _ _ _ _ hM kM⟩

/-- Witness for C14 on `demoCampus`: user 101, an active member of RSO 1, sends `joinRSO`
for RSO 1 again, and deleting user 101 removes the active RSO 1; in both stores every
row with the id of a row that was active is active. -/
theorem status_never_leaves_active_witness :
    ((serve demoLibrary demoCampus .absent noFault
        (.joinRSO (some 101) (some 1))).2.RSO_Memberships.all
      fun m' => decide (m'.membership_id = 2 → m'.status = "active")) = true ∧
    ((serve demoLibrary demoCampus .absent noFault (.deleteUser (some 101))).2.RSOs.all
      fun r' => decide (r'.rso_id = 1 → r'.status = "active")) = true :=
  ⟨List.all_eq_true.mpr fun m' hm' =>
      decide_eq_true
        ((status_never_leaves_active demoLibrary demoCampus .absent noFault
          (.joinRSO (some 101) (some 1)) (by decide) (by decide) (by decide)).2.2
          { membership_id := 2, user_id := 101, rso_id := 1, status := "active" }
          (by decide) rfl m' hm'),
   List.all_eq_true.mpr fun r' hr' =>
      decide_eq_true
        ((status_never_leaves_active demoLibrary demoCampus .absent noFault
          (.deleteUser (some 101)) (by decide) (by decide) (by decide)).2.1
          { rso_id := 1, university_id := 1, rso_admin := 101, status := "active" }
          (by decide) rfl r' hr')⟩

/-! ## Comment ownership and the token -/

/-- C21 (the code differs): on `demoCampus` comment 1 belongs to user 100.  With the
verified token of user 101 and a body whose `user_id` is 100, `updateComment` answers 200
and rewrites the comment, and `deleteComment` answers 200 and removes it. -/
theorem comment_changed_by_another_actor :
    updateComment demoCampus demoAdminToken 1 "rewritten" (some 100) noFault =
        (⟨200, .message "Comment updated successfully."⟩,
         { demoCampus with EventComments :=
            [{ comment_id := 1, event_id := 1, user_id := 100, comment := "rewritten" },
             { comment_id := 2, event_id := 1, user_id := 101, comment := "second" }] }) ∧
      deleteComment demoCampus demoAdminToken 1 (some 100) noFault =
        (⟨200, .message "Comment deleted successfully."⟩,
         { demoCampus with EventComments :=
            [{ comment_id := 2, event_id := 1, user_id := 101, comment := "second" }] }) := by
  decide

/-! ## Joining an RSO, continued -/

theorem insertMembership_of_new (t : List RSOMembership) (u r : Nat)
    (hno : ∀ m ∈ t, ¬(m.user_id = u ∧ m.rso_id = r)) :
    insertMembership t u r =
      (t ++ [{ membership_id := nextId (t.map fun m => m.membership_id), user_id := u,
               rso_id := r, status := "pending" }],
       nextId (t.map fun m => m.membership_id)) := by
  have hnil : (t.filter fun m => m.user_id == u && m.rso_id == r) = [] := by
    rw [List.filter_eq_nil_iff]
    intro m hm hc
    simp only [Bool.and_eq_true, beq_iff_eq] at hc
    exact hno m hm hc
  unfold insertMembership
  rw [hnil]
  rfl

theorem insertMembership_of_old (t : List RSOMembership) (u r : Nat) (m : RSOMembership)
    (hm : m ∈ t) (hmu : m.user_id = u) (hmr : m.rso_id = r) :
    (insertMembership t u r).1 =
      t.map fun x =>
        if x.user_id == u && x.rso_id == r then { x with status := "active" } else x := by
  have hmem : m ∈ t.filter fun m => m.user_id == u && m.rso_id == r := by
    rw [List.mem_filter]
    exact ⟨hm, by simp [hmu, hmr]⟩
  unfold insertMembership
  split
  · rename_i hnil
    rw [hnil] at hmem
    simp at hmem
  · rfl

theorem joinRSO_of_ids (st : Store) (c : Credential) (u r : Nat) (hu : u ≠ 0) (hr : r ≠ 0) :
    joinRSO st c (some u) (some r) =
      (⟨201, .membership "Request to join RSO submitted"
          (insertMembership st.RSO_Memberships u r).2⟩,
       { st with RSO_Memberships := (insertMembership st.RSO_Memberships u r).1 }) := by
  simp [joinRSO, falsy, hu, hr]

/-- C23: when no membership row exists for the pair and both ids are in the request
(and are not 0), `joinRSO` answers 201 with the id of the new membership, which is the id
of no row already there, and the table is the old one with exactly one row added, for
that pair, with status `pending`; a request in which `user_id` or `rso_id` is missing (or
is 0) is answered 400 and changes nothing. -/
theorem joinRSO_new_pair_is_pending (st : Store) (c : Credential) :
    (∀ u r : Nat, u ≠ 0 → r ≠ 0 →
      (∀ m ∈ st.RSO_Memberships, ¬(m.user_id = u ∧ m.rso_id = r)) →
      joinRSO st c (some u) (some r) =
          (⟨201, .membership "Request to join RSO submitted"
              (nextId (st.RSO_Memberships.map fun m => m.membership_id))⟩,
           { st with RSO_Memberships := st.RSO_Memberships ++
              [{ membership_id := nextId (st.RSO_Memberships.map fun m => m.membership_id),
                 user_id := u, rso_id := r, status := "pending" }] }) ∧
        nextId (st.RSO_Memberships.map fun m => m.membership_id) ∉
          st.RSO_Memberships.map fun m => m.membership_id) ∧
    (∀ user_id rso_id : Option Nat, falsy user_id = true ∨ falsy rso_id = true →
      joinRSO st c user_id rso_id =
        (⟨400, .error "User ID and RSO ID are required"⟩, st)) := by
  constructor
  · intro u r hu hr hno
    refine ⟨?_, nextId_not_mem _⟩
    rw [joinRSO_of_ids st c u r hu hr, insertMembership_of_new _ u r hno]
  · intro user_id rso_id h
    rcases h with h | h <;> simp [joinRSO, h]

/-- Witness for C23 on `demoStore`: user 102 asks to join RSO 1 for the first time, and
a request without `rso_id` is answered 400. -/
theorem joinRSO_new_pair_is_pending_witness :
    joinRSO demoStore .absent (some 102) (some 1) =
        (⟨201, .membership "Request to join RSO submitted" 3⟩,
         { demoStore with RSO_Memberships := demoStore.RSO_Memberships ++
            [{ membership_id := 3, user_id := 102, rso_id := 1, status := "pending" }] }) ∧
      joinRSO demoStore .absent (some 102) none =
        (⟨400, .error "User ID and RSO ID are required"⟩, demoStore) :=
  ⟨((joinRSO_new_pair_is_pending demoStore .absent).1 102 1 (by decide) (by decide)
      (by decide)).1,
   (joinRSO_new_pair_is_pending demoStore .absent).2 (some 102) none (Or.inr rfl)⟩

/-- C28: when the pair `(u, R)` has a membership row with status `pending`, `joinRSO` for
that pair answers 201 and the row is in the table with status `active` afterwards; with
no approve request in between, the student-scope query for `u` on the resulting store
returns every event of the store with visibility `rso` and `rso_id = R`. -/
theorem joinRSO_twice_unlocks_rso_events (st : Store) (c : Credential) (a : Claims)
    (u R : Nat) (m : RSOMembership) (hu : u ≠ 0) (hR : R ≠ 0)
    (hm : m ∈ st.RSO_Memberships) (hmu : m.user_id = u) (hmr : m.rso_id = R)
    (_hp : m.status = "pending") :
    (joinRSO st c (some u) (some R)).1.status = 201 ∧
      { m with status := "active" } ∈ (joinRSO st c (some u) (some R)).2.RSO_Memberships ∧
      ∀ e ∈ st.Events, e.visibility = "rso" → e.rso_id = some R →
        e ∈ (getStudentLevelEvents (joinRSO st c (some u) (some R)).2 (.verified a) u).rows := by
  have hrow : ({ m with status := "active" } : RSOMembership) ∈
      (joinRSO st c (some u) (some R)).2.RSO_Memberships := by
    rw [joinRSO_of_ids st c u R hu hR]
    simp only []
    rw [insertMembership_of_old _ u R m hm hmu hmr, List.mem_map]
    exact ⟨m, hm, by simp [hmu, hmr]⟩
  refine ⟨by rw [joinRSO_of_ids st c u R hu hR], hrow, ?_⟩
  intro e he hv hr
  rw [mem_studentLevelRows]
  refine ⟨?_, Or.inr (Or.inr ⟨hv, _, hrow, hmu, rfl, by rw [hr, hmr]⟩)⟩
  rw [joinRSO_of_ids st c u R hu hR]
  exact he

/-- Witness for C28 on `demoStore`: user 100 has a pending membership in RSO 1, sends
`joinRSO` for RSO 1 again, and then receives the event of RSO 1. -/
theorem joinRSO_twice_unlocks_rso_events_witness :
    demoRsoEvent ∈
      (getStudentLevelEvents (joinRSO demoStore .absent (some 100) (some 1)).2 demoToken
        100).rows :=
  (joinRSO_twice_unlocks_rso_events demoStore .absent ⟨100, "student"⟩ 100 1
    { membership_id := 1, user_id := 100, rso_id := 1, status := "pending" }
    (by decide) (by decide) (by decide) rfl rfl rfl).2.2 demoRsoEvent (by decide) rfl rfl

/-! ## Updating an event that does not exist -/

/-- C30: when no Event row has the `event_id` of the path, the update handler answers
500 to every caller with a verified token, an admin included, and the store is unchanged:
the `UPDATE` is not reached.  When the `SELECT` executes, the body of the 500 is the
message of the `TypeError` raised by the ownership check on the missing row. -/
theorem updateEvent_missing_event_is_500 (st : Store) (a : Claims) (event_id : Nat)
    (updates : Event → Event) (fail : Faults)
    (hno : ∀ e ∈ st.Events, e.event_id ≠ event_id) :
    (updateEvent st (.verified a) event_id updates fail).1.status = 500 ∧
      (updateEvent st (.verified a) event_id updates fail).2 = st ∧
      (fail 0 = none →
        updateEvent st (.verified a) event_id updates fail =
          (⟨500, .error typeErrorMessage⟩, st)) := by
  have hnil := filter_key_eq_nil (fun e : Event => e.event_id) event_id st.Events hno
  rcases h0 : fail 0 with _ | err
  · simp [updateEvent, authenticateToken, h0, hnil]
  · simp [updateEvent, authenticateToken, h0]

/-- Witness for C30 on `demoCampus`: an admin updates event 99, which does not exist. -/
theorem updateEvent_missing_event_is_500_witness :
    updateEvent demoCampus (.verified ⟨1, "admin"⟩) 99 (fun e => e) noFault =
      (⟨500, .error typeErrorMessage⟩, demoCampus) :=
  (updateEvent_missing_event_is_500 demoCampus ⟨1, "admin"⟩ 99 (fun e => e) noFault
    (by decide)).2.2 rfl

/-! ## Creating an event -/

/-- C24 (counterexample): on `demoCampus`, `createEvent` accepts and stores an event with
visibility `private` and no `university_id`, and an event with visibility `rso` and no
`rso_id`. -/
theorem createEvent_stores_private_without_university :
    createEvent demoCampus demoAdminToken
        { demoEventBody with visibility := "private", university_id := none, rso_id := none }
        noFault =
      (⟨201, .inserted "event_id" 7⟩,
       { demoCampus with Events := demoCampus.Events ++
          [{ event_id := 7, name := "Chess night", description := "Open games",
             category := "social", date_time := "2025-04-01 18:00:00",
             visibility := "private", university_id := none, rso_id := none,
             rso_admin := some 101 }] }) ∧
    createEvent demoCampus demoAdminToken
        { demoEventBody with visibility := "rso", university_id := none, rso_id := none }
        noFault =
      (⟨201, .inserted "event_id" 7⟩,
       { demoCampus with Events := demoCampus.Events ++
          [{ event_id := 7, name := "Chess night", description := "Open games",
             category := "social", date_time := "2025-04-01 18:00:00",
             visibility := "rso", university_id := none, rso_id := none,
             rso_admin := some 101 }] }) := by
  decide

theorem createEvent_of_valid (st : Store) (a : Claims) (body : EventBody) (fail : Faults)
    (hn : jsTrim body.name ≠ "") (hd : jsTrim body.description ≠ "")
    (hc : body.category ∈ ["social", "fundraising", "tech talk", "other"])
    (hv : body.visibility ∈ ["public", "private", "rso"]) (h0 : fail 0 = none) :
    createEvent st (.verified a) body fail =
      (⟨201, .inserted "event_id" (nextId (st.Events.map fun e => e.event_id))⟩,
       { st with Events := st.Events ++
          [{ event_id := nextId (st.Events.map fun e => e.event_id), name := jsTrim body.name,
             description := jsTrim body.description, category := body.category,
             date_time := body.date_time, building_id := body.building_id,
             contact_phone := body.contact_phone, contact_email := body.contact_email,
             visibility := body.visibility, university_id := body.university_id,
             rso_id := body.rso_id, rso_admin := body.rso_admin, created_by := none }] }) := by
  simp only [createEvent, authenticateToken, ne_eq, hn, not_false_eq_true, if_true, hd, hc,
    hv, List.append_nil, List.isEmpty_nil, Bool.not_true, Bool.false_eq_true, if_false, h0]

theorem createEvent_of_invalid (st : Store) (a : Claims) (body : EventBody) (fail : Faults)
    (hbad : jsTrim body.name = "" ∨ jsTrim body.description = "" ∨
      body.category ∉ ["social", "fundraising", "tech talk", "other"] ∨
      body.visibility ∉ ["public", "private", "rso"]) :
    (createEvent st (.verified a) body fail).1.status = 400 ∧
      (createEvent st (.verified a) body fail).2 = st := by
  have hne : ((((if jsTrim body.name ≠ "" then [] else ["name"]) ++
      if jsTrim body.description ≠ "" then [] else ["description"]) ++
      if body.category ∈ ["social", "fundraising", "tech talk", "other"] then []
        else ["category"]) ++
      if body.visibility ∈ ["public", "private", "rso"] then [] else ["visibility"]).isEmpty
        = false := by
    rcases hbad with h | h | h | h
    · simp [h]
    · simp [h]
    · rw [if_neg h]
      simp
    · rw [if_neg h]
      simp
  simp only [createEvent, authenticateToken, hne, Bool.not_false, if_true, and_self]

theorem createEvent_of_fault (st : Store) (a : Claims) (body : EventBody) (fail : Faults)
    (err : StoreError) (hn : jsTrim body.name ≠ "") (hd : jsTrim body.description ≠ "")
    (hc : body.category ∈ ["social", "fundraising", "tech talk", "other"])
    (hv : body.visibility ∈ ["public", "private", "rso"]) (h0 : fail 0 = some err) :
    createEvent st (.verified a) body fail = (⟨500, .error err.message⟩, st) := by
  simp only [createEvent, authenticateToken, ne_eq, hn, not_false_eq_true, if_true, hd, hc,
    hv, List.append_nil, List.isEmpty_nil, Bool.not_true, Bool.false_eq_true, if_false, h0]

/-- C24 (amended): every Event row that `createEvent` adds has a visibility among
`public`, `private` and `rso`, a category of the list, and a name and a description that
are not empty; its `university_id` and `rso_id` are those of the request, whatever the
visibility, a missing one included.  A request whose visibility is none of the three
values is answered 400 and stores nothing. -/
theorem createEvent_validates_visibility_only (st : Store) (a : Claims) (body : EventBody)
    (fail : Faults) :
    (∀ e ∈ (createEvent st (.verified a) body fail).2.Events, e ∈ st.Events ∨
      (e.visibility ∈ ["public", "private", "rso"] ∧
        e.category ∈ ["social", "fundraising", "tech talk", "other"] ∧
        e.name ≠ "" ∧ e.description ≠ "" ∧
        e.visibility = body.visibility ∧ e.university_id = body.university_id ∧
        e.rso_id = body.rso_id)) ∧
    (body.visibility ∉ ["public", "private", "rso"] →
      (createEvent st (.verified a) body fail).1.status = 400 ∧
        (createEvent st (.verified a) body fail).2 = st) := by
  constructor
  · intro e he
    by_cases hvalid : jsTrim body.name ≠ "" ∧ jsTrim body.description ≠ "" ∧
        body.category ∈ ["social", "fundraising", "tech talk", "other"] ∧
        body.visibility ∈ ["public", "private", "rso"]
    · obtain ⟨hn, hd, hc, hv⟩ := hvalid
      rcases h0 : fail 0 with _ | err
      · rw [createEvent_of_valid st a body fail hn hd hc hv h0] at he
        simp only [List.mem_append, List.mem_singleton] at he
        rcases he with he | rfl
        · exact Or.inl he
        · exact Or.inr ⟨hv, hc, hn, hd, rfl, rfl, rfl⟩
      · rw [createEvent_of_fault st a body fail err hn hd hc hv h0] at he
        exact Or.inl he
    · have hbad : jsTrim body.name = "" ∨ jsTrim body.description = "" ∨
          body.category ∉ ["social", "fundraising", "tech talk", "other"] ∨
          body.visibility ∉ ["public", "private", "rso"] := by
        by_contra hcon
        simp only [not_or, not_not] at hcon
        exact hvalid ⟨hcon.1, hcon.2.1, hcon.2.2.1, hcon.2.2.2⟩
      rw [(createEvent_of_invalid st a body fail hbad).2] at he
      exact Or.inl he
  · intro hbad
    exact createEvent_of_invalid st a body fail (Or.inr (Or.inr (Or.inr hbad)))

/-- Witness for C24 (amended) on `demoCampus`: a request with the visibility `campus` is
answered 400 and nothing is stored. -/
theorem createEvent_validates_visibility_only_witness :
    (createEvent demoCampus demoAdminToken { demoEventBody with visibility := "campus" }
        noFault).1.status = 400 ∧
      (createEvent demoCampus demoAdminToken { demoEventBody with visibility := "campus" }
        noFault).2 = demoCampus :=
  (createEvent_validates_visibility_only demoCampus ⟨101, "rso_admin"⟩
    { demoEventBody with visibility := "campus" } noFault).2 (by decide)

/-! ## Roles -/

/-- C25 (the code differs): on `demoCampus`, `register` with the role `rso`, which is not
one of `admin`, `university`, `rso_admin`, `student`, is answered 201 and a User row with
the role `rso` is stored; `register` with the role `rso_admin` is answered 400. -/
theorem register_stores_role_rso :
    register demoLibrary demoCampus .absent "new@example.org" "secret1" "rso" noFault =
        (⟨201, .inserted "user_id" 103⟩,
         { demoCampus with Users := demoCampus.Users ++
            [{ user_id := 103, email := "new@example.org", password_hash := "secret1",
               role := "rso" }] }) ∧
      "rso" ∉ ["admin", "university", "rso_admin", "student"] ∧
      register demoLibrary demoCampus .absent "new@example.org" "secret1" "rso_admin"
          noFault =
        (⟨400, .errors ["role"]⟩, demoCampus) := by
  decide

/-! ## The event list -/

/-- C29: `getEventList` applies no visibility rule.  For every verified token, whatever
its claims, the response is 200 with exactly the events of the store that match the
filters supplied (a filter whose value is missing or 0 is not applied), taken together;
with no filter it is the whole `Events` table. -/
theorem getEventList_is_filter_only (st : Store) (a : Claims) (university_id rso_id : Option Nat)
    (fail : Faults) (h0 : fail 0 = none) :
    getEventList st (.verified a) university_id rso_id fail =
        ⟨200, .list (st.Events.filter fun e =>
          decide ((falsy university_id = true ∨ e.university_id = university_id) ∧
            (falsy rso_id = true ∨ e.rso_id = rso_id)))⟩ ∧
      getEventList st (.verified a) none none fail = ⟨200, .list st.Events⟩ := by
  have hsome : ∀ (x y : Option Nat), falsy y = false →
      ((sqlEq x y).holds = true ↔ x = y) := by
    intro x y hy
    cases y with
    | none => simp [falsy] at hy
    | some n =>
      rw [holds_sqlEq]
      constructor
      · rintro ⟨v, hx, hv⟩
        rw [hx, hv]
      · intro hx
        exact ⟨n, hx, rfl⟩
  have htt : ∀ x : SqlBool, (SqlBool.tt.and x).holds = x.holds := by
    intro x
    cases x <;> rfl
  constructor
  · simp only [getEventList, authenticateToken, h0]
    congr 2
    apply List.filter_congr
    intro e _
    cases hu : falsy university_id <;> cases hr : falsy rso_id
    · simp only [Bool.false_eq_true, if_false, false_or]
      rw [Bool.eq_iff_iff, SqlBool.holds_and, htt, hsome _ _ hu, hsome _ _ hr,
        decide_eq_true_eq]
    · simp only [Bool.false_eq_true, if_false, if_true, false_or, true_or, and_true]
      rw [Bool.eq_iff_iff, htt, hsome _ _ hu, decide_eq_true_eq]
    · simp only [Bool.false_eq_true, if_false, if_true, false_or, true_or, true_and]
      rw [Bool.eq_iff_iff, SqlBool.holds_and, hsome _ _ hr, decide_eq_true_eq]
      simp [SqlBool.holds]
    · simp [SqlBool.holds]
  · simp [getEventList, authenticateToken, h0, falsy, SqlBool.holds]

/-- Witness for C29 on `demoStore`: user 100, a pending student of university 1, gets
all six events with no filter, the private event of university 2 and the events of the
RSOs included. -/
theorem getEventList_is_filter_only_witness :
    getEventList demoStore demoToken none none noFault = ⟨200, .list demoStore.Events⟩ :=
  (getEventList_is_filter_only demoStore ⟨100, "student"⟩ none none noFault rfl).2

/-! ## Concurrent approvals -/

theorem InFlight.step_fresh (statement : Store → Store × Nat) (respond : Nat → Response)
    (st : Store) :
    InFlight.step statement respond st {} =
      ((statement st).1, { affectedRows := some (statement st).2 }) := rfl

theorem InFlight.step_ran (statement : Store → Store × Nat) (respond : Nat → Response)
    (st : Store) (n : Nat) (p : InFlight) (hp : p.Ran respond n) :
    (p.step statement respond st).1 = st ∧ (p.step statement respond st).2.Ran respond n := by
  obtain ⟨haff, hres | hres⟩ := hp
  · simp [InFlight.step, haff, hres, InFlight.Ran]
  · simp [InFlight.step, haff, hres, InFlight.Ran]

theorem RaceInv.step_first (statement : Store → Store × Nat) (respond : Nat → Response)
    (st0 st1 : Store) (n1 : Nat) (h1 : statement st0 = (st1, n1))
    (h2 : statement st1 = (st1, 0)) (st : Store) (p q : InFlight)
    (h : RaceInv respond st0 st1 n1 st p q) :
    RaceInv respond st0 st1 n1 (p.step statement respond st).1
      (p.step statement respond st).2 q := by
  rcases h with ⟨rfl, rfl, rfl⟩ | ⟨rfl, hp, hq⟩ | ⟨rfl, hq, rfl | hp⟩
  · rw [InFlight.step_fresh, h1]
    exact Or.inr (Or.inl ⟨rfl, ⟨rfl, Or.inl rfl⟩, Or.inl rfl⟩)
  · obtain ⟨hst, hran⟩ := InFlight.step_ran statement respond st n1 p hp
    rw [hst]
    exact Or.inr (Or.inl ⟨rfl, hran, hq⟩)
  · rw [InFlight.step_fresh, h2]
    exact Or.inr (Or.inr ⟨rfl, hq, Or.inr ⟨rfl, Or.inl rfl⟩⟩)
  · obtain ⟨hst, hran⟩ := InFlight.step_ran statement respond st 0 p hp
    rw [hst]
    exact Or.inr (Or.inr ⟨rfl, hq, Or.inr hran⟩)

theorem RaceInv.symm (respond : Nat → Response) (st0 st1 : Store) (n1 : Nat) (st : Store)
    (p q : InFlight) (h : RaceInv respond st0 st1 n1 st p q) :
    RaceInv respond st0 st1 n1 st q p := by
  rcases h with ⟨h1, h2, h3⟩ | h | h
  · exact Or.inl ⟨h1, h3, h2⟩
  · exact Or.inr (Or.inr h)
  · exact Or.inr (Or.inl h)

theorem RaceInv.interleave (statement : Store → Store × Nat) (respond : Nat → Response)
    (st0 st1 : Store) (n1 : Nat) (h1 : statement st0 = (st1, n1))
    (h2 : statement st1 = (st1, 0)) :
    ∀ (s : List Bool) (st : Store) (p q : InFlight), RaceInv respond st0 st1 n1 st p q →
      RaceInv respond st0 st1 n1 (interleave statement respond st p q s).1
        (interleave statement respond st p q s).2.1
        (interleave statement respond st p q s).2.2 := by
  intro s
  induction s with
  | nil => intro st p q h; exact h
  | cons b rest ih =>
    intro st p q h
    cases b
    · exact ih _ _ _ (RaceInv.symm _ _ _ _ _ _ _
        (RaceInv.step_first statement respond st0 st1 n1 h1 h2 st q p
          (RaceInv.symm _ _ _ _ _ _ _ h)))
    · exact ih _ _ _ (RaceInv.step_first statement respond st0 st1 n1 h1 h2 st p q h)

/-- When both requests have answered, the store is `st1`, one response is the one for
`n1` affected rows and the other the one for none. -/
theorem RaceInv.outcome (respond : Nat → Response) (st0 st1 : Store) (n1 : Nat) (st : Store)
    (p q : InFlight) (h : RaceInv respond st0 st1 n1 st p q)
    (hp : p.response.isSome = true) (hq : q.response.isSome = true) :
    st = st1 ∧
      ((p.response = some (respond n1) ∧ q.response = some (respond 0)) ∨
        (p.response = some (respond 0) ∧ q.response = some (respond n1))) := by
  have hdone : ∀ (x : InFlight) (n : Nat), x.Ran respond n → x.response.isSome = true →
      x.response = some (respond n) := by
    intro x n hx hs
    rcases hx.2 with hnone | hsome
    · rw [hnone] at hs
      simp at hs
    · exact hsome
  rcases h with ⟨_, rfl, _⟩ | ⟨rfl, hpr, rfl | hqr⟩ | ⟨rfl, hqr, rfl | hpr⟩
  · simp at hp
  · simp at hq
  · exact ⟨rfl, Or.inl ⟨hdone p n1 hpr hp, hdone q 0 hqr hq⟩⟩
  · simp at hp
  · exact ⟨rfl, Or.inr ⟨hdone p 0 hpr hp, hdone q n1 hqr hq⟩⟩

theorem approveRSO_eq_statement (st : Store) (c : Credential) (rso_id : Nat) :
    approveRSO st c rso_id =
      (approveRSOResponse (approveRSOStatement rso_id st).2,
       (approveRSOStatement rso_id st).1) := by
  unfold approveRSO approveRSOStatement approveRSOResponse
  dsimp only
  split <;> rfl

theorem approveStudent_eq_statement (st : Store) (c : Credential) (student_id : Nat) :
    approveStudent st c student_id =
      (approveStudentResponse (approveStudentStatement student_id st).2,
       (approveStudentStatement student_id st).1) := by
  unfold approveStudent approveStudentStatement approveStudentResponse
  dsimp only
  split <;> rfl

theorem approveRSOStatement_again (rso_id : Nat) (st : Store) :
    approveRSOStatement rso_id (approveRSOStatement rso_id st).1 =
      ((approveRSOStatement rso_id st).1, 0) := by
  have hafter := sqlUpdate_no_match_after st.RSOs
    (fun x => (sqlEq (some x.rso_id) (some rso_id)).and
      (sqlEq (some x.status) (some "pending")))
    (fun x => { x with status := "active" }) (by intro x; simp)
  have hsame := sqlUpdate_of_no_match _ _ (fun x : RSO => { x with status := "active" }) hafter
  simp only [approveRSOStatement]
  rw [hsame]

theorem approveStudentStatement_again (student_id : Nat) (st : Store) :
    approveStudentStatement student_id (approveStudentStatement student_id st).1 =
      ((approveStudentStatement student_id st).1, 0) := by
  have hafter := sqlUpdate_no_match_after st.Students
    (fun x => (sqlEq (some x.student_id) (some student_id)).and
      (sqlEq (some x.status) (some "pending")))
    (fun x => { x with status := "active" }) (by intro x; simp)
  have hsame := sqlUpdate_of_no_match _ _ (fun x : Student => { x with status := "active" })
    hafter
  simp only [approveStudentStatement]
  rw [hsame]

/-- C27: two approve requests for the same pending RSO (or Student) id run concurrently,
each made of its one statement and its answer.  Under every schedule of their steps,
once both have answered, one has answered 200 and the other, whose statement affected no
row, 404 "not found or already approved", and the store is the one a single approve
leaves: the status is set to `active` once. -/
theorem concurrent_approve_one_success (st : Store) (c : Credential) (id : Nat)
    (s : List Bool) :
    ((∃ r ∈ st.RSOs, r.rso_id = id ∧ r.status = "pending") →
      (interleave (approveRSOStatement id) approveRSOResponse st {} {} s).2.1.response.isSome
        = true →
      (interleave (approveRSOStatement id) approveRSOResponse st {} {} s).2.2.response.isSome
        = true →
      (interleave (approveRSOStatement id) approveRSOResponse st {} {} s).1 =
          (approveRSO st c id).2 ∧
        (((interleave (approveRSOStatement id) approveRSOResponse st {} {} s).2.1.response =
              some ⟨200, .message "RSO approved successfully"⟩ ∧
            (interleave (approveRSOStatement id) approveRSOResponse st {} {} s).2.2.response =
              some ⟨404, .error "RSO not found or already approved"⟩) ∨
          ((interleave (approveRSOStatement id) approveRSOResponse st {} {} s).2.1.response =
              some ⟨404, .error "RSO not found or already approved"⟩ ∧
            (interleave (approveRSOStatement id) approveRSOResponse st {} {} s).2.2.response =
              some ⟨200, .message "RSO approved successfully"⟩))) ∧
    ((∃ x ∈ st.Students, x.student_id = id ∧ x.status = "pending") →
      (interleave (approveStudentStatement id) approveStudentResponse st {} {}
        s).2.1.response.isSome = true →
      (interleave (approveStudentStatement id) approveStudentResponse st {} {}
        s).2.2.response.isSome = true →
      (interleave (approveStudentStatement id) approveStudentResponse st {} {} s).1 =
          (approveStudent st c id).2 ∧
        (((interleave (approveStudentStatement id) approveStudentResponse st {} {}
              s).2.1.response = some ⟨200, .message "Student approved successfully"⟩ ∧
            (interleave (approveStudentStatement id) approveStudentResponse st {} {}
              s).2.2.response = some ⟨404, .error "Student not found or already approved"⟩) ∨
          ((interleave (approveStudentStatement id) approveStudentResponse st {} {}
              s).2.1.response = some ⟨404, .error "Student not found or already approved"⟩ ∧
            (interleave (approveStudentStatement id) approveStudentResponse st {} {}
              s).2.2.response = some ⟨200, .message "Student approved successfully"⟩))) := by
  constructor
  · rintro ⟨r, hr, hid, hp⟩ hdone1 hdone2
    have hn : (approveRSOStatement id st).2 ≠ 0 :=
      sqlUpdate_affected_ne_zero st.RSOs
        (fun x => (sqlEq (some x.rso_id) (some id)).and
          (sqlEq (some x.status) (some "pending")))
        (fun x => { x with status := "active" }) r hr
        ((approveRSO_cond_iff r id).mpr ⟨hid, hp⟩)
    have hinv := RaceInv.interleave (approveRSOStatement id) approveRSOResponse st
      (approveRSOStatement id st).1 (approveRSOStatement id st).2 rfl
      (approveRSOStatement_again id st) s st {} {} (Or.inl ⟨rfl, rfl, rfl⟩)
    have hout := RaceInv.outcome _ _ _ _ _ _ _ hinv hdone1 hdone2
    have h200 : approveRSOResponse (approveRSOStatement id st).2 =
        ⟨200, .message "RSO approved successfully"⟩ := by
      simp [approveRSOResponse, hn]
    have h404 : approveRSOResponse 0 = ⟨404, .error "RSO not found or already approved"⟩ :=
      rfl
    rw [h200, h404] at hout
    refine ⟨?_, hout.2⟩
    rw [hout.1, approveRSO_eq_statement]
  · rintro ⟨x, hx, hid, hp⟩ hdone1 hdone2
    have hn : (approveStudentStatement id st).2 ≠ 0 :=
      sqlUpdate_affected_ne_zero st.Students
        (fun y => (sqlEq (some y.student_id) (some id)).and
          (sqlEq (some y.status) (some "pending")))
        (fun y => { y with status := "active" }) x hx
        ((approveStudent_cond_iff x id).mpr ⟨hid, hp⟩)
    have hinv := RaceInv.interleave (approveStudentStatement id) approveStudentResponse st
      (approveStudentStatement id st).1 (approveStudentStatement id st).2 rfl
      (approveStudentStatement_again id st) s st {} {} (Or.inl ⟨rfl, rfl, rfl⟩)
    have hout := RaceInv.outcome _ _ _ _ _ _ _ hinv hdone1 hdone2
    have h200 : approveStudentResponse (approveStudentStatement id st).2 =
        ⟨200, .message "Student approved successfully"⟩ := by
      simp [approveStudentResponse, hn]
    have h404 : approveStudentResponse 0 =
        ⟨404, .error "Student not found or already approved"⟩ := rfl
    rw [h200, h404] at hout
    refine ⟨?_, hout.2⟩
    rw [hout.1, approveStudent_eq_statement]

/-- Witness for C27 on `demoStore`: two approvals of the pending RSO 2, the second
request running its statement between the statement and the answer of the first. -/
theorem concurrent_approve_one_success_witness :
    (interleave (approveRSOStatement 2) approveRSOResponse demoStore {} {}
        [true, false, false, true]).1 = (approveRSO demoStore .absent 2).2 ∧
      (((interleave (approveRSOStatement 2) approveRSOResponse demoStore {} {}
            [true, false, false, true]).2.1.response =
            some ⟨200, .message "RSO approved successfully"⟩ ∧
          (interleave (approveRSOStatement 2) approveRSOResponse demoStore {} {}
            [true, false, false, true]).2.2.response =
            some ⟨404, .error "RSO not found or already approved"⟩) ∨
        ((interleave (approveRSOStatement 2) approveRSOResponse demoStore {} {}
            [true, false, false, true]).2.1.response =
            some ⟨404, .error "RSO not found or already approved"⟩ ∧
          (interleave (approveRSOStatement 2) approveRSOResponse demoStore {} {}
            [true, false, false, true]).2.2.response =
            some ⟨200, .message "RSO approved successfully"⟩)) :=
  (concurrent_approve_one_success demoStore .absent 2 [true, false, false, true]).1
    ⟨demoPendingRSO, by decide, rfl, rfl⟩ (by decide) (by decide)

theorem insertRating_valid (t : List EventRating) (ev u r : Nat) (hr : 1 ≤ r ∧ r ≤ 5)
    (h : RatingsValid t) : RatingsValid (insertRating t ev u r) := by
  unfold insertRating
  split
  · constructor
    · have hmap : ((t.map fun x =>
          if (x.event_id == ev && x.user_id == u) = true then { x with rating := r }
          else x).map fun x => (x.event_id, x.user_id)) =
          t.map fun x => (x.event_id, x.user_id) := by
        rw [List.map_map]
        apply List.map_congr_left
        intro x _
        simp only [Function.comp]
        split <;> rfl
      rw [hmap]
      exact h.1
    · intro x hx
      obtain ⟨y, hy, rfl⟩ := List.mem_map.mp hx
      split
      · exact hr
      · exact h.2 y hy
  · rename_i hnone
    constructor
    · rw [List.map_append, List.nodup_append]
      refine ⟨h.1, by simp, ?_⟩
      intro pair hp hp'
      simp only [List.map_cons, List.map_nil, List.mem_singleton] at hp'
      obtain ⟨y, hy, hpair⟩ := List.mem_map.mp hp
      apply hnone
      rw [List.any_eq_true]
      refine ⟨y, hy, ?_⟩
      rw [hp'] at hpair
      simp only [Prod.mk.injEq] at hpair
      simp [hpair.1, hpair.2]
    · intro x hx
      rcases List.mem_append.mp hx with hx | hx
      · exact h.2 x hx
      · rw [List.mem_singleton] at hx
        rw [hx]
        exact hr

theorem addOrUpdateRating_ratingsKept (st : Store) (c : Credential)
    (event_id user_id : Option Nat) (rating : Option Int) (fail : Faults) :
    RatingsKept st (addOrUpdateRating st c event_id user_id rating fail).2 := by
  intro h
  unfold addOrUpdateRating
  repeat' split
  all_goals first
    | exact h
    | (rename_i r _ _ hok _
       apply insertRating_valid _ _ _ _ _ h
       omega)

theorem register_ratingsKept (lib : Library) (st : Store) (c : Credential)
    (email password role : String) (fail : Faults) :
    RatingsKept st (register lib st c email password role fail).2 := by
  intro h
  unfold register
  dsimp only
  repeat' split
  all_goals exact h

theorem updateUser_ratingsKept (lib : Library) (st : Store) (c : Credential)
    (user_id : Nat) (email password : String) (fail : Faults) :
    RatingsKept st (updateUser lib st c user_id email password fail).2 := by
  intro h
  unfold updateUser
  repeat' split
  all_goals exact h

theorem deleteUser_ratingsKept (st : Store) (c : Credential) (user_id : Option Nat)
    (fail : Faults) :
    RatingsKept st (deleteUser st c user_id fail).2 := by
  intro h
  unfold deleteUser
  dsimp only
  repeat' split
  all_goals exact h

theorem createUniversity_ratingsKept (st : Store) (c : Credential)
    (name location description : String) (num_students : Nat) (website : String)
    (user_id : Nat) (fail : Faults) :
    RatingsKept st (createUniversity st c name location description num_students website user_id fail).2 := by
  intro h
  unfold createUniversity
  dsimp only
  repeat' split
  all_goals exact h

theorem approveRSORoute_ratingsKept (st : Store) (c : Credential) (rso_id : Nat)
    (fail : Faults) :
    RatingsKept st (approveRSORoute st c rso_id fail).2 := by
  intro h
  unfold approveRSORoute approveRSO
  dsimp only
  repeat' split
  all_goals exact h

theorem approveStudentRoute_ratingsKept (st : Store) (c : Credential)
    (student_id : Nat) (fail : Faults) :
    RatingsKept st (approveStudentRoute st c student_id fail).2 := by
  intro h
  unfold approveStudentRoute approveStudent
  dsimp only
  repeat' split
  all_goals exact h

theorem createStudent_ratingsKept (st : Store) (c : Credential)
    (first_name last_name : String) (university_id user_id : Option Nat)
    (fail : Faults) :
    RatingsKept st (createStudent st c first_name last_name university_id user_id fail).2 := by
  intro h
  unfold createStudent
  dsimp only
  repeat' split
  all_goals exact h

theorem joinRSORoute_ratingsKept (st : Store) (c : Credential)
    (user_id rso_id : Option Nat) (fail : Faults) :
    RatingsKept st (joinRSORoute st c user_id rso_id fail).2 := by
  intro h
  unfold joinRSORoute joinRSO
  dsimp only
  repeat' split
  all_goals exact h

theorem createRSO_ratingsKept (st : Store) (c : Credential) (name : String)
    (university_id rso_admin : Nat) (fail : Faults) :
    RatingsKept st (createRSO st c name university_id rso_admin fail).2 := by
  intro h
  unfold createRSO
  dsimp only
  repeat' split
  all_goals exact h

theorem createEvent_ratingsKept (st : Store) (c : Credential) (body : EventBody)
    (fail : Faults) :
    RatingsKept st (createEvent st c body fail).2 := by
  intro h
  unfold createEvent
  dsimp only
  repeat' split
  all_goals exact h

theorem updateEvent_ratingsKept (st : Store) (c : Credential) (event_id : Nat)
    (updates : Event → Event) (fail : Faults) :
    RatingsKept st (updateEvent st c event_id updates fail).2 := by
  intro h
  unfold updateEvent
  dsimp only
  repeat' split
  all_goals exact h

theorem addComment_ratingsKept (st : Store) (c : Credential) (event_id : Option Nat)
    (comment : String) (user_id : Nat) (fail : Faults) :
    RatingsKept st (addComment st c event_id comment user_id fail).2 := by
  intro h
  unfold addComment
  dsimp only
  repeat' split
  all_goals exact h

theorem updateComment_ratingsKept (st : Store) (c : Credential) (comment_id : Nat)
    (comment : String) (user_id : Option Nat) (fail : Faults) :
    RatingsKept st (updateComment st c comment_id comment user_id fail).2 := by
  intro h
  unfold updateComment
  repeat' split
  all_goals exact h

theorem deleteComment_ratingsKept (st : Store) (c : Credential) (comment_id : Nat)
    (user_id : Option Nat) (fail : Faults) :
    RatingsKept st (deleteComment st c comment_id user_id fail).2 := by
  intro h
  unfold deleteComment
  repeat' split
  all_goals exact h

theorem addBuildings_ratingsKept (st : Store) (c : Credential) (buildings : Option
    (List BuildingBody)) (university_id : Option Nat) (fail : Faults) :
    RatingsKept st (addBuildings st c buildings university_id fail).2 := by
  intro h
  unfold addBuildings
  dsimp only
  repeat' split
  all_goals exact h

theorem serve_ratingsKept (lib : Library) (st : Store) (c : Credential) (fail : Faults)
    (req : Request) : RatingsKept st (serve lib st c fail req).2 := by
  cases req with
  | register email password role => exact register_ratingsKept lib st c email password role fail
  | updateUser user_id email password =>
    exact updateUser_ratingsKept lib st c user_id email password fail
  | deleteUser user_id => exact deleteUser_ratingsKept st c user_id fail
  | createUniversity name location description num_students website user_id =>
    exact createUniversity_ratingsKept st c name location description num_students website
      user_id fail
  | approveRSO rso_id => exact approveRSORoute_ratingsKept st c rso_id fail
  | approveStudent student_id => exact approveStudentRoute_ratingsKept st c student_id fail
  | createStudent first_name last_name university_id user_id =>
    exact createStudent_ratingsKept st c first_name last_name university_id user_id fail
  | joinRSO user_id rso_id => exact joinRSORoute_ratingsKept st c user_id rso_id fail
  | createRSO name university_id rso_admin =>
    exact createRSO_ratingsKept st c name university_id rso_admin fail
  | createEvent body => exact createEvent_ratingsKept st c body fail
  | updateEvent event_id updates => exact updateEvent_ratingsKept st c event_id updates fail
  | addComment event_id comment user_id =>
    exact addComment_ratingsKept st c event_id comment user_id fail
  | updateComment comment_id comment user_id =>
    exact updateComment_ratingsKept st c comment_id comment user_id fail
  | deleteComment comment_id user_id => exact deleteComment_ratingsKept st c comment_id user_id fail
  | addOrUpdateRating event_id user_id rating =>
    exact addOrUpdateRating_ratingsKept st c event_id user_id rating fail
  | addBuildings buildings university_id =>
    exact addBuildings_ratingsKept st c buildings university_id fail
  | _ => exact fun h => h

theorem run_ratingsValid (lib : Library) :
    ∀ (reqs : List (Credential × Faults × Request)) (st : Store),
      RatingsValid st.EventRatings → RatingsValid (run lib st reqs).EventRatings := by
  intro reqs
  induction reqs with
  | nil => intro st h; exact h
  | cons x rest ih =>
    intro st h
    obtain ⟨c, fail, req⟩ := x
    exact ih _ (serve_ratingsKept lib st c fail req h)

theorem insertRating_length_of_rated (t : List EventRating) (ev u n : Nat)
    (h : ∃ x ∈ t, x.event_id = ev ∧ x.user_id = u) :
    (insertRating t ev u n).length = t.length := by
  obtain ⟨x, hx, hev, hu⟩ := h
  have hany : (t.any fun r => r.event_id == ev && r.user_id == u) = true := by
    rw [List.any_eq_true]
    exact ⟨x, hx, by simp [hev, hu]⟩
  unfold insertRating
  rw [if_pos hany, List.length_map]

theorem insertRating_rows_of_pair (t : List EventRating) (ev u n : Nat) :
    (∀ x ∈ (insertRating t ev u n).filter fun r =>
        ((sqlEq (some r.event_id) (some ev)).and (sqlEq (some r.user_id) (some u))).holds,
      x.rating = n) ∧
    ((insertRating t ev u n).filter fun r =>
        ((sqlEq (some r.event_id) (some ev)).and (sqlEq (some r.user_id) (some u))).holds)
      ≠ [] := by
  unfold insertRating
  split
  · rename_i hany
    constructor
    · intro x hx
      rw [List.mem_filter] at hx
      obtain ⟨hmem, hc⟩ := hx
      obtain ⟨y, _, rfl⟩ := List.mem_map.mp hmem
      simp only [SqlBool.holds_and, holds_sqlEq_some] at hc
      by_cases hy : (y.event_id == ev && y.user_id == u) = true
      · rw [if_pos hy]
      · rw [if_neg hy] at hc
        exact absurd (by simp [hc.1, hc.2]) hy
    · rw [List.any_eq_true] at hany
      obtain ⟨y, hy, hc⟩ := hany
      simp only [Bool.and_eq_true, beq_iff_eq] at hc
      apply List.ne_nil_of_mem
      rw [List.mem_filter]
      refine ⟨List.mem_map.mpr ⟨y, hy, rfl⟩, ?_⟩
      simp [hc.1, hc.2]
  · rename_i hany
    constructor
    · intro x hx
      rw [List.mem_filter] at hx
      obtain ⟨hmem, hc⟩ := hx
      simp only [SqlBool.holds_and, holds_sqlEq_some] at hc
      rcases List.mem_append.mp hmem with hx | hx
      · exfalso
        apply hany
        rw [List.any_eq_true]
        exact ⟨x, hx, by simp [hc.1, hc.2]⟩
      · rw [List.mem_singleton] at hx
        rw [hx]
    · apply List.ne_nil_of_mem
      rw [List.mem_filter]
      refine ⟨List.mem_append.mpr (Or.inr (List.mem_singleton.mpr rfl)), ?_⟩
      simp

theorem getUserRating_after_insert (st : Store) (c : Credential) (ev u n : Nat)
    (fail : Faults) (h0 : fail 0 = none) :
    getUserRating { st with EventRatings := insertRating st.EventRatings ev u n } c ev u fail =
      ⟨200, .rating (some n)⟩ := by
  obtain ⟨hall, hne⟩ := insertRating_rows_of_pair st.EventRatings ev u n
  simp only [getUserRating, h0]
  cases hf : (insertRating st.EventRatings ev u n).filter fun r =>
      ((sqlEq (some r.event_id) (some ev)).and (sqlEq (some r.user_id) (some u))).holds with
  | nil => exact absurd hf hne
  | cons x xs =>
    have hx := hall x (by rw [hf]; exact List.mem_cons_self x xs)
    simp [hx]

theorem addOrUpdateRating_of_valid (st : Store) (a : Claims) (ev u : Nat) (r : Int)
    (fail : Faults) (hev : ev ≠ 0) (hu : u ≠ 0) (h1 : 1 ≤ r) (h5 : r ≤ 5)
    (h0 : fail 0 = none) :
    addOrUpdateRating st (.verified a) (some ev) (some u) (some r) fail =
      (⟨200, .message "Rating submitted successfully."⟩,
       { st with EventRatings := insertRating st.EventRatings ev u r.toNat }) := by
  have hcond : ¬(ev = 0 ∨ u = 0 ∨ r = 0 ∨ r < 1 ∨ r > 5) := by omega
  simp only [addOrUpdateRating, authenticateToken, hcond, if_false, h0]

theorem addOrUpdateRating_of_bad_rating (st : Store) (a : Claims) (ev u : Option Nat)
    (rating : Option Int) (fail : Faults)
    (hbad : rating = none ∨ ∃ r, rating = some r ∧ (r < 1 ∨ 5 < r)) :
    addOrUpdateRating st (.verified a) ev u rating fail =
      (⟨400, .error
        "Invalid input. Event ID, User ID, and valid rating (1-5) are required."⟩, st) := by
  rcases hbad with rfl | ⟨r, rfl, hr⟩
  · cases ev <;> cases u <;> rfl
  · cases ev with
    | none => rfl
    | some e =>
      cases u with
      | none => rfl
      | some v =>
        have hcond : e = 0 ∨ v = 0 ∨ r = 0 ∨ r < 1 ∨ r > 5 := by omega
        simp only [addOrUpdateRating, authenticateToken, hcond, if_true]

/-- C22: from a store whose `EventRatings` is empty, after every sequence of requests to
the server (the `addOrUpdateRating` requests among them) the table has at most one row
for a pair `(event_id, user_id)` and every rating in it is between 1 and 5.  A request
whose rating is missing or out of range is answered 400 and changes nothing; an accepted
request is answered 200, leaves the number of rows as it is when the pair was rated
already, and `getUserRating` for the pair then returns the rating just sent. -/
theorem ratings_stay_valid (lib : Library) (st : Store)
    (reqs : List (Credential × Faults × Request)) (hempty : st.EventRatings = []) :
    RatingsValid (run lib st reqs).EventRatings ∧
    (∀ (st' : Store) (a : Claims) (ev u : Option Nat) (rating : Option Int) (fail : Faults),
      (rating = none ∨ ∃ r, rating = some r ∧ (r < 1 ∨ 5 < r)) →
      addOrUpdateRating st' (.verified a) ev u rating fail =
        (⟨400, .error
          "Invalid input. Event ID, User ID, and valid rating (1-5) are required."⟩, st')) ∧
    (∀ (st' : Store) (a : Claims) (c : Credential) (ev u : Nat) (r : Int)
        (fail fail' : Faults),
      ev ≠ 0 → u ≠ 0 → 1 ≤ r → r ≤ 5 → fail 0 = none → fail' 0 = none →
      (addOrUpdateRating st' (.verified a) (some ev) (some u) (some r) fail).1 =
          ⟨200, .message "Rating submitted successfully."⟩ ∧
        ((∃ x ∈ st'.EventRatings, x.event_id = ev ∧ x.user_id = u) →
          (addOrUpdateRating st' (.verified a) (some ev) (some u) (some r)
            fail).2.EventRatings.length = st'.EventRatings.length) ∧
        getUserRating (addOrUpdateRating st' (.verified a) (some ev) (some u) (some r) fail).2
          c ev u fail' = ⟨200, .rating (some r.toNat)⟩) := by
  refine ⟨?_, ?_, ?_⟩
  · apply run_ratingsValid
    rw [hempty]
    exact ⟨List.nodup_nil, fun _ h => absurd h (List.not_mem_nil _)⟩
  · intro st' a ev u rating fail hbad
    exact addOrUpdateRating_of_bad_rating st' a ev u rating fail hbad
  · intro st' a c ev u r fail fail' hev hu h1 h5 h0 h0'
    rw [addOrUpdateRating_of_valid st' a ev u r fail hev hu h1 h5 h0]
    exact ⟨rfl, insertRating_length_of_rated _ ev u r.toNat,
      getUserRating_after_insert st' c ev u r.toNat fail' h0'⟩

/-- Witness for C22 on `demoCampus`, whose `EventRatings` is empty: user 100 rates event
1 with 4, then sends the rating 9, which is refused, then rates event 1 with 2; one row
is left, with the rating 2, which `getUserRating` returns. -/
theorem ratings_stay_valid_witness :
    (run demoLibrary demoCampus
        [(demoToken, noFault, .addOrUpdateRating (some 1) (some 100) (some 4)),
         (demoToken, noFault, .addOrUpdateRating (some 1) (some 100) (some 9)),
         (demoToken, noFault, .addOrUpdateRating (some 1) (some 100) (some 2))]).EventRatings =
        [{ event_id := 1, user_id := 100, rating := 2 }] ∧
      RatingsValid (run demoLibrary demoCampus
        [(demoToken, noFault, .addOrUpdateRating (some 1) (some 100) (some 4)),
         (demoToken, noFault, .addOrUpdateRating (some 1) (some 100) (some 9)),
         (demoToken, noFault, .addOrUpdateRating (some 1) (some 100) (some 2))]).EventRatings ∧
      getUserRating
          (addOrUpdateRating demoCampus (.verified ⟨100, "student"⟩) (some 1) (some 100)
            (some 2) noFault).2 .absent 1 100 noFault = ⟨200, .rating (some 2)⟩ :=
  ⟨by decide,
   (ratings_stay_valid demoLibrary demoCampus
      [(demoToken, noFault, .addOrUpdateRating (some 1) (some 100) (some 4)),
       (demoToken, noFault, .addOrUpdateRating (some 1) (some 100) (some 9)),
       (demoToken, noFault, .addOrUpdateRating (some 1) (some 100) (some 2))] rfl).1,
   ((ratings_stay_valid demoLibrary demoCampus [] rfl).2.2 demoCampus ⟨100, "student"⟩
      .absent 1 100 2 noFault noFault (by decide) (by decide) (by decide) (by decide)
      rfl rfl).2.2⟩

theorem caughtAlike_of_errors (st : Store) (f g : Faults) (n : Nat) (e e' : StoreError)
    (hf : f n = some e) (hg : g n = some e') :
    CaughtAlike st f g (⟨500, .error e.message⟩, st) (⟨500, .error e'.message⟩, st) :=
  Or.inr ⟨n, e, e', hf, hg, rfl, rfl⟩

theorem register_caughtAlike (lib : Library) (st : Store) (c : Credential)
    (email password role : String) (f g : Faults) (h : SameFailures f g) :
    CaughtAlike st f g (register lib st c email password role f)
      (register lib st c email password role g) := by
  have h0 := h 0
  unfold register
  dsimp only
  repeat' split
  all_goals first
    | exact Or.inl rfl
    | (apply caughtAlike_of_errors <;> assumption)
    | (exfalso; simp_all)

theorem updateUser_caughtAlike (lib : Library) (st : Store) (c : Credential) (user_id : Nat)
    (email password : String) (f g : Faults) (h : SameFailures f g) :
    CaughtAlike st f g (updateUser lib st c user_id email password f)
      (updateUser lib st c user_id email password g) := by
  have h0 := h 0
  have h1 := h 1
  unfold updateUser
  dsimp only
  repeat' split
  all_goals first
    | exact Or.inl rfl
    | (apply caughtAlike_of_errors <;> assumption)
    | (exfalso; simp_all)

theorem deleteUser_caughtAlike (st : Store) (c : Credential) (user_id : Option Nat)
    (f g : Faults) (h : SameFailures f g) :
    CaughtAlike st f g (deleteUser st c user_id f) (deleteUser st c user_id g) := by
  have h0 := h 0
  have h1 := h 1
  unfold deleteUser
  dsimp only
  repeat' split
  all_goals first
    | exact Or.inl rfl
    | (apply caughtAlike_of_errors <;> assumption)
    | (exfalso; simp_all)

theorem createUniversity_caughtAlike (st : Store) (c : Credential)
    (name location description : String) (num_students : Nat) (website : String) (user_id : Nat)
    (f g : Faults) (h : SameFailures f g) :
    CaughtAlike st f g (createUniversity st c name location description num_students website user_id f)
      (createUniversity st c name location description num_students website user_id g) := by
  have h0 := h 0
  unfold createUniversity
  dsimp only
  repeat' split
  all_goals first
    | exact Or.inl rfl
    | (apply caughtAlike_of_errors <;> assumption)
    | (exfalso; simp_all)

theorem approveRSORoute_caughtAlike (st : Store) (c : Credential) (rso_id : Nat) (f g : Faults)
    (h : SameFailures f g) :
    CaughtAlike st f g (approveRSORoute st c rso_id f) (approveRSORoute st c rso_id g) := by
  have h0 := h 0
  unfold approveRSORoute
  repeat' split
  all_goals first
    | exact Or.inl rfl
    | (apply caughtAlike_of_errors <;> assumption)
    | (exfalso; simp_all)

theorem approveStudentRoute_caughtAlike (st : Store) (c : Credential) (student_id : Nat)
    (f g : Faults) (h : SameFailures f g) :
    CaughtAlike st f g (approveStudentRoute st c student_id f)
      (approveStudentRoute st c student_id g) := by
  have h0 := h 0
  unfold approveStudentRoute
  repeat' split
  all_goals first
    | exact Or.inl rfl
    | (apply caughtAlike_of_errors <;> assumption)
    | (exfalso; simp_all)

theorem createStudent_caughtAlike (st : Store) (c : Credential) (first_name last_name : String)
    (university_id user_id : Option Nat) (f g : Faults) (h : SameFailures f g) :
    CaughtAlike st f g (createStudent st c first_name last_name university_id user_id f)
      (createStudent st c first_name last_name university_id user_id g) := by
  have h0 := h 0
  unfold createStudent
  dsimp only
  repeat' split
  all_goals first
    | exact Or.inl rfl
    | (apply caughtAlike_of_errors <;> assumption)
    | (exfalso; simp_all)

theorem joinRSORoute_caughtAlike (st : Store) (c : Credential) (user_id rso_id : Option Nat)
    (f g : Faults) (h : SameFailures f g) :
    CaughtAlike st f g (joinRSORoute st c user_id rso_id f)
      (joinRSORoute st c user_id rso_id g) := by
  have h0 := h 0
  unfold joinRSORoute
  repeat' split
  all_goals first
    | exact Or.inl rfl
    | (apply caughtAlike_of_errors <;> assumption)
    | (exfalso; simp_all)

theorem createRSO_caughtAlike (st : Store) (c : Credential) (name : String)
    (university_id rso_admin : Nat) (f g : Faults) (h : SameFailures f g) :
    CaughtAlike st f g (createRSO st c name university_id rso_admin f)
      (createRSO st c name university_id rso_admin g) := by
  have h0 := h 0
  have h1 := h 1
  have h2 := h 2
  have h3 := h 3
  have h4 := h 4
  unfold createRSO
  dsimp only
  repeat' split
  all_goals first
    | exact Or.inl rfl
    | (apply caughtAlike_of_errors <;> assumption)
    | (exfalso; simp_all)

theorem createEvent_caughtAlike (st : Store) (c : Credential) (body : EventBody) (f g : Faults)
    (h : SameFailures f g) :
    CaughtAlike st f g (createEvent st c body f) (createEvent st c body g) := by
  have h0 := h 0
  unfold createEvent
  dsimp only
  repeat' split
  all_goals first
    | exact Or.inl rfl
    | (apply caughtAlike_of_errors <;> assumption)
    | (exfalso; simp_all)

theorem updateEvent_caughtAlike (st : Store) (c : Credential) (event_id : Nat)
    (updates : Event → Event) (f g : Faults) (h : SameFailures f g) :
    CaughtAlike st f g (updateEvent st c event_id updates f)
      (updateEvent st c event_id updates g) := by
  have h0 := h 0
  have h1 := h 1
  unfold updateEvent
  dsimp only
  repeat' split
  all_goals first
    | exact Or.inl rfl
    | (apply caughtAlike_of_errors <;> assumption)
    | (exfalso; simp_all)

theorem addComment_caughtAlike (st : Store) (c : Credential) (event_id : Option Nat)
    (comment : String) (user_id : Nat) (f g : Faults) (h : SameFailures f g) :
    CaughtAlike st f g (addComment st c event_id comment user_id f)
      (addComment st c event_id comment user_id g) := by
  have h0 := h 0
  unfold addComment
  dsimp only
  repeat' split
  all_goals first
    | exact Or.inl rfl
    | (apply caughtAlike_of_errors <;> assumption)
    | (exfalso; simp_all)

theorem updateComment_caughtAlike (st : Store) (c : Credential) (comment_id : Nat)
    (comment : String) (user_id : Option Nat) (f g : Faults) (h : SameFailures f g) :
    CaughtAlike st f g (updateComment st c comment_id comment user_id f)
      (updateComment st c comment_id comment user_id g) := by
  have h0 := h 0
  have h1 := h 1
  unfold updateComment
  repeat' split
  all_goals first
    | exact Or.inl rfl
    | (apply caughtAlike_of_errors <;> assumption)
    | (exfalso; simp_all)

theorem deleteComment_caughtAlike (st : Store) (c : Credential) (comment_id : Nat)
    (user_id : Option Nat) (f g : Faults) (h : SameFailures f g) :
    CaughtAlike st f g (deleteComment st c comment_id user_id f)
      (deleteComment st c comment_id user_id g) := by
  have h0 := h 0
  have h1 := h 1
  unfold deleteComment
  repeat' split
  all_goals first
    | exact Or.inl rfl
    | (apply caughtAlike_of_errors <;> assumption)
    | (exfalso; simp_all)

theorem addOrUpdateRating_caughtAlike (st : Store) (c : Credential)
    (event_id user_id : Option Nat) (rating : Option Int) (f g : Faults)
    (h : SameFailures f g) :
    CaughtAlike st f g (addOrUpdateRating st c event_id user_id rating f)
      (addOrUpdateRating st c event_id user_id rating g) := by
  have h0 := h 0
  unfold addOrUpdateRating
  repeat' split
  all_goals first
    | exact Or.inl rfl
    | (apply caughtAlike_of_errors <;> assumption)
    | (exfalso; simp_all)

theorem addBuildings_caughtAlike (st : Store) (c : Credential)
    (buildings : Option (List BuildingBody)) (university_id : Option Nat) (f g : Faults)
    (h : SameFailures f g) :
    CaughtAlike st f g (addBuildings st c buildings university_id f)
      (addBuildings st c buildings university_id g) := by
  have h0 := h 0
  have h1 := h 1
  unfold addBuildings
  dsimp only
  repeat' split
  all_goals first
    | exact Or.inl rfl
    | (apply caughtAlike_of_errors <;> assumption)
    | (exfalso; simp_all)

theorem login_caughtAlike (lib : Library) (st : Store) (c : Credential)
    (email password : String) (f g : Faults) (h : SameFailures f g) :
    CaughtAlike st f g (login lib st c email password f, st)
      (login lib st c email password g, st) := by
  have h0 := h 0
  have h1 := h 1
  have h2 := h 2
  unfold login
  repeat' split
  all_goals first
    | exact Or.inl rfl
    | (apply caughtAlike_of_errors <;> assumption)
    | (exfalso; simp_all)

theorem getUserId_caughtAlike (st : Store) (c : Credential) (email : String) (f g : Faults)
    (h : SameFailures f g) :
    CaughtAlike st f g (getUserId st c email f, st) (getUserId st c email g, st) := by
  have h0 := h 0
  unfold getUserId
  repeat' split
  all_goals first
    | exact Or.inl rfl
    | (apply caughtAlike_of_errors <;> assumption)
    | (exfalso; simp_all)

theorem getUser_caughtAlike (st : Store) (c : Credential) (user_id : Option Nat) (f g : Faults)
    (h : SameFailures f g) :
    CaughtAlike st f g (getUser st c user_id f, st) (getUser st c user_id g, st) := by
  have h0 := h 0
  unfold getUser
  repeat' split
  all_goals first
    | exact Or.inl rfl
    | (apply caughtAlike_of_errors <;> assumption)
    | (exfalso; simp_all)

theorem getUserList_caughtAlike (st : Store) (c : Credential) (f g : Faults)
    (h : SameFailures f g) :
    CaughtAlike st f g (getUserList st c f, st) (getUserList st c g, st) := by
  have h0 := h 0
  unfold getUserList
  repeat' split
  all_goals first
    | exact Or.inl rfl
    | (apply caughtAlike_of_errors <;> assumption)
    | (exfalso; simp_all)

theorem getUniversityList_caughtAlike (status : String) (st : Store) (c : Credential)
    (f g : Faults) (h : SameFailures f g) :
    CaughtAlike st f g (getUniversityList status st c f, st)
      (getUniversityList status st c g, st) := by
  have h0 := h 0
  unfold getUniversityList
  repeat' split
  all_goals first
    | exact Or.inl rfl
    | (apply caughtAlike_of_errors <;> assumption)
    | (exfalso; simp_all)

theorem getRSOList_caughtAlike (status : String) (st : Store) (c : Credential) (f g : Faults)
    (h : SameFailures f g) :
    CaughtAlike st f g (getRSOList status st c f, st) (getRSOList status st c g, st) := by
  have h0 := h 0
  unfold getRSOList
  repeat' split
  all_goals first
    | exact Or.inl rfl
    | (apply caughtAlike_of_errors <;> assumption)
    | (exfalso; simp_all)

theorem getStudentList_caughtAlike (status : String) (st : Store) (c : Credential)
    (f g : Faults) (h : SameFailures f g) :
    CaughtAlike st f g (getStudentList status st c f, st) (getStudentList status st c g, st) := by
  have h0 := h 0
  unfold getStudentList
  repeat' split
  all_goals first
    | exact Or.inl rfl
    | (apply caughtAlike_of_errors <;> assumption)
    | (exfalso; simp_all)

theorem getStudentStatus_caughtAlike (st : Store) (c : Credential) (user_id : Option Nat)
    (f g : Faults) (h : SameFailures f g) :
    CaughtAlike st f g (getStudentStatus st c user_id f, st)
      (getStudentStatus st c user_id g, st) := by
  have h0 := h 0
  unfold getStudentStatus
  repeat' split
  all_goals first
    | exact Or.inl rfl
    | (apply caughtAlike_of_errors <;> assumption)
    | (exfalso; simp_all)

theorem getUniId_caughtAlike (st : Store) (c : Credential) (user_id : Option Nat) (f g : Faults)
    (h : SameFailures f g) :
    CaughtAlike st f g (getUniId st c user_id f, st) (getUniId st c user_id g, st) := by
  have h0 := h 0
  unfold getUniId
  repeat' split
  all_goals first
    | exact Or.inl rfl
    | (apply caughtAlike_of_errors <;> assumption)
    | (exfalso; simp_all)

theorem getRSOStatus_caughtAlike (st : Store) (c : Credential) (rso_id : Option Nat)
    (f g : Faults) (h : SameFailures f g) :
    CaughtAlike st f g (getRSOStatus st c rso_id f, st) (getRSOStatus st c rso_id g, st) := by
  have h0 := h 0
  unfold getRSOStatus
  repeat' split
  all_goals first
    | exact Or.inl rfl
    | (apply caughtAlike_of_errors <;> assumption)
    | (exfalso; simp_all)

theorem getRSOId_caughtAlike (st : Store) (c : Credential) (user_id : Option Nat) (f g : Faults)
    (h : SameFailures f g) :
    CaughtAlike st f g (getRSOId st c user_id f, st) (getRSOId st c user_id g, st) := by
  have h0 := h 0
  unfold getRSOId
  repeat' split
  all_goals first
    | exact Or.inl rfl
    | (apply caughtAlike_of_errors <;> assumption)
    | (exfalso; simp_all)

theorem getEventList_caughtAlike (st : Store) (c : Credential)
    (university_id rso_id : Option Nat) (f g : Faults) (h : SameFailures f g) :
    CaughtAlike st f g (getEventList st c university_id rso_id f, st)
      (getEventList st c university_id rso_id g, st) := by
  have h0 := h 0
  unfold getEventList
  dsimp only
  repeat' split
  all_goals first
    | exact Or.inl rfl
    | (apply caughtAlike_of_errors <;> assumption)
    | (exfalso; simp_all)

theorem getUniLevelEventsRoute_caughtAlike (st : Store) (c : Credential) (user_id : Nat)
    (f g : Faults) (h : SameFailures f g) :
    CaughtAlike st f g (getUniLevelEventsRoute st c user_id f, st)
      (getUniLevelEventsRoute st c user_id g, st) := by
  have h0 := h 0
  unfold getUniLevelEventsRoute
  repeat' split
  all_goals first
    | exact Or.inl rfl
    | (apply caughtAlike_of_errors <;> assumption)
    | (exfalso; simp_all)

theorem getRSOLevelEventsRoute_caughtAlike (st : Store) (c : Credential) (user_id : Nat)
    (f g : Faults) (h : SameFailures f g) :
    CaughtAlike st f g (getRSOLevelEventsRoute st c user_id f, st)
      (getRSOLevelEventsRoute st c user_id g, st) := by
  have h0 := h 0
  have h1 := h 1
  unfold getRSOLevelEventsRoute
  dsimp only
  repeat' split
  all_goals first
    | exact Or.inl rfl
    | (apply caughtAlike_of_errors <;> assumption)
    | (exfalso; simp_all)

theorem getStudentLevelEventsRoute_caughtAlike (st : Store) (c : Credential) (user_id : Nat)
    (f g : Faults) (h : SameFailures f g) :
    CaughtAlike st f g (getStudentLevelEventsRoute st c user_id f, st)
      (getStudentLevelEventsRoute st c user_id g, st) := by
  have h0 := h 0
  have h1 := h 1
  unfold getStudentLevelEventsRoute
  repeat' split
  all_goals first
    | exact Or.inl rfl
    | (apply caughtAlike_of_errors <;> assumption)
    | (exfalso; simp_all)

theorem getCommentList_caughtAlike (st : Store) (c : Credential) (event_id : Option Nat)
    (f g : Faults) (h : SameFailures f g) :
    CaughtAlike st f g (getCommentList st c event_id f, st)
      (getCommentList st c event_id g, st) := by
  have h0 := h 0
  unfold getCommentList
  repeat' split
  all_goals first
    | exact Or.inl rfl
    | (apply caughtAlike_of_errors <;> assumption)
    | (exfalso; simp_all)

theorem getAverage_caughtAlike (st : Store) (c : Credential) (event_id : Nat) (f g : Faults)
    (h : SameFailures f g) :
    CaughtAlike st f g (getAverage st c event_id f, st) (getAverage st c event_id g, st) := by
  have h0 := h 0
  unfold getAverage
  repeat' split
  all_goals first
    | exact Or.inl rfl
    | (apply caughtAlike_of_errors <;> assumption)
    | (exfalso; simp_all)

theorem getUserRating_caughtAlike (st : Store) (c : Credential) (event_id user_id : Nat)
    (f g : Faults) (h : SameFailures f g) :
    CaughtAlike st f g (getUserRating st c event_id user_id f, st)
      (getUserRating st c event_id user_id g, st) := by
  have h0 := h 0
  unfold getUserRating
  dsimp only
  repeat' split
  all_goals first
    | exact Or.inl rfl
    | (apply caughtAlike_of_errors <;> assumption)
    | (exfalso; simp_all)

theorem serve_caughtAlike (lib : Library) (st : Store) (c : Credential) (req : Request)
    (f g : Faults) (h : SameFailures f g) :
    CaughtAlike st f g (serve lib st c f req) (serve lib st c g req) := by
  cases req with
  | welcome => exact Or.inl rfl
  | login email password => exact login_caughtAlike lib st c email password f g h
  | register email password role =>
    exact register_caughtAlike lib st c email password role f g h
  | getUserId email => exact getUserId_caughtAlike st c email f g h
  | getUser user_id => exact getUser_caughtAlike st c user_id f g h
  | getUserList => exact getUserList_caughtAlike st c f g h
  | updateUser user_id email password =>
    exact updateUser_caughtAlike lib st c user_id email password f g h
  | deleteUser user_id => exact deleteUser_caughtAlike st c user_id f g h
  | createUniversity name location description num_students website user_id =>
    exact createUniversity_caughtAlike st c name location description num_students website
      user_id f g h
  | getActiveUniversityList => exact getUniversityList_caughtAlike "active" st c f g h
  | getPendingUniversityList => exact getUniversityList_caughtAlike "pending" st c f g h
  | getActiveRSOList => exact getRSOList_caughtAlike "active" st c f g h
  | getPendingRSOList => exact getRSOList_caughtAlike "pending" st c f g h
  | getInactiveRSOList => exact getRSOList_caughtAlike "inactive" st c f g h
  | approveRSO rso_id => exact approveRSORoute_caughtAlike st c rso_id f g h
  | getActiveStudentList => exact getStudentList_caughtAlike "active" st c f g h
  | getPendingStudentList => exact getStudentList_caughtAlike "pending" st c f g h
  | approveStudent student_id => exact approveStudentRoute_caughtAlike st c student_id f g h
  | createStudent first_name last_name university_id user_id =>
    exact createStudent_caughtAlike st c first_name last_name university_id user_id f g h
  | getStudentStatus user_id => exact getStudentStatus_caughtAlike st c user_id f g h
  | joinRSO user_id rso_id => exact joinRSORoute_caughtAlike st c user_id rso_id f g h
  | getUniId user_id => exact getUniId_caughtAlike st c user_id f g h
  | createRSO name university_id rso_admin =>
    exact createRSO_caughtAlike st c name university_id rso_admin f g h
  | getRSOStatus rso_id => exact getRSOStatus_caughtAlike st c rso_id f g h
  | getRSOId user_id => exact getRSOId_caughtAlike st c user_id f g h
  | createEvent body => exact createEvent_caughtAlike st c body f g h
  | getEventList university_id rso_id =>
    exact getEventList_caughtAlike st c university_id rso_id f g h
  | getUniLevelEvents user_id => exact getUniLevelEventsRoute_caughtAlike st c user_id f g h
  | getRSOLevelEvents user_id => exact getRSOLevelEventsRoute_caughtAlike st c user_id f g h
  | getStudentLevelEvents user_id =>
    exact getStudentLevelEventsRoute_caughtAlike st c user_id f g h
  | updateEvent event_id updates => exact updateEvent_caughtAlike st c event_id updates f g h
  | addComment event_id comment user_id =>
    exact addComment_caughtAlike st c event_id comment user_id f g h
  | updateComment comment_id comment user_id =>
    exact updateComment_caughtAlike st c comment_id comment user_id f g h
  | deleteComment comment_id user_id =>
    exact deleteComment_caughtAlike st c comment_id user_id f g h
  | getCommentList event_id => exact getCommentList_caughtAlike st c event_id f g h
  | addOrUpdateRating event_id user_id rating =>
    exact addOrUpdateRating_caughtAlike st c event_id user_id rating f g h
  | getAverage event_id => exact getAverage_caughtAlike st c event_id f g h
  | getUserRating event_id user_id =>
    exact getUserRating_caughtAlike st c event_id user_id f g h
  | addBuildings buildings university_id =>
    exact addBuildings_caughtAlike st c buildings university_id f g h

theorem demoRefused_sameFailures : SameFailures demoRefusedLocal demoRefusedRemote := by
  intro n
  unfold demoRefusedLocal demoRefusedRemote
  split <;> rfl

/-- C26 does not hold as stated: `approveRSO` on `demoCampus`, served twice with call 0
to the store refused, the two errors differing in their text only.  The `catch` of the
handler answers 500 with `error.message`, so each body carries the text of its error, the
two bodies differ, and neither is the fixed message of `errorHandler`. -/
theorem store_error_text_reaches_response :
    SameFailures demoRefusedLocal demoRefusedRemote ∧
      serve demoLibrary demoCampus .absent demoRefusedLocal (.approveRSO 1) =
        (⟨500, .error "connect ECONNREFUSED 127.0.0.1:3306"⟩, demoCampus) ∧
      serve demoLibrary demoCampus .absent demoRefusedRemote (.approveRSO 1) =
        (⟨500, .error "connect ECONNREFUSED 10.0.0.5:3306"⟩, demoCampus) ∧
      (serve demoLibrary demoCampus .absent demoRefusedLocal (.approveRSO 1)).1 ≠
        (serve demoLibrary demoCampus .absent demoRefusedRemote (.approveRSO 1)).1 ∧
      (serve demoLibrary demoCampus .absent demoRefusedLocal (.approveRSO 1)).1 ≠
        errorHandler :=
  ⟨demoRefused_sameFailures, rfl, rfl, by decide, by decide⟩

theorem welcome_catches (lib : Library) (st : Store) (c : Credential) (f : Faults) :
    CatchesFailures lib st c .welcome f := by
  exact ⟨fun n _ hlt _ _ => absurd hlt (Nat.not_lt_zero n), fun _ => rfl⟩

theorem login_catches (lib : Library) (st : Store) (c : Credential) (email password : String)
    (f : Faults) :
    CatchesFailures lib st c (.login email password) f := by
  refine ⟨fun n err hlt hf hfirst => ?_, fun hnone => ?_⟩
  · have e0 := hfirst 0
    have e1 := hfirst 1
    have e2 := hfirst 2
    have e3 := hfirst 3
    simp only [serve, calls, catchResponse] at hlt ⊢
    simp only [login]
    rcases n with _ | _ | _ | _ | _ | n <;> simp at e0 e1 e2 e3 <;> repeat' split
    all_goals first
      | omega
      | (simp_all; omega)
      | simp_all
  · have e0 := hnone 0
    have e1 := hnone 1
    have e2 := hnone 2
    have e3 := hnone 3
    have e4 := hnone 4
    simp only [serve, calls] at e0 e1 e2 e3 e4 ⊢
    simp only [login, noFault]
    repeat' split
    all_goals simp_all

theorem register_catches (lib : Library) (st : Store) (c : Credential)
    (email password role : String) (f : Faults) :
    CatchesFailures lib st c (.register email password role) f := by
  refine ⟨fun n err hlt hf _ => ?_, fun hnone => ?_⟩
  · simp only [serve, calls, catchResponse] at hlt ⊢
    simp only [register]
    generalize ((if lib.isEmail email then [] else ["email"]) ++
      (if isLength 6 password then [] else ["password"]) ++
      (if role ∈ ["admin", "university", "rso", "student"] then [] else ["role"]) :
      List String) = errors at hlt ⊢
    cases errors with
    | cons e es => exact absurd hlt (Nat.not_lt_zero n)
    | nil =>
      have hn : n = 0 := by
        simp only [List.isEmpty, Bool.not_true, Bool.false_eq_true, if_false] at hlt
        omega
      subst hn
      simp only [List.isEmpty, Bool.not_true, Bool.false_eq_true, if_false, hf]
      split <;> rfl
  · have e0 := hnone 0
    simp only [serve, calls] at e0 ⊢
    simp only [register, noFault]
    generalize ((if lib.isEmail email then [] else ["email"]) ++
      (if isLength 6 password then [] else ["password"]) ++
      (if role ∈ ["admin", "university", "rso", "student"] then [] else ["role"]) :
      List String) = errors at e0 ⊢
    cases errors with
    | cons e es => rfl
    | nil =>
      simp only [List.isEmpty, Bool.not_true, Bool.false_eq_true, if_false] at e0 ⊢
      rw [e0 (by omega)]

theorem getUserId_catches (lib : Library) (st : Store) (c : Credential) (email : String)
    (f : Faults) :
    CatchesFailures lib st c (.getUserId email) f := by
  refine ⟨fun n err hlt hf hfirst => ?_, fun hnone => ?_⟩
  · have e0 := hfirst 0
    have e1 := hfirst 1
    have e2 := hfirst 2
    have e3 := hfirst 3
    simp only [serve, calls, catchResponse] at hlt ⊢
    simp only [getUserId]
    rcases n with _ | _ | _ | _ | _ | n <;> simp at e0 e1 e2 e3 <;> repeat' split
    all_goals simp_all
  · have e0 := hnone 0
    have e1 := hnone 1
    have e2 := hnone 2
    have e3 := hnone 3
    have e4 := hnone 4
    simp only [serve, calls] at e0 e1 e2 e3 e4 ⊢
    simp only [getUserId, noFault]
    repeat' split
    all_goals simp_all

theorem getUser_catches (lib : Library) (st : Store) (c : Credential) (user_id : Option Nat)
    (f : Faults) :
    CatchesFailures lib st c (.getUser user_id) f := by
  refine ⟨fun n err hlt hf hfirst => ?_, fun hnone => ?_⟩
  · have e0 := hfirst 0
    have e1 := hfirst 1
    have e2 := hfirst 2
    have e3 := hfirst 3
    simp only [serve, calls, catchResponse] at hlt ⊢
    simp only [getUser]
    rcases n with _ | _ | _ | _ | _ | n <;> simp at e0 e1 e2 e3 <;> repeat' split
    all_goals simp_all
  · have e0 := hnone 0
    have e1 := hnone 1
    have e2 := hnone 2
    have e3 := hnone 3
    have e4 := hnone 4
    simp only [serve, calls] at e0 e1 e2 e3 e4 ⊢
    simp only [getUser, noFault]
    repeat' split
    all_goals simp_all

theorem getUserList_catches (lib : Library) (st : Store) (c : Credential) (f : Faults) :
    CatchesFailures lib st c .getUserList f := by
  refine ⟨fun n err hlt hf hfirst => ?_, fun hnone => ?_⟩
  · have e0 := hfirst 0
    have e1 := hfirst 1
    have e2 := hfirst 2
    have e3 := hfirst 3
    simp only [serve, calls, catchResponse] at hlt ⊢
    simp only [getUserList]
    rcases n with _ | _ | _ | _ | _ | n <;> simp at e0 e1 e2 e3 <;> repeat' split
    all_goals simp_all
  · have e0 := hnone 0
    have e1 := hnone 1
    have e2 := hnone 2
    have e3 := hnone 3
    have e4 := hnone 4
    simp only [serve, calls] at e0 e1 e2 e3 e4 ⊢
    simp only [getUserList, noFault]
    repeat' split
    all_goals simp_all

theorem updateUser_catches (lib : Library) (st : Store) (c : Credential) (user_id : Nat)
    (email password : String) (f : Faults) :
    CatchesFailures lib st c (.updateUser user_id email password) f := by
  refine ⟨fun n err hlt hf hfirst => ?_, fun hnone => ?_⟩
  · have e0 := hfirst 0
    have e1 := hfirst 1
    have e2 := hfirst 2
    have e3 := hfirst 3
    simp only [serve, calls, catchResponse] at hlt ⊢
    simp only [updateUser]
    rcases n with _ | _ | _ | _ | _ | n <;> simp at e0 e1 e2 e3 <;> repeat' split
    all_goals first
      | omega
      | (simp_all; omega)
      | simp_all
  · have e0 := hnone 0
    have e1 := hnone 1
    have e2 := hnone 2
    have e3 := hnone 3
    have e4 := hnone 4
    simp only [serve, calls] at e0 e1 e2 e3 e4 ⊢
    simp only [updateUser, noFault]
    repeat' split
    all_goals simp_all

theorem deleteUser_catches (lib : Library) (st : Store) (c : Credential) (user_id : Option Nat)
    (f : Faults) :
    CatchesFailures lib st c (.deleteUser user_id) f := by
  refine ⟨fun n err hlt hf hfirst => ?_, fun hnone => ?_⟩
  · have e0 := hfirst 0
    have e1 := hfirst 1
    have e2 := hfirst 2
    have e3 := hfirst 3
    simp only [serve, calls, catchResponse] at hlt ⊢
    simp only [deleteUser]
    rcases n with _ | _ | _ | _ | _ | n <;> simp at e0 e1 e2 e3 <;> repeat' split
    all_goals first
      | omega
      | (simp_all; omega)
      | simp_all
  · have e0 := hnone 0
    have e1 := hnone 1
    have e2 := hnone 2
    have e3 := hnone 3
    have e4 := hnone 4
    simp only [serve, calls] at e0 e1 e2 e3 e4 ⊢
    simp only [deleteUser, noFault]
    repeat' split
    all_goals simp_all

theorem createUniversity_catches (lib : Library) (st : Store) (c : Credential)
    (name location description : String) (num_students : Nat) (website : String) (user_id : Nat)
    (f : Faults) :
    CatchesFailures lib st c (.createUniversity name location description num_students website user_id) f := by
  refine ⟨fun n err hlt hf hfirst => ?_, fun hnone => ?_⟩
  · have e0 := hfirst 0
    have e1 := hfirst 1
    have e2 := hfirst 2
    have e3 := hfirst 3
    simp only [serve, calls, catchResponse] at hlt ⊢
    simp only [createUniversity]
    rcases n with _ | _ | _ | _ | _ | n <;> simp at e0 e1 e2 e3 <;> repeat' split
    all_goals simp_all
  · have e0 := hnone 0
    have e1 := hnone 1
    have e2 := hnone 2
    have e3 := hnone 3
    have e4 := hnone 4
    simp only [serve, calls] at e0 e1 e2 e3 e4 ⊢
    simp only [createUniversity, noFault]
    repeat' split
    all_goals simp_all

theorem getActiveUniversityList_catches (lib : Library) (st : Store) (c : Credential)
    (f : Faults) :
    CatchesFailures lib st c .getActiveUniversityList f := by
  refine ⟨fun n err hlt hf hfirst => ?_, fun hnone => ?_⟩
  · have e0 := hfirst 0
    have e1 := hfirst 1
    have e2 := hfirst 2
    have e3 := hfirst 3
    simp only [serve, calls, catchResponse] at hlt ⊢
    simp only [getUniversityList]
    rcases n with _ | _ | _ | _ | _ | n <;> simp at e0 e1 e2 e3 <;> repeat' split
    all_goals simp_all
  · have e0 := hnone 0
    have e1 := hnone 1
    have e2 := hnone 2
    have e3 := hnone 3
    have e4 := hnone 4
    simp only [serve, calls] at e0 e1 e2 e3 e4 ⊢
    simp only [getUniversityList, noFault]
    repeat' split
    all_goals simp_all

theorem getPendingUniversityList_catches (lib : Library) (st : Store) (c : Credential)
    (f : Faults) :
    CatchesFailures lib st c .getPendingUniversityList f := by
  refine ⟨fun n err hlt hf hfirst => ?_, fun hnone => ?_⟩
  · have e0 := hfirst 0
    have e1 := hfirst 1
    have e2 := hfirst 2
    have e3 := hfirst 3
    simp only [serve, calls, catchResponse] at hlt ⊢
    simp only [getUniversityList]
    rcases n with _ | _ | _ | _ | _ | n <;> simp at e0 e1 e2 e3 <;> repeat' split
    all_goals simp_all
  · have e0 := hnone 0
    have e1 := hnone 1
    have e2 := hnone 2
    have e3 := hnone 3
    have e4 := hnone 4
    simp only [serve, calls] at e0 e1 e2 e3 e4 ⊢
    simp only [getUniversityList, noFault]
    repeat' split
    all_goals simp_all

theorem getActiveRSOList_catches (lib : Library) (st : Store) (c : Credential) (f : Faults) :
    CatchesFailures lib st c .getActiveRSOList f := by
  refine ⟨fun n err hlt hf hfirst => ?_, fun hnone => ?_⟩
  · have e0 := hfirst 0
    have e1 := hfirst 1
    have e2 := hfirst 2
    have e3 := hfirst 3
    simp only [serve, calls, catchResponse] at hlt ⊢
    simp only [getRSOList]
    rcases n with _ | _ | _ | _ | _ | n <;> simp at e0 e1 e2 e3 <;> repeat' split
    all_goals simp_all
  · have e0 := hnone 0
    have e1 := hnone 1
    have e2 := hnone 2
    have e3 := hnone 3
    have e4 := hnone 4
    simp only [serve, calls] at e0 e1 e2 e3 e4 ⊢
    simp only [getRSOList, noFault]
    repeat' split
    all_goals simp_all

theorem getPendingRSOList_catches (lib : Library) (st : Store) (c : Credential) (f : Faults) :
    CatchesFailures lib st c .getPendingRSOList f := by
  refine ⟨fun n err hlt hf hfirst => ?_, fun hnone => ?_⟩
  · have e0 := hfirst 0
    have e1 := hfirst 1
    have e2 := hfirst 2
    have e3 := hfirst 3
    simp only [serve, calls, catchResponse] at hlt ⊢
    simp only [getRSOList]
    rcases n with _ | _ | _ | _ | _ | n <;> simp at e0 e1 e2 e3 <;> repeat' split
    all_goals simp_all
  · have e0 := hnone 0
    have e1 := hnone 1
    have e2 := hnone 2
    have e3 := hnone 3
    have e4 := hnone 4
    simp only [serve, calls] at e0 e1 e2 e3 e4 ⊢
    simp only [getRSOList, noFault]
    repeat' split
    all_goals simp_all

theorem getInactiveRSOList_catches (lib : Library) (st : Store) (c : Credential) (f : Faults) :
    CatchesFailures lib st c .getInactiveRSOList f := by
  refine ⟨fun n err hlt hf hfirst => ?_, fun hnone => ?_⟩
  · have e0 := hfirst 0
    have e1 := hfirst 1
    have e2 := hfirst 2
    have e3 := hfirst 3
    simp only [serve, calls, catchResponse] at hlt ⊢
    simp only [getRSOList]
    rcases n with _ | _ | _ | _ | _ | n <;> simp at e0 e1 e2 e3 <;> repeat' split
    all_goals simp_all
  · have e0 := hnone 0
    have e1 := hnone 1
    have e2 := hnone 2
    have e3 := hnone 3
    have e4 := hnone 4
    simp only [serve, calls] at e0 e1 e2 e3 e4 ⊢
    simp only [getRSOList, noFault]
    repeat' split
    all_goals simp_all

theorem approveRSO_catches (lib : Library) (st : Store) (c : Credential) (rso_id : Nat)
    (f : Faults) :
    CatchesFailures lib st c (.approveRSO rso_id) f := by
  refine ⟨fun n err hlt hf hfirst => ?_, fun hnone => ?_⟩
  · have e0 := hfirst 0
    have e1 := hfirst 1
    have e2 := hfirst 2
    have e3 := hfirst 3
    simp only [serve, calls, catchResponse] at hlt ⊢
    simp only [approveRSORoute]
    rcases n with _ | _ | _ | _ | _ | n <;> simp at e0 e1 e2 e3 <;> repeat' split
    all_goals simp_all
  · have e0 := hnone 0
    have e1 := hnone 1
    have e2 := hnone 2
    have e3 := hnone 3
    have e4 := hnone 4
    simp only [serve, calls] at e0 e1 e2 e3 e4 ⊢
    simp only [approveRSORoute, noFault]
    repeat' split
    all_goals simp_all

theorem getActiveStudentList_catches (lib : Library) (st : Store) (c : Credential)
    (f : Faults) :
    CatchesFailures lib st c .getActiveStudentList f := by
  refine ⟨fun n err hlt hf hfirst => ?_, fun hnone => ?_⟩
  · have e0 := hfirst 0
    have e1 := hfirst 1
    have e2 := hfirst 2
    have e3 := hfirst 3
    simp only [serve, calls, catchResponse] at hlt ⊢
    simp only [getStudentList]
    rcases n with _ | _ | _ | _ | _ | n <;> simp at e0 e1 e2 e3 <;> repeat' split
    all_goals simp_all
  · have e0 := hnone 0
    have e1 := hnone 1
    have e2 := hnone 2
    have e3 := hnone 3
    have e4 := hnone 4
    simp only [serve, calls] at e0 e1 e2 e3 e4 ⊢
    simp only [getStudentList, noFault]
    repeat' split
    all_goals simp_all

theorem getPendingStudentList_catches (lib : Library) (st : Store) (c : Credential)
    (f : Faults) :
    CatchesFailures lib st c .getPendingStudentList f := by
  refine ⟨fun n err hlt hf hfirst => ?_, fun hnone => ?_⟩
  · have e0 := hfirst 0
    have e1 := hfirst 1
    have e2 := hfirst 2
    have e3 := hfirst 3
    simp only [serve, calls, catchResponse] at hlt ⊢
    simp only [getStudentList]
    rcases n with _ | _ | _ | _ | _ | n <;> simp at e0 e1 e2 e3 <;> repeat' split
    all_goals simp_all
  · have e0 := hnone 0
    have e1 := hnone 1
    have e2 := hnone 2
    have e3 := hnone 3
    have e4 := hnone 4
    simp only [serve, calls] at e0 e1 e2 e3 e4 ⊢
    simp only [getStudentList, noFault]
    repeat' split
    all_goals simp_all

theorem approveStudent_catches (lib : Library) (st : Store) (c : Credential) (student_id : Nat)
    (f : Faults) :
    CatchesFailures lib st c (.approveStudent student_id) f := by
  refine ⟨fun n err hlt hf hfirst => ?_, fun hnone => ?_⟩
  · have e0 := hfirst 0
    have e1 := hfirst 1
    have e2 := hfirst 2
    have e3 := hfirst 3
    simp only [serve, calls, catchResponse] at hlt ⊢
    simp only [approveStudentRoute]
    rcases n with _ | _ | _ | _ | _ | n <;> simp at e0 e1 e2 e3 <;> repeat' split
    all_goals simp_all
  · have e0 := hnone 0
    have e1 := hnone 1
    have e2 := hnone 2
    have e3 := hnone 3
    have e4 := hnone 4
    simp only [serve, calls] at e0 e1 e2 e3 e4 ⊢
    simp only [approveStudentRoute, noFault]
    repeat' split
    all_goals simp_all

theorem createStudent_catches (lib : Library) (st : Store) (c : Credential)
    (first_name last_name : String) (university_id user_id : Option Nat) (f : Faults) :
    CatchesFailures lib st c (.createStudent first_name last_name university_id user_id) f := by
  refine ⟨fun n err hlt hf hfirst => ?_, fun hnone => ?_⟩
  · have e0 := hfirst 0
    simp only [serve, calls, catchResponse] at hlt ⊢
    simp only [createStudent]
    rcases n with _ | n <;> cases university_id <;> cases user_id <;> repeat' split
    all_goals simp_all [falsy]
  · have e0 := hnone 0
    simp only [serve, calls] at e0 ⊢
    simp only [createStudent, noFault]
    cases university_id <;> cases user_id <;> repeat' split
    all_goals simp_all [falsy]

theorem getStudentStatus_catches (lib : Library) (st : Store) (c : Credential)
    (user_id : Option Nat) (f : Faults) :
    CatchesFailures lib st c (.getStudentStatus user_id) f := by
  refine ⟨fun n err hlt hf hfirst => ?_, fun hnone => ?_⟩
  · have e0 := hfirst 0
    have e1 := hfirst 1
    have e2 := hfirst 2
    have e3 := hfirst 3
    simp only [serve, calls, catchResponse] at hlt ⊢
    simp only [getStudentStatus]
    rcases n with _ | _ | _ | _ | _ | n <;> simp at e0 e1 e2 e3 <;> repeat' split
    all_goals simp_all
  · have e0 := hnone 0
    have e1 := hnone 1
    have e2 := hnone 2
    have e3 := hnone 3
    have e4 := hnone 4
    simp only [serve, calls] at e0 e1 e2 e3 e4 ⊢
    simp only [getStudentStatus, noFault]
    repeat' split
    all_goals simp_all

theorem joinRSO_catches (lib : Library) (st : Store) (c : Credential)
    (user_id rso_id : Option Nat) (f : Faults) :
    CatchesFailures lib st c (.joinRSO user_id rso_id) f := by
  refine ⟨fun n err hlt hf hfirst => ?_, fun hnone => ?_⟩
  · have e0 := hfirst 0
    have e1 := hfirst 1
    have e2 := hfirst 2
    have e3 := hfirst 3
    simp only [serve, calls, catchResponse] at hlt ⊢
    simp only [joinRSORoute]
    rcases n with _ | _ | _ | _ | _ | n <;> simp at e0 e1 e2 e3 <;> repeat' split
    all_goals simp_all
  · have e0 := hnone 0
    have e1 := hnone 1
    have e2 := hnone 2
    have e3 := hnone 3
    have e4 := hnone 4
    simp only [serve, calls] at e0 e1 e2 e3 e4 ⊢
    simp only [joinRSORoute, noFault]
    repeat' split
    all_goals simp_all

theorem getUniId_catches (lib : Library) (st : Store) (c : Credential) (user_id : Option Nat)
    (f : Faults) :
    CatchesFailures lib st c (.getUniId user_id) f := by
  refine ⟨fun n err hlt hf hfirst => ?_, fun hnone => ?_⟩
  · have e0 := hfirst 0
    have e1 := hfirst 1
    have e2 := hfirst 2
    have e3 := hfirst 3
    simp only [serve, calls, catchResponse] at hlt ⊢
    simp only [getUniId]
    rcases n with _ | _ | _ | _ | _ | n <;> simp at e0 e1 e2 e3 <;> repeat' split
    all_goals simp_all
  · have e0 := hnone 0
    have e1 := hnone 1
    have e2 := hnone 2
    have e3 := hnone 3
    have e4 := hnone 4
    simp only [serve, calls] at e0 e1 e2 e3 e4 ⊢
    simp only [getUniId, noFault]
    repeat' split
    all_goals simp_all

theorem createRSO_catches (lib : Library) (st : Store) (c : Credential) (name : String)
    (university_id rso_admin : Nat) (f : Faults) :
    CatchesFailures lib st c (.createRSO name university_id rso_admin) f := by
  refine ⟨fun n err hlt hf hfirst => ?_, fun hnone => ?_⟩
  · have e0 := hfirst 0
    have e1 := hfirst 1
    have e2 := hfirst 2
    have e3 := hfirst 3
    simp only [serve, calls, catchResponse] at hlt ⊢
    simp only [createRSO]
    rcases n with _ | _ | _ | _ | _ | n <;> simp at e0 e1 e2 e3 <;> repeat' split
    all_goals first
      | omega
      | (simp_all [beginTransaction, Transaction.rollback]; omega)
      | simp_all [beginTransaction, Transaction.rollback]
  · have e0 := hnone 0
    have e1 := hnone 1
    have e2 := hnone 2
    have e3 := hnone 3
    have e4 := hnone 4
    simp only [serve, calls] at e0 e1 e2 e3 e4 ⊢
    simp only [createRSO, noFault]
    repeat' split
    all_goals simp_all

theorem getRSOStatus_catches (lib : Library) (st : Store) (c : Credential) (rso_id : Option Nat)
    (f : Faults) :
    CatchesFailures lib st c (.getRSOStatus rso_id) f := by
  refine ⟨fun n err hlt hf hfirst => ?_, fun hnone => ?_⟩
  · have e0 := hfirst 0
    have e1 := hfirst 1
    have e2 := hfirst 2
    have e3 := hfirst 3
    simp only [serve, calls, catchResponse] at hlt ⊢
    simp only [getRSOStatus]
    rcases n with _ | _ | _ | _ | _ | n <;> simp at e0 e1 e2 e3 <;> repeat' split
    all_goals simp_all
  · have e0 := hnone 0
    have e1 := hnone 1
    have e2 := hnone 2
    have e3 := hnone 3
    have e4 := hnone 4
    simp only [serve, calls] at e0 e1 e2 e3 e4 ⊢
    simp only [getRSOStatus, noFault]
    repeat' split
    all_goals simp_all

theorem getRSOId_catches (lib : Library) (st : Store) (c : Credential) (user_id : Option Nat)
    (f : Faults) :
    CatchesFailures lib st c (.getRSOId user_id) f := by
  refine ⟨fun n err hlt hf hfirst => ?_, fun hnone => ?_⟩
  · have e0 := hfirst 0
    have e1 := hfirst 1
    have e2 := hfirst 2
    have e3 := hfirst 3
    simp only [serve, calls, catchResponse] at hlt ⊢
    simp only [getRSOId]
    rcases n with _ | _ | _ | _ | _ | n <;> simp at e0 e1 e2 e3 <;> repeat' split
    all_goals simp_all
  · have e0 := hnone 0
    have e1 := hnone 1
    have e2 := hnone 2
    have e3 := hnone 3
    have e4 := hnone 4
    simp only [serve, calls] at e0 e1 e2 e3 e4 ⊢
    simp only [getRSOId, noFault]
    repeat' split
    all_goals simp_all

theorem createEvent_catches (lib : Library) (st : Store) (c : Credential) (body : EventBody)
    (f : Faults) : CatchesFailures lib st c (.createEvent body) f := by
  refine ⟨fun n err hlt hf _ => ?_, fun hnone => ?_⟩
  · simp only [serve, calls, catchResponse] at hlt ⊢
    simp only [createEvent]
    generalize ((if jsTrim body.name ≠ "" then [] else ["name"]) ++
      (if jsTrim body.description ≠ "" then [] else ["description"]) ++
      (if body.category ∈ ["social", "fundraising", "tech talk", "other"] then []
        else ["category"]) ++
      (if body.visibility ∈ ["public", "private", "rso"] then [] else ["visibility"]) :
      List String) = errors at hlt ⊢
    cases hA : authenticateToken c with
    | error res =>
      rw [hA] at hlt
      exact absurd hlt (Nat.not_lt_zero n)
    | ok user =>
      rw [hA] at hlt
      cases errors with
      | cons e es => exact absurd hlt (Nat.not_lt_zero n)
      | nil =>
        have hn : n = 0 := by
          simp only [List.isEmpty, Bool.not_true, Bool.false_eq_true, if_false] at hlt
          omega
        subst hn
        simp only [List.isEmpty, Bool.not_true, Bool.false_eq_true, if_false, hf]
  · have e0 := hnone 0
    simp only [serve, calls] at e0 ⊢
    simp only [createEvent, noFault]
    generalize ((if jsTrim body.name ≠ "" then [] else ["name"]) ++
      (if jsTrim body.description ≠ "" then [] else ["description"]) ++
      (if body.category ∈ ["social", "fundraising", "tech talk", "other"] then []
        else ["category"]) ++
      (if body.visibility ∈ ["public", "private", "rso"] then [] else ["visibility"]) :
      List String) = errors at e0 ⊢
    cases hA : authenticateToken c with
    | error res => rfl
    | ok user =>
      rw [hA] at e0
      cases errors with
      | cons e es => rfl
      | nil =>
        simp only [List.isEmpty, Bool.not_true, Bool.false_eq_true, if_false] at e0 ⊢
        rw [e0 (by omega)]

theorem getEventList_catches (lib : Library) (st : Store) (c : Credential)
    (university_id rso_id : Option Nat) (f : Faults) :
    CatchesFailures lib st c (.getEventList university_id rso_id) f := by
  refine ⟨fun n err hlt hf hfirst => ?_, fun hnone => ?_⟩
  · have e0 := hfirst 0
    have e1 := hfirst 1
    have e2 := hfirst 2
    have e3 := hfirst 3
    simp only [serve, calls, catchResponse] at hlt ⊢
    simp only [getEventList]
    rcases n with _ | _ | _ | _ | _ | n <;> simp at e0 e1 e2 e3 <;> repeat' split
    all_goals simp_all
  · have e0 := hnone 0
    have e1 := hnone 1
    have e2 := hnone 2
    have e3 := hnone 3
    have e4 := hnone 4
    simp only [serve, calls] at e0 e1 e2 e3 e4 ⊢
    simp only [getEventList, noFault]
    repeat' split
    all_goals simp_all

theorem getUniLevelEvents_catches (lib : Library) (st : Store) (c : Credential) (user_id : Nat)
    (f : Faults) :
    CatchesFailures lib st c (.getUniLevelEvents user_id) f := by
  refine ⟨fun n err hlt hf hfirst => ?_, fun hnone => ?_⟩
  · have e0 := hfirst 0
    have e1 := hfirst 1
    have e2 := hfirst 2
    have e3 := hfirst 3
    simp only [serve, calls, catchResponse] at hlt ⊢
    simp only [getUniLevelEventsRoute]
    rcases n with _ | _ | _ | _ | _ | n <;> simp at e0 e1 e2 e3 <;> repeat' split
    all_goals simp_all
  · have e0 := hnone 0
    have e1 := hnone 1
    have e2 := hnone 2
    have e3 := hnone 3
    have e4 := hnone 4
    simp only [serve, calls] at e0 e1 e2 e3 e4 ⊢
    simp only [getUniLevelEventsRoute, noFault]
    repeat' split
    all_goals simp_all

theorem getRSOLevelEvents_catches (lib : Library) (st : Store) (c : Credential) (user_id : Nat)
    (f : Faults) :
    CatchesFailures lib st c (.getRSOLevelEvents user_id) f := by
  refine ⟨fun n err hlt hf hfirst => ?_, fun hnone => ?_⟩
  · have e0 := hfirst 0
    have e1 := hfirst 1
    have e2 := hfirst 2
    have e3 := hfirst 3
    simp only [serve, calls, catchResponse] at hlt ⊢
    simp only [getRSOLevelEventsRoute]
    rcases n with _ | _ | _ | _ | _ | n <;> simp at e0 e1 e2 e3 <;> repeat' split
    all_goals first
      | omega
      | (simp_all; omega)
      | simp_all
  · have e0 := hnone 0
    have e1 := hnone 1
    have e2 := hnone 2
    have e3 := hnone 3
    have e4 := hnone 4
    simp only [serve, calls] at e0 e1 e2 e3 e4 ⊢
    simp only [getRSOLevelEventsRoute, noFault]
    repeat' split
    all_goals simp_all

theorem getStudentLevelEvents_catches (lib : Library) (st : Store) (c : Credential)
    (user_id : Nat) (f : Faults) :
    CatchesFailures lib st c (.getStudentLevelEvents user_id) f := by
  refine ⟨fun n err hlt hf hfirst => ?_, fun hnone => ?_⟩
  · have e0 := hfirst 0
    have e1 := hfirst 1
    have e2 := hfirst 2
    have e3 := hfirst 3
    simp only [serve, calls, catchResponse] at hlt ⊢
    simp only [getStudentLevelEventsRoute]
    rcases n with _ | _ | _ | _ | _ | n <;> simp at e0 e1 e2 e3 <;> repeat' split
    all_goals first
      | omega
      | (simp_all; omega)
      | simp_all
  · have e0 := hnone 0
    have e1 := hnone 1
    have e2 := hnone 2
    have e3 := hnone 3
    have e4 := hnone 4
    simp only [serve, calls] at e0 e1 e2 e3 e4 ⊢
    simp only [getStudentLevelEventsRoute, noFault]
    repeat' split
    all_goals simp_all

theorem updateEvent_catches (lib : Library) (st : Store) (c : Credential) (event_id : Nat)
    (updates : Event → Event) (f : Faults) :
    CatchesFailures lib st c (.updateEvent event_id updates) f := by
  refine ⟨fun n err hlt hf hfirst => ?_, fun hnone => ?_⟩
  · have e0 := hfirst 0
    have e1 := hfirst 1
    have e2 := hfirst 2
    have e3 := hfirst 3
    simp only [serve, calls, catchResponse] at hlt ⊢
    simp only [updateEvent]
    rcases n with _ | _ | _ | _ | _ | n <;> simp at e0 e1 e2 e3 <;> repeat' split
    all_goals first
      | omega
      | (simp_all; omega)
      | simp_all
  · have e0 := hnone 0
    have e1 := hnone 1
    have e2 := hnone 2
    have e3 := hnone 3
    have e4 := hnone 4
    simp only [serve, calls] at e0 e1 e2 e3 e4 ⊢
    simp only [updateEvent, noFault]
    repeat' split
    all_goals simp_all

theorem addComment_catches (lib : Library) (st : Store) (c : Credential) (event_id : Option Nat)
    (comment : String) (user_id : Nat) (f : Faults) :
    CatchesFailures lib st c (.addComment event_id comment user_id) f := by
  refine ⟨fun n err hlt hf hfirst => ?_, fun hnone => ?_⟩
  · have e0 := hfirst 0
    have e1 := hfirst 1
    have e2 := hfirst 2
    have e3 := hfirst 3
    simp only [serve, calls, catchResponse] at hlt ⊢
    simp only [addComment]
    rcases n with _ | _ | _ | _ | _ | n <;> simp at e0 e1 e2 e3 <;> repeat' split
    all_goals simp_all
  · have e0 := hnone 0
    have e1 := hnone 1
    have e2 := hnone 2
    have e3 := hnone 3
    have e4 := hnone 4
    simp only [serve, calls] at e0 e1 e2 e3 e4 ⊢
    simp only [addComment, noFault]
    repeat' split
    all_goals simp_all

theorem updateComment_catches (lib : Library) (st : Store) (c : Credential) (comment_id : Nat)
    (comment : String) (user_id : Option Nat) (f : Faults) :
    CatchesFailures lib st c (.updateComment comment_id comment user_id) f := by
  refine ⟨fun n err hlt hf hfirst => ?_, fun hnone => ?_⟩
  · have e0 := hfirst 0
    have e1 := hfirst 1
    have e2 := hfirst 2
    have e3 := hfirst 3
    simp only [serve, calls, catchResponse] at hlt ⊢
    simp only [updateComment]
    rcases n with _ | _ | _ | _ | _ | n <;> simp at e0 e1 e2 e3 <;> repeat' split
    all_goals first
      | omega
      | (simp_all; omega)
      | simp_all
  · have e0 := hnone 0
    have e1 := hnone 1
    have e2 := hnone 2
    have e3 := hnone 3
    have e4 := hnone 4
    simp only [serve, calls] at e0 e1 e2 e3 e4 ⊢
    simp only [updateComment, noFault]
    repeat' split
    all_goals simp_all

theorem deleteComment_catches (lib : Library) (st : Store) (c : Credential) (comment_id : Nat)
    (user_id : Option Nat) (f : Faults) :
    CatchesFailures lib st c (.deleteComment comment_id user_id) f := by
  refine ⟨fun n err hlt hf hfirst => ?_, fun hnone => ?_⟩
  · have e0 := hfirst 0
    have e1 := hfirst 1
    have e2 := hfirst 2
    have e3 := hfirst 3
    simp only [serve, calls, catchResponse] at hlt ⊢
    simp only [deleteComment]
    rcases n with _ | _ | _ | _ | _ | n <;> simp at e0 e1 e2 e3 <;> repeat' split
    all_goals first
      | omega
      | (simp_all; omega)
      | simp_all
  · have e0 := hnone 0
    have e1 := hnone 1
    have e2 := hnone 2
    have e3 := hnone 3
    have e4 := hnone 4
    simp only [serve, calls] at e0 e1 e2 e3 e4 ⊢
    simp only [deleteComment, noFault]
    repeat' split
    all_goals simp_all

theorem getCommentList_catches (lib : Library) (st : Store) (c : Credential)
    (event_id : Option Nat) (f : Faults) :
    CatchesFailures lib st c (.getCommentList event_id) f := by
  refine ⟨fun n err hlt hf hfirst => ?_, fun hnone => ?_⟩
  · have e0 := hfirst 0
    have e1 := hfirst 1
    have e2 := hfirst 2
    have e3 := hfirst 3
    simp only [serve, calls, catchResponse] at hlt ⊢
    simp only [getCommentList]
    rcases n with _ | _ | _ | _ | _ | n <;> simp at e0 e1 e2 e3 <;> repeat' split
    all_goals simp_all
  · have e0 := hnone 0
    have e1 := hnone 1
    have e2 := hnone 2
    have e3 := hnone 3
    have e4 := hnone 4
    simp only [serve, calls] at e0 e1 e2 e3 e4 ⊢
    simp only [getCommentList, noFault]
    repeat' split
    all_goals simp_all

theorem addOrUpdateRating_catches (lib : Library) (st : Store) (c : Credential)
    (event_id user_id : Option Nat) (rating : Option Int) (f : Faults) :
    CatchesFailures lib st c (.addOrUpdateRating event_id user_id rating) f := by
  refine ⟨fun n err hlt hf hfirst => ?_, fun hnone => ?_⟩
  · have e0 := hfirst 0
    have e1 := hfirst 1
    have e2 := hfirst 2
    have e3 := hfirst 3
    simp only [serve, calls, catchResponse] at hlt ⊢
    simp only [addOrUpdateRating]
    rcases n with _ | _ | _ | _ | _ | n <;> simp at e0 e1 e2 e3 <;> repeat' split
    all_goals simp_all
  · have e0 := hnone 0
    have e1 := hnone 1
    have e2 := hnone 2
    have e3 := hnone 3
    have e4 := hnone 4
    simp only [serve, calls] at e0 e1 e2 e3 e4 ⊢
    simp only [addOrUpdateRating, noFault]
    repeat' split
    all_goals simp_all

theorem getAverage_catches (lib : Library) (st : Store) (c : Credential) (event_id : Nat)
    (f : Faults) :
    CatchesFailures lib st c (.getAverage event_id) f := by
  refine ⟨fun n err hlt hf hfirst => ?_, fun hnone => ?_⟩
  · have e0 := hfirst 0
    have e1 := hfirst 1
    have e2 := hfirst 2
    have e3 := hfirst 3
    simp only [serve, calls, catchResponse] at hlt ⊢
    simp only [getAverage]
    rcases n with _ | _ | _ | _ | _ | n <;> simp at e0 e1 e2 e3 <;> repeat' split
    all_goals simp_all
  · have e0 := hnone 0
    have e1 := hnone 1
    have e2 := hnone 2
    have e3 := hnone 3
    have e4 := hnone 4
    simp only [serve, calls] at e0 e1 e2 e3 e4 ⊢
    simp only [getAverage, noFault]
    repeat' split
    all_goals simp_all

theorem getUserRating_catches (lib : Library) (st : Store) (c : Credential)
    (event_id user_id : Nat) (f : Faults) :
    CatchesFailures lib st c (.getUserRating event_id user_id) f := by
  refine ⟨fun n err hlt hf hfirst => ?_, fun hnone => ?_⟩
  · have e0 := hfirst 0
    have e1 := hfirst 1
    have e2 := hfirst 2
    have e3 := hfirst 3
    simp only [serve, calls, catchResponse] at hlt ⊢
    simp only [getUserRating]
    rcases n with _ | _ | _ | _ | _ | n <;> simp at e0 e1 e2 e3 <;> repeat' split
    all_goals simp_all
  · have e0 := hnone 0
    have e1 := hnone 1
    have e2 := hnone 2
    have e3 := hnone 3
    have e4 := hnone 4
    simp only [serve, calls] at e0 e1 e2 e3 e4 ⊢
    simp only [getUserRating, noFault]
    repeat' split
    all_goals simp_all

theorem addBuildings_catches (lib : Library) (st : Store) (c : Credential)
    (buildings : Option (List BuildingBody)) (university_id : Option Nat) (f : Faults) :
    CatchesFailures lib st c (.addBuildings buildings university_id) f := by
  refine ⟨fun n err hlt hf hfirst => ?_, fun hnone => ?_⟩
  · have e0 := hfirst 0
    have e1 := hfirst 1
    have e2 := hfirst 2
    have e3 := hfirst 3
    simp only [serve, calls, catchResponse] at hlt ⊢
    simp only [addBuildings]
    rcases n with _ | _ | _ | _ | _ | n <;> simp at e0 e1 e2 e3 <;> repeat' split
    all_goals first
      | omega
      | (simp_all; omega)
      | simp_all
  · have e0 := hnone 0
    have e1 := hnone 1
    have e2 := hnone 2
    have e3 := hnone 3
    have e4 := hnone 4
    simp only [serve, calls] at e0 e1 e2 e3 e4 ⊢
    simp only [addBuildings, noFault]
    repeat' split
    all_goals simp_all

theorem serve_catches (lib : Library) (st : Store) (c : Credential) (req : Request)
    (f : Faults) : CatchesFailures lib st c req f := by
  cases req with
  | welcome => exact welcome_catches lib st c f
  | login email password => exact login_catches lib st c email password f
  | register email password role => exact register_catches lib st c email password role f
  | getUserId email => exact getUserId_catches lib st c email f
  | getUser user_id => exact getUser_catches lib st c user_id f
  | getUserList => exact getUserList_catches lib st c f
  | updateUser user_id email password =>
    exact updateUser_catches lib st c user_id email password f
  | deleteUser user_id => exact deleteUser_catches lib st c user_id f
  | createUniversity name location description num_students website user_id =>
    exact createUniversity_catches lib st c name location description num_students website user_id f
  | getActiveUniversityList => exact getActiveUniversityList_catches lib st c f
  | getPendingUniversityList => exact getPendingUniversityList_catches lib st c f
  | getActiveRSOList => exact getActiveRSOList_catches lib st c f
  | getPendingRSOList => exact getPendingRSOList_catches lib st c f
  | getInactiveRSOList => exact getInactiveRSOList_catches lib st c f
  | approveRSO rso_id => exact approveRSO_catches lib st c rso_id f
  | getActiveStudentList => exact getActiveStudentList_catches lib st c f
  | getPendingStudentList => exact getPendingStudentList_catches lib st c f
  | approveStudent student_id => exact approveStudent_catches lib st c student_id f
  | createStudent first_name last_name university_id user_id =>
    exact createStudent_catches lib st c first_name last_name university_id user_id f
  | getStudentStatus user_id => exact getStudentStatus_catches lib st c user_id f
  | joinRSO user_id rso_id => exact joinRSO_catches lib st c user_id rso_id f
  | getUniId user_id => exact getUniId_catches lib st c user_id f
  | createRSO name university_id rso_admin =>
    exact createRSO_catches lib st c name university_id rso_admin f
  | getRSOStatus rso_id => exact getRSOStatus_catches lib st c rso_id f
  | getRSOId user_id => exact getRSOId_catches lib st c user_id f
  | createEvent body => exact createEvent_catches lib st c body f
  | getEventList university_id rso_id =>
    exact getEventList_catches lib st c university_id rso_id f
  | getUniLevelEvents user_id => exact getUniLevelEvents_catches lib st c user_id f
  | getRSOLevelEvents user_id => exact getRSOLevelEvents_catches lib st c user_id f
  | getStudentLevelEvents user_id => exact getStudentLevelEvents_catches lib st c user_id f
  | updateEvent event_id updates => exact updateEvent_catches lib st c event_id updates f
  | addComment event_id comment user_id =>
    exact addComment_catches lib st c event_id comment user_id f
  | updateComment comment_id comment user_id =>
    exact updateComment_catches lib st c comment_id comment user_id f
  | deleteComment comment_id user_id => exact deleteComment_catches lib st c comment_id user_id f
  | getCommentList event_id => exact getCommentList_catches lib st c event_id f
  | addOrUpdateRating event_id user_id rating =>
    exact addOrUpdateRating_catches lib st c event_id user_id rating f
  | getAverage event_id => exact getAverage_catches lib st c event_id f
  | getUserRating event_id user_id => exact getUserRating_catches lib st c event_id user_id f
  | addBuildings buildings university_id =>
    exact addBuildings_catches lib st c buildings university_id f

theorem catchResponse_of_other_code (req : Request) (err : StoreError)
    (h : err.code ≠ "ER_DUP_ENTRY") : catchResponse req err = ⟨500, .error err.message⟩ := by
  cases req <;> simp only [catchResponse, if_neg h]

theorem catchResponse_eq_errorHandler (req : Request) (err : StoreError)
    (h : catchResponse req err = errorHandler) : err.message = "Something went wrong!" := by
  cases req <;> simp only [catchResponse, errorHandler] at h <;> (try split at h) <;>
    simp_all

theorem serve_noFault_ne_errorHandler (lib : Library) (st : Store) (c : Credential)
    (req : Request) : (serve lib st c noFault req).1 ≠ errorHandler := by
  cases req <;> cases c <;>
    simp only [serve, noFault, errorHandler, welcome, login, register, getUserId, getUser,
      getUserList, updateUser, deleteUser, createUniversity, getUniversityList, getRSOList,
      getStudentList, approveRSORoute, approveRSO, approveStudentRoute, approveStudent,
      createStudent, getStudentStatus, joinRSORoute, joinRSO, getUniId, createRSO,
      getRSOStatus, getRSOId, createEvent, getEventList, getUniLevelEventsRoute,
      getUniLevelEvents, getRSOLevelEventsRoute, getRSOLevelEvents,
      getStudentLevelEventsRoute, getStudentLevelEvents, updateEvent, addComment,
      updateComment, deleteComment, getCommentList, addOrUpdateRating, getAverage,
      getUserRating, addBuildings, authenticateToken, typeErrorMessage] <;>
    repeat' split
  all_goals first
    | decide
    | simp

theorem catchResponse_of_plain (req : Request) (err : StoreError)
    (h : err.code = "ER_DUP_ENTRY" →
      (∀ email password role, req ≠ .register email password role) ∧
      (∀ user_id rso_id, req ≠ .joinRSO user_id rso_id)) :
    catchResponse req err = ⟨500, .error err.message⟩ := by
  by_cases hc : err.code = "ER_DUP_ENTRY"
  · cases req <;> first
      | rfl
      | exact absurd rfl ((h hc).1 _ _ _)
      | exact absurd rfl ((h hc).2 _ _)
  · exact catchResponse_of_other_code req err hc

/-- C26 (amended): every handler catches the errors of its calls to the store, and the
answer shows the text of the error.  For a request served on `st` under the outcome `f`
of the calls:
when call `n` is one that the handler makes (`n < calls`), raises `err`, and the calls
before it execute, the store is left as it was and the answer is 500 with `err.message`
as its body, except that `register` and `joinRSO` answer the code `ER_DUP_ENTRY` with a
fixed 400;
when every call that the handler makes executes, the result is the one with no failure;
under a second outcome `g` that differs from `f` at most in the text of the errors, the
two results are equal, or both are such a 500, each with the text of its own error;
and the response is the fixed one of `errorHandler` only when a call has raised an error
with that very text. -/
theorem store_failure_is_caught_and_shown (lib : Library) (st : Store) (c : Credential)
    (req : Request) (f : Faults) :
    (∀ n err, n < calls lib st c req → f n = some err → (∀ k, k < n → f k = none) →
      ((err.code = "ER_DUP_ENTRY" →
          (∀ email password role, req ≠ .register email password role) ∧
          (∀ user_id rso_id, req ≠ .joinRSO user_id rso_id)) →
        serve lib st c f req = (⟨500, .error err.message⟩, st)) ∧
      (∀ email password role, req = .register email password role →
        err.code = "ER_DUP_ENTRY" →
        serve lib st c f req = (⟨400, .error "Email already exists"⟩, st)) ∧
      (∀ user_id rso_id, req = .joinRSO user_id rso_id → err.code = "ER_DUP_ENTRY" →
        serve lib st c f req =
          (⟨400, .error "User already requested to join this RSO"⟩, st))) ∧
    ((∀ n, n < calls lib st c req → f n = none) →
      serve lib st c f req = serve lib st c noFault req) ∧
    (∀ g, SameFailures f g →
      serve lib st c f req = serve lib st c g req ∨
      ∃ n e e', f n = some e ∧ g n = some e' ∧
        serve lib st c f req = (⟨500, .error e.message⟩, st) ∧
        serve lib st c g req = (⟨500, .error e'.message⟩, st)) ∧
    ((serve lib st c f req).1 = errorHandler →
      ∃ n err, f n = some err ∧ err.message = "Something went wrong!") := by
  have hc := serve_catches lib st c req f
  refine ⟨fun n err hlt hf hfirst => ?_, hc.2,
    fun g hg => serve_caughtAlike lib st c req f g hg, fun he => ?_⟩
  · have h1 := hc.1 n err hlt hf hfirst
    refine ⟨fun hplain => ?_, fun email password role hreq hcode => ?_,
      fun user_id rso_id hreq hcode => ?_⟩
    · rw [h1, catchResponse_of_plain req err hplain]
    · rw [h1, hreq]
      simp only [catchResponse, if_pos hcode]
    · rw [h1, hreq]
      simp only [catchResponse, if_pos hcode]
  · by_cases hall : ∀ n, n < calls lib st c req → f n = none
    · rw [hc.2 hall] at he
      exact absurd he (serve_noFault_ne_errorHandler lib st c req)
    · have hex : ∃ n, n < calls lib st c req ∧ f n ≠ none := by
        by_contra hno
        apply hall
        intro n hn
        by_contra hne
        exact hno ⟨n, hn, hne⟩
      classical
      obtain ⟨hlt, hne⟩ := Nat.find_spec hex
      obtain ⟨err, herr⟩ := Option.ne_none_iff_exists'.mp hne
      have hfirst : ∀ k, k < Nat.find hex → f k = none := by
        intro k hk
        by_contra hk'
        exact Nat.find_min hex hk ⟨lt_trans hk hlt, hk'⟩
      have h1 := hc.1 _ err hlt herr hfirst
      rw [h1] at he
      exact ⟨_, err, herr, catchResponse_eq_errorHandler req err he⟩

/-- Witness for C26 (amended) on `demoCampus`: the `DELETE` of `deleteUser` raises a
deadlock and the answer is 500 with its text; `register` and `joinRSO` answer
`ER_DUP_ENTRY` with their 400; a failure of call 7, which `deleteUser` does not make,
changes nothing; `register` under the two refusals of call 0; and `getUserList` answers
with the message of `errorHandler` when that is the text of the error. -/
theorem store_failure_is_caught_and_shown_witness :
    serve demoLibrary demoCampus .absent demoDeadlock (.deleteUser (some 100)) =
        (⟨500, .error
          "Deadlock found when trying to get lock; try restarting transaction"⟩,
         demoCampus) ∧
      serve demoLibrary demoCampus .absent demoDuplicate
          (.register "new@ucf.edu" "secret1" "student") =
        (⟨400, .error "Email already exists"⟩, demoCampus) ∧
      serve demoLibrary demoCampus .absent demoDuplicate (.joinRSO (some 100) (some 1)) =
        (⟨400, .error "User already requested to join this RSO"⟩, demoCampus) ∧
      serve demoLibrary demoCampus .absent demoLateFailure (.deleteUser (some 100)) =
        serve demoLibrary demoCampus .absent noFault (.deleteUser (some 100)) ∧
      (serve demoLibrary demoCampus .absent demoRefusedLocal
          (.register "new@ucf.edu" "secret1" "student") =
        serve demoLibrary demoCampus .absent demoRefusedRemote
          (.register "new@ucf.edu" "secret1" "student") ∨
      ∃ n e e', demoRefusedLocal n = some e ∧ demoRefusedRemote n = some e' ∧
        serve demoLibrary demoCampus .absent demoRefusedLocal
            (.register "new@ucf.edu" "secret1" "student") =
          (⟨500, .error e.message⟩, demoCampus) ∧
        serve demoLibrary demoCampus .absent demoRefusedRemote
            (.register "new@ucf.edu" "secret1" "student") =
          (⟨500, .error e'.message⟩, demoCampus)) ∧
      ∃ n err, demoWentWrong n = some err ∧ err.message = "Something went wrong!" :=
  ⟨((store_failure_is_caught_and_shown demoLibrary demoCampus .absent
        (.deleteUser (some 100)) demoDeadlock).1 1 _ (by decide) rfl
        (fun k hk => by
          have h0 : k = 0 := by omega
          rw [h0]
          rfl)).1 (fun h => absurd h (by decide)),
   ((store_failure_is_caught_and_shown demoLibrary demoCampus .absent
        (.register "new@ucf.edu" "secret1" "student") demoDuplicate).1 0 _ (by decide) rfl
        (fun k hk => absurd hk (Nat.not_lt_zero k))).2.1 _ _ _ rfl rfl,
   ((store_failure_is_caught_and_shown demoLibrary demoCampus .absent
        (.joinRSO (some 100) (some 1)) demoDuplicate).1 0 _ (by decide) rfl
        (fun k hk => absurd hk (Nat.not_lt_zero k))).2.2 _ _ rfl rfl,
   (store_failure_is_caught_and_shown demoLibrary demoCampus .absent
        (.deleteUser (some 100)) demoLateFailure).2.1
        (fun n hn => by
          have h2 : calls demoLibrary demoCampus .absent (.deleteUser (some 100)) = 2 := by
            decide
          rw [h2] at hn
          have h7 : n ≠ 7 := by omega
          simp only [demoLateFailure, if_neg h7]),
   (store_failure_is_caught_and_shown demoLibrary demoCampus .absent
        (.register "new@ucf.edu" "secret1" "student") demoRefusedLocal).2.2.1
        demoRefusedRemote demoRefused_sameFailures,
   (store_failure_is_caught_and_shown demoLibrary demoCampus .absent .getUserList
        demoWentWrong).2.2.2 (by decide)⟩

end EventManager
